import Mathlib

/-!
# SecretInventoryManagement: the session controller of `public/app.js`

A shallow embedding of the class `SecretInventoryManager` (file `src/public/app.js`).

* The fields `this.contract`, `this.provider`, `this.signer` and the
  `data-requires-auth` attribute of the four manager buttons form the
  `Controller` state.
* Every `async` method is a function in the monad `M`: it threads the
  controller and a chronological log of the observable effects (statuses
  shown, contract queries and commands, help panels, renderings), and it can
  raise a JavaScript exception (`Err`, with the `message` and `code` of the
  thrown error).  `try ... catch` is `tryCatch`; a `return` inside a `try`
  whose `catch` ends the method is the end of the `try` body.
* Everything the method awaits from outside (wallet provider, chain, ethers
  helpers, dialogs) is read from a `World`: one record of outcomes, fixed for
  the duration of one method call.
* DOM look-ups are assumed to succeed (the page contains the elements the
  script names); DOM writes are logged as effects, `console.error` lines by
  their label, `console.log` lines not at all.
* A method call runs to completion before the next one starts: the
  interleaving of two pending `async` calls at their `await` points is not
  modelled.  The four refreshes of `Promise.all` are taken one after the
  other; statements about them do not depend on how they interleave.
-/

namespace SecretInventory

/-! ## JavaScript values -/

/-- A thrown JavaScript error: `error.message` and `error.code` (every thrown value is taken to be
an `Error` object, as those of the wallet provider and of ethers are). -/
structure Err where
  message : String
  code : String := ""
deriving DecidableEq, Repr

/-- A JavaScript number as the script meets them (results of `parseInt`, loop counters): `NaN`, a
double whose value is the integer `value`, or an infinity. The zero `-0` is identified with `0`. -/
inductive JSNum where
  | nan
  | num (value : Int)
  | infinity (negative : Bool)
deriving DecidableEq, Repr

/-- Characters of `pat` occur contiguously in `s` (`String.prototype.includes` on code points). -/
def includesChars (pat : List Char) : List Char → Bool
  | [] => pat.isEmpty
  | c :: cs => pat.isPrefixOf (c :: cs) || includesChars pat cs

/-- The call `s.includes(pat)`. -/
def includes (s pat : String) : Bool := includesChars pat.data s.data

/-- White space and line terminators skipped by `parseInt`. -/
def isJSWhiteSpace (c : Char) : Bool :=
  c.val = 0x09 || c.val = 0x0A || c.val = 0x0B || c.val = 0x0C || c.val = 0x0D ||
  c.val = 0x20 || c.val = 0xA0 || c.val = 0x1680 ||
  (0x2000 ≤ c.val && c.val ≤ 0x200A) ||
  c.val = 0x2028 || c.val = 0x2029 || c.val = 0x202F || c.val = 0x205F ||
  c.val = 0x3000 || c.val = 0xFEFF

/-- Value of a digit character in the given radix (10 or 16), if it is one. -/
def digitValue (radix : Nat) (c : Char) : Option Nat :=
  if c.isDigit then some (c.toNat - 48)
  else if radix = 16 ∧ 97 ≤ c.toNat ∧ c.toNat ≤ 102 then some (c.toNat - 87)
  else if radix = 16 ∧ 65 ≤ c.toNat ∧ c.toNat ≤ 70 then some (c.toNat - 55)
  else none

/-- The longest run of leading digits, as values, most significant first. -/
def leadingDigits (radix : Nat) : List Char → List Nat
  | [] => []
  | c :: cs =>
    match digitValue radix c with
    | some d => d :: leadingDigits radix cs
    | none => []

/-- Drop leading white space. -/
def dropWhiteSpace : List Char → List Char
  | [] => []
  | c :: cs => if isJSWhiteSpace c then dropWhiteSpace cs else c :: cs

/-- Digits of a `parseInt` argument after white space and sign: radix 16 after `0x`/`0X`, else 10. -/
def parseDigits : List Char → List Nat
  | '0' :: 'x' :: cs => leadingDigits 16 cs
  | '0' :: 'X' :: cs => leadingDigits 16 cs
  | cs => leadingDigits 10 cs

/-- Radix chosen by `parseInt` without a radix argument. -/
def parseRadix : List Char → Nat
  | '0' :: 'x' :: _ => 16
  | '0' :: 'X' :: _ => 16
  | _ => 10

/-- Unsigned part of `parseInt`: `none` when no digit follows. -/
def parseMagnitude (cs : List Char) : Option Nat :=
  match parseDigits cs with
  | [] => none
  | ds => some (ds.foldl (fun acc d => acc * parseRadix cs + d) 0)

/-- Number of binary digits of `m`, by halving; `fuel` bounds the number of halvings. -/
def bitLengthAux : Nat → Nat → Nat
  | 0, _ => 0
  | fuel + 1, m => if m = 0 then 0 else bitLengthAux fuel (m / 2) + 1

/-- Number of binary digits of `m` (`0` for `0`). -/
def bitLength (m : Nat) : Nat := bitLengthAux m m

/-- The double nearest to the integer `m` (significand of 53 bits, ties to the even significand):
its value, or `none` when the nearest double is `Infinity` (from `2^1024 - 2^970` on). -/
def nearestDouble (m : Nat) : Option Nat :=
  let e := bitLength m - 53
  let q := m / 2 ^ e
  let r := m % 2 ^ e
  let q1 := if 2 ^ e < 2 * r ∨ (2 * r = 2 ^ e ∧ q % 2 = 1) then q + 1 else q
  if bitLength (q1 * 2 ^ e) ≤ 1024 then some (q1 * 2 ^ e) else none

/-- The Number value of the integer with the given sign and magnitude. -/
def toNumber (negative : Bool) (m : Nat) : JSNum :=
  match nearestDouble m with
  | some v => JSNum.num (if negative then - (v : Int) else (v : Int))
  | none => JSNum.infinity negative

/-- The Number value of an optional magnitude: `NaN` when there is no digit. -/
def signedNumber (negative : Bool) : Option Nat → JSNum
  | none => JSNum.nan
  | some m => toNumber negative m

/-- Global `parseInt(string)` with no radix argument: the digits are read exactly and the result is
the nearest double, as the browsers compute it. -/
def parseInt (s : String) : JSNum :=
  match dropWhiteSpace s.data with
  | '-' :: cs => signedNumber true (parseMagnitude cs)
  | '+' :: cs => signedNumber false (parseMagnitude cs)
  | cs => signedNumber false (parseMagnitude cs)

/-- The comparison `a > b` on numbers: false when either side is `NaN`. -/
def jsGreater : JSNum → JSNum → Bool
  | JSNum.num a, JSNum.num b => decide (a > b)
  | JSNum.infinity false, JSNum.num _ => true
  | JSNum.num _, JSNum.infinity true => true
  | JSNum.infinity false, JSNum.infinity true => true
  | _, _ => false

/-- The call `Math.abs(a)`: `NaN` stays `NaN`, both infinities give `Infinity`. -/
def mathAbs : JSNum → JSNum
  | JSNum.num a => JSNum.num ((a.natAbs : Nat) : Int)
  | JSNum.infinity _ => JSNum.infinity false
  | JSNum.nan => JSNum.nan

/-- The expression `s.slice(0, 6) + '...' + s.slice(-4)` used to shorten addresses. -/
def shorten (s : String) : String := s.take 6 ++ "..." ++ s.takeRight 4

/-! ## Data returned by the wallet and the contract -/

/-- The signer returned by `provider.getSigner()`, identified by its account. -/
structure Signer where
  address : String
deriving DecidableEq, Repr

/-- The object `new ethers.BrowserProvider(window.ethereum)`. -/
inductive Provider where
  | browser
deriving DecidableEq, Repr

/-- The object `new ethers.Contract(contractAddress, contractABI, this.signer)`: address and ABI are
constants of the class, `boundSigner` is the value of `this.signer` at construction. -/
structure Handle where
  boundSigner : Option Signer
deriving DecidableEq, Repr

/-- Integer values as JavaScript sees them: a `number` or a `bigint`. -/
inductive JSInt where
  | number (n : Nat)
  | bigint (n : Nat)
deriving DecidableEq, Repr

/-- Strict equality `a === b`: values of different types are never equal. -/
def JSInt.strictEq : JSInt → JSInt → Bool
  | JSInt.number a, JSInt.number b => a == b
  | JSInt.bigint a, JSInt.bigint b => a == b
  | _, _ => false

/-- Result of `provider.getNetwork()`. -/
structure Network where
  chainId : Nat
  name : String
deriving DecidableEq, Repr

/-- Result of `getContractStats()`. -/
structure Stats where
  totalItems : Nat
  totalOrders : Nat
  activeItemsCount : Nat
  pendingOrdersCount : Nat
deriving DecidableEq, Repr

/-- Result of `getItemInfo(id)`. -/
structure ItemInfo where
  itemName : String
  supplier : String
  isActive : Bool
  createdAt : Nat
  lastUpdated : Nat
deriving DecidableEq, Repr

/-- Result of `getOrderInfo(id)`; ethers v6 decodes every integer as a bigint. -/
structure OrderInfo where
  itemId : Nat
  status : Nat
  createdAt : Nat
  processedAt : Nat
deriving DecidableEq, Repr

/-- Read-only contract calls made by the controller. -/
inductive Query where
  | getContractStats
  | authorizedManagers (address : String)
  | getItemInfo (itemId : JSNum)
  | getOrderInfo (orderId : JSNum)
deriving DecidableEq, Repr

/-- State-changing contract calls (the business mutations of the interface). -/
inductive Command where
  | addInventoryItem (quantity : JSNum) (price : Int) (minStockLevel : JSNum)
      (itemName : String) (supplier : String)
  | updateStock (itemId : Nat) (quantityChange : JSNum) (isAddition : Bool)
  | placeOrder (itemId : JSNum) (requestedQuantity : JSNum)
  | processOrder (orderId : Nat) (status : Nat)
  | authorizeManager (manager : String)
  | grantInventoryAccess (itemId : JSNum) (user : String)
  | emergencyPause
deriving DecidableEq, Repr

/-- Item projection pushed by `loadInventoryData`; the dates are kept as the seconds they are built from. -/
structure InventoryItem where
  id : Nat
  name : String
  supplier : String
  isActive : Bool
  createdAt : Nat
  lastUpdated : Nat
deriving DecidableEq, Repr

/-- Order projection pushed by `loadOrdersData` (it has no `requester` property). -/
structure Order where
  id : Nat
  itemId : String
  status : String
  fulfilled : Bool
  createdAt : Nat
  processedAt : Option Nat
deriving DecidableEq, Repr

/-- Entry pushed by `populateAvailableItems`. -/
structure AvailableItem where
  id : Nat
  name : String
deriving DecidableEq, Repr

/-! ## Controller state, effects, environment -/

/-- The `data-requires-auth` mark of the four manager buttons (`true` when the attribute is `'true'`). -/
structure Gate where
  addItemBtn : Bool := false
  authorizeManagerBtn : Bool := false
  grantAccessBtn : Bool := false
  emergencyPauseBtn : Bool := false
deriving DecidableEq, Repr

/-- Mutable state of `SecretInventoryManager` together with the button marks it maintains. -/
structure Controller where
  contract : Option Handle := none
  provider : Option Provider := none
  signer : Option Signer := none
  gate : Gate := {}
deriving DecidableEq, Repr

/-- Observable effects, in the order the script performs them. -/
inductive Effect where
  | status (message : String) (kind : String)
  | banner (message : String) (kind : String)
  | contractHelp
  | networkHelp
  | clipboard (text : String)
  | consoleError (label : String)
  | walletRequest (method : String)
  | providerCall (method : String)
  | query (via : Handle) (q : Query)
  | command (via : Handle) (c : Command)
  | awaitConfirmation (c : Command)
  | networkStatus (text : String)
  | connectButton (text : String)
  | renderInventory (items : List InventoryItem)
  | inventoryStats (total : Nat) (active : Nat) (lowStock : Nat)
  | renderOrders (orders : List Order)
  | orderStats (pending : Nat) (fulfilled : Nat)
  | renderSuppliers
  | renderAnalytics (text : String)
  | renderSystemStats (stats : Stats)
  | availableItems (items : List AvailableItem)
  | openModal (id : String)
  | closeModal (id : String)
  | clearForm (ids : List String)
  | clearField (id : String)
  | activateTab (name : String)
  | reload
deriving DecidableEq, Repr

/-- Values of the form fields read with `document.getElementById(id).value`. -/
structure Form where
  itemName : String := ""
  itemQuantity : String := ""
  itemPrice : String := ""
  minStockLevel : String := ""
  supplierAddress : String := ""
  orderItemId : String := ""
  orderQuantity : String := ""
  newManagerAddress : String := ""
  accessItemId : String := ""
  accessUserAddress : String := ""
deriving DecidableEq, Repr

/-- Outcomes of everything a method awaits or reads from outside, fixed during one method call. -/
structure World where
  form : Form
  hasEthereum : Bool
  selectedAddress : Bool
  requestAccounts : Except Err Unit
  getSigner : Except Err Signer
  getNetwork : Except Err Network
  getAddress : Except Err String
  getCode : Except Err String
  getContractStats : Except Err Stats
  authorizedManagers : String → Except Err Bool
  getItemInfo : JSNum → Except Err ItemInfo
  getOrderInfo : JSNum → Except Err OrderInfo
  send : Command → Except Err Unit
  confirmation : Command → Except Err Unit
  isAddress : String → Bool
  parseEther : String → Except Err Int
  confirmDialog : Bool
  promptDialog : Option String

/-- Controller and effect log threaded through a method. -/
structure St where
  ctl : Controller
  log : List Effect

/-- Computations of the script: may raise, always return the state reached. -/
def M (α : Type) : Type := St → Except Err α × St

/-- Sequencing: an exception skips the rest. -/
def M.bind {α β : Type} (m : M α) (f : α → M β) : M β := fun s =>
  match m s with
  | (Except.ok a, s1) => f a s1
  | (Except.error e, s1) => (Except.error e, s1)

instance : Monad M where
  pure a := fun s => (Except.ok a, s)
  bind := M.bind

/-- The statement `throw e`. -/
def raise {α : Type} (e : Err) : M α := fun s => (Except.error e, s)

/-- The statement `try body catch (error) handler`. -/
def tryCatch {α : Type} (body : M α) (handler : Err → M α) : M α := fun s =>
  match body s with
  | (Except.ok a, s1) => (Except.ok a, s1)
  | (Except.error e, s1) => handler e s1

/-- Append one effect to the log. -/
def emit (e : Effect) : M Unit := fun s => (Except.ok (), { s with log := s.log ++ [e] })

/-- Read the controller. -/
def getCtl : M Controller := fun s => (Except.ok s.ctl, s)

/-- Update the controller. -/
def modifyCtl (f : Controller → Controller) : M Unit := fun s =>
  (Except.ok (), { s with ctl := f s.ctl })

/-- Await an outcome supplied by the environment. -/
def await {α : Type} (r : Except Err α) : M α := fun s => (r, s)

/-- Effects of one method call started from controller `c`. -/
def trace {α : Type} (m : M α) (c : Controller) : List Effect := (m { ctl := c, log := [] }).2.log

/-- Controller reached by one method call started from `c`. -/
def after {α : Type} (m : M α) (c : Controller) : Controller := (m { ctl := c, log := [] }).2.ctl

/-- Value or exception a method call started from `c` ends with. -/
def result {α : Type} (m : M α) (c : Controller) : Except Err α := (m { ctl := c, log := [] }).1

/-- The `TypeError` raised by a property access on `null`. -/
def nullError : Err := { message := "Cannot read properties of null", code := "" }

/-- The `TypeError` raised by a property access on `undefined`. -/
def undefinedError : Err := { message := "Cannot read properties of undefined", code := "" }

/-- The field `contractAddress` set by the constructor. -/
def contractAddress : String := "0x306F479e7ebabF08c305db0b4Da80708CEd9E22e"

/-- The value of `this.contract`, raising the `TypeError` of a method call on `null`. -/
def theContract : M Handle := fun s =>
  match s.ctl.contract with
  | some h => (Except.ok h, s)
  | none => (Except.error nullError, s)

/-- The value of `this.provider`, raising the `TypeError` of a method call on `null`. -/
def theProvider : M Provider := fun s =>
  match s.ctl.provider with
  | some p => (Except.ok p, s)
  | none => (Except.error nullError, s)

/-- Truthiness test `!s` on a string: only the empty string is falsy. -/
def isBlank (s : String) : Bool := s == ""

/-! ## Status, help and gating -/

/-- Method `showStatus(message, type)`. -/
def showStatus (message kind : String) : M Unit := emit (Effect.status message kind)

/-- Method `showContractHelp()`. -/
def showContractHelp : M Unit := emit Effect.contractHelp

/-- Method `showNetworkHelp()`. -/
def showNetworkHelp : M Unit := emit Effect.networkHelp

/-- Method `showPermissionBanner(message, type)`. -/
def showPermissionBanner (message kind : String) : M Unit := emit (Effect.banner message kind)

/-- Method `closeModal(modalId)`. -/
def closeModal (id : String) : M Unit := emit (Effect.closeModal id)

/-- Method `clearForm(fieldIds)`. -/
def clearForm (ids : List String) : M Unit := emit (Effect.clearForm ids)

/-- Keys of the `networkConfigs` table in `checkAndSwitchNetwork`. -/
def networkConfigs : List Nat := [11155111, 1, 1337]

/-- Method `checkAndSwitchNetwork(network)`. -/
def checkAndSwitchNetwork (network : Network) : M Unit :=
  if networkConfigs.contains network.chainId then
    pure ()
  else
    showStatus "⚠️ Custom network detected. Make sure contract is deployed on this network." "warning"

/-- Method `disableManagerFunctions()`: marks the four manager buttons with `data-requires-auth`. -/
def disableManagerFunctions : M Unit :=
  modifyCtl (fun c => { c with gate :=
    { addItemBtn := true, authorizeManagerBtn := true, grantAccessBtn := true,
      emergencyPauseBtn := true } })

/-- Method `enableManagerFunctions()`: removes `data-requires-auth` from the four manager buttons. -/
def enableManagerFunctions : M Unit :=
  modifyCtl (fun c => { c with gate :=
    { addItemBtn := false, authorizeManagerBtn := false, grantAccessBtn := false,
      emergencyPauseBtn := false } })

/-- Method `verifyContract()`. -/
def verifyContract (w : World) : M Bool :=
  tryCatch (do
    let _provider ← theProvider
    emit (Effect.providerCall "getCode")
    let code ← await w.getCode
    if code = "0x" then do
      emit (Effect.consoleError "No contract deployed at address:")
      pure false
    else
      tryCatch (do
        let contract ← theContract
        emit (Effect.query contract Query.getContractStats)
        let _stats ← await w.getContractStats
        pure true)
        (fun _interfaceError => do
          emit (Effect.consoleError "Contract interface verification failed:")
          pure false))
    (fun _error => do
      emit (Effect.consoleError "Contract verification error:")
      pure false)

/-- Method `checkUserPermissions(address)`. -/
def checkUserPermissions (w : World) (address : String) : M Unit :=
  tryCatch (do
    let contract ← theContract
    emit (Effect.query contract (Query.authorizedManagers address))
    let isManager ← await (w.authorizedManagers address)
    if isManager then do
      showPermissionBanner "✅ Manager Access - You can add items and manage inventory" "success"
      enableManagerFunctions
    else do
      showPermissionBanner "⚠️ Limited Access - Contact owner for manager authorization" "warning"
      disableManagerFunctions)
    (fun _error => do
      emit (Effect.consoleError "Error checking permissions:")
      showPermissionBanner "❌ Permission Check Failed - Some functions may not work" "error")

/-! ## Data refresh -/

/-- Object pushed to `items` for id `i` in `loadInventoryData`. -/
def itemProjection (i : Nat) (item : ItemInfo) : InventoryItem :=
  { id := i, name := item.itemName, supplier := item.supplier, isActive := item.isActive,
    createdAt := item.createdAt, lastUpdated := item.lastUpdated }

/-- The loop `for (let i = ...; i <= totalItems; i++)` of `loadInventoryData`, with `remaining`
iterations left, the next one at `i`, and `items` collected so far. -/
def inventoryLoop (w : World) : (remaining : Nat) → (i : Nat) → List InventoryItem →
    M (List InventoryItem)
  | 0, _, items => pure items
  | remaining + 1, i, items => do
    let items1 ← tryCatch (do
        let contract ← theContract
        emit (Effect.query contract (Query.getItemInfo (JSNum.num (i : Int))))
        let item ← await (w.getItemInfo (JSNum.num (i : Int)))
        pure (items ++ [itemProjection i item]))
      (fun _error => do
        emit (Effect.consoleError ("Error loading item " ++ toString i ++ ":"))
        pure items)
    inventoryLoop w remaining (i + 1) items1

/-- Method `renderInventoryItems(items)`. -/
def renderInventoryItems (items : List InventoryItem) : M Unit :=
  emit (Effect.renderInventory items)

/-- Method `updateInventoryStats(items)`. -/
def updateInventoryStats (items : List InventoryItem) : M Unit :=
  emit (Effect.inventoryStats items.length (items.filter (fun item => item.isActive)).length 0)

/-- Method `loadInventoryData()`. -/
def loadInventoryData (w : World) : M Unit := do
  let c ← getCtl
  match c.contract with
  | none => pure ()
  | some _ =>
    tryCatch (do
      let contract ← theContract
      emit (Effect.query contract Query.getContractStats)
      let stats ← await w.getContractStats
      -- `parseInt(stats.totalItems.toString())`: a uint32 printed and parsed back is itself
      let totalItems := stats.totalItems
      let items ← inventoryLoop w totalItems 1 []
      renderInventoryItems items
      updateInventoryStats items)
      (fun _error => do
        emit (Effect.consoleError "Error loading inventory:")
        showStatus "Failed to load inventory data" "error")

/-- The array `statusNames`. -/
def statusNames : List String := ["Pending", "Approved", "Rejected", "Fulfilled", "Cancelled"]

/-- Object pushed to `orders` for id `i` in `loadOrdersData`; `order.status` is a bigint. -/
def orderProjection (i : Nat) (order : OrderInfo) : Order :=
  { id := i,
    itemId := toString order.itemId,
    status := (statusNames.get? order.status).getD "Unknown",
    fulfilled := JSInt.strictEq (JSInt.bigint order.status) (JSInt.number 3),
    createdAt := order.createdAt,
    processedAt := if order.processedAt > 0 then some order.processedAt else none }

/-- The loop of `loadOrdersData`. -/
def ordersLoop (w : World) : (remaining : Nat) → (i : Nat) → List Order → M (List Order)
  | 0, _, orders => pure orders
  | remaining + 1, i, orders => do
    let orders1 ← tryCatch (do
        let contract ← theContract
        emit (Effect.query contract (Query.getOrderInfo (JSNum.num (i : Int))))
        let order ← await (w.getOrderInfo (JSNum.num (i : Int)))
        pure (orders ++ [orderProjection i order]))
      (fun _error => do
        emit (Effect.consoleError ("Error loading order " ++ toString i ++ ":"))
        pure orders)
    ordersLoop w remaining (i + 1) orders1

/-- Property read `order.requester` on an order projection: the key is absent, the value `undefined`. -/
def Order.requester (_order : Order) : Option String := none

/-- Card template of `renderOrders` for one order: `order.requester.slice(...)` raises on `undefined`. -/
def orderCard (order : Order) : Except Err String :=
  match order.requester with
  | none => Except.error undefinedError
  | some requester => Except.ok ("Order #" ++ toString order.id ++ " " ++ shorten requester)

/-- Method `renderOrders(orders)`. -/
def renderOrders (orders : List Order) : M Unit :=
  if orders.length = 0 then
    emit (Effect.renderOrders [])
  else do
    let _cards ← await (orders.mapM orderCard)
    emit (Effect.renderOrders orders)

/-- Method `updateOrderStats(orders)`. -/
def updateOrderStats (orders : List Order) : M Unit :=
  emit (Effect.orderStats (orders.filter (fun order => !order.fulfilled)).length
    (orders.filter (fun order => order.fulfilled)).length)

/-- Method `loadOrdersData()`. -/
def loadOrdersData (w : World) : M Unit := do
  let c ← getCtl
  match c.contract with
  | none => pure ()
  | some _ =>
    tryCatch (do
      let contract ← theContract
      emit (Effect.query contract Query.getContractStats)
      let stats ← await w.getContractStats
      let totalOrders := stats.totalOrders
      let orders ← ordersLoop w totalOrders 1 []
      renderOrders orders
      updateOrderStats orders)
      (fun _error => emit (Effect.consoleError "Error loading orders:"))

/-- Method `loadSuppliersData()`. -/
def loadSuppliersData : M Unit := emit Effect.renderSuppliers

/-- Method `loadAnalyticsData()`. -/
def loadAnalyticsData (w : World) : M Unit := do
  let c ← getCtl
  match c.contract with
  | none => emit (Effect.renderAnalytics "Connect wallet to view analytics")
  | some _ =>
    tryCatch (do
      let contract ← theContract
      emit (Effect.query contract Query.getContractStats)
      let stats ← await w.getContractStats
      emit (Effect.renderSystemStats stats))
      (fun _error => emit (Effect.renderAnalytics "Error loading system stats"))

/-- Method `loadAllData()`: the four refreshes handed to `Promise.all`. In the browser they start
in the order listed and then interleave at their `await`s as the answers arrive; here each one
runs to completion before the next starts, which is one linearisation of their effects. What is
stated about the data load is therefore insensitive to the interleaving: which effects occur, and
their order within each refresh. -/
def loadAllData (w : World) : M Unit := do
  loadInventoryData w
  loadOrdersData w
  loadSuppliersData
  loadAnalyticsData w

/-! ## Connection -/

/-- Method `connectWallet()`. -/
def connectWallet (w : World) : M Unit :=
  tryCatch (do
    if !w.hasEthereum then
      showStatus "Please install MetaMask to continue" "error"
    else do
      showStatus "Connecting to wallet..." "loading"
      emit (Effect.walletRequest "eth_requestAccounts")
      await w.requestAccounts
      modifyCtl (fun c => { c with provider := some Provider.browser })
      emit (Effect.providerCall "getSigner")
      let signer ← await w.getSigner
      modifyCtl (fun c => { c with signer := some signer })
      emit (Effect.providerCall "getNetwork")
      let network ← await w.getNetwork
      checkAndSwitchNetwork network
      modifyCtl (fun c => { c with contract := some { boundSigner := c.signer } })
      emit (Effect.providerCall "getAddress")
      let address ← await w.getAddress
      emit (Effect.networkStatus
        ("Connected to " ++ (if network.name = "" then "Custom Network" else network.name)))
      emit (Effect.connectButton (shorten address))
      let isContractValid ← verifyContract w
      if !isContractValid then do
        showStatus "⚠️ Contract verification failed. Check address and network." "error"
        showContractHelp
      else do
        checkUserPermissions w address
        showStatus "Wallet connected successfully!" "success"
        loadAllData w)
    (fun error => do
      emit (Effect.consoleError "Connection failed:")
      if includes error.message "network" then do
        showStatus "❌ Network connection failed. Please check your network settings." "error"
        showNetworkHelp
      else
        showStatus ("Connection failed: " ++ error.message) "error")

/-- Method `checkConnection()`. -/
def checkConnection (w : World) : M Unit :=
  if w.hasEthereum && w.selectedAddress then connectWallet w else pure ()

/-! ## Commands -/

/-- The two awaits of a command: the contract method call, then `tx.wait()`. -/
def sendAndConfirm (w : World) (cmd : Command) : M Unit := do
  let contract ← theContract
  emit (Effect.command contract cmd)
  await (w.send cmd)
  emit (Effect.awaitConfirmation cmd)
  await (w.confirmation cmd)

/-- The `catch` block of `submitNewItem`. -/
def submitNewItemCatch (error : Err) : M Unit := do
  emit (Effect.consoleError "Error adding item:")
  if includes error.message "Not authorized manager" then
    showStatus "❌ Access denied: Manager authorization required to add inventory items" "error"
  else if includes error.message "missing revert data" then do
    showStatus "❌ Contract call failed: Contract may not be deployed or network mismatch" "error"
    showContractHelp
  else if error.code = "CALL_EXCEPTION" then
    showStatus "❌ Transaction failed: Check contract address and network" "error"
  else
    showStatus ("Failed to add item: " ++ error.message) "error"

/-- Method `submitNewItem()`. -/
def submitNewItem (w : World) : M Unit := do
  let c ← getCtl
  match c.contract with
  | none => showStatus "Please connect your wallet first" "error"
  | some _ =>
    tryCatch (do
      let name := w.form.itemName
      let quantity := w.form.itemQuantity
      let price := w.form.itemPrice
      let minStock := w.form.minStockLevel
      let supplier := w.form.supplierAddress
      if isBlank name || isBlank quantity || isBlank price || isBlank minStock
          || isBlank supplier then
        showStatus "Please fill all fields" "error"
      else if !w.isAddress supplier then
        showStatus
          "❌ Invalid supplier address format. Please enter a valid Ethereum address (0x...)"
          "error"
      else do
        showStatus "Adding new inventory item..." "loading"
        let priceInWei ← await (w.parseEther price)
        sendAndConfirm w
          (Command.addInventoryItem (parseInt quantity) priceInWei (parseInt minStock) name supplier)
        showStatus "Inventory item added successfully!" "success"
        closeModal "addItemModal"
        clearForm ["itemName", "itemQuantity", "itemPrice", "minStockLevel", "supplierAddress"]
        loadInventoryData w)
      submitNewItemCatch

/-- The `catch` block of `submitNewOrder`. -/
def submitNewOrderCatch (error : Err) : M Unit := do
  emit (Effect.consoleError "Error placing order:")
  if includes error.message "Item not active" then
    showStatus "❌ Cannot place order: Item is not active" "error"
  else if includes error.message "Invalid quantity" then
    showStatus "❌ Invalid quantity: Please enter a positive number" "error"
  else
    showStatus ("Failed to place order: " ++ error.message) "error"

/-- The inner `try` of `submitNewOrder`: `true` when the item exists and is active, otherwise the
failure has been reported. -/
def validateOrderItem (w : World) (itemId : String) : M Bool :=
  tryCatch (do
    let contract ← theContract
    emit (Effect.query contract (Query.getItemInfo (parseInt itemId)))
    let item ← await (w.getItemInfo (parseInt itemId))
    if !item.isActive then do
      showStatus "❌ Cannot place order: Item is inactive or deactivated" "error"
      pure false
    else
      pure true)
    (fun _itemError => do
      showStatus "❌ Cannot place order: Item ID does not exist" "error"
      pure false)

/-- Method `submitNewOrder()`. -/
def submitNewOrder (w : World) : M Unit := do
  let c ← getCtl
  match c.contract with
  | none => showStatus "Please connect your wallet first" "error"
  | some _ =>
    tryCatch (do
      let itemId := w.form.orderItemId
      let quantity := w.form.orderQuantity
      if isBlank itemId || isBlank quantity then
        showStatus "Please fill all fields" "error"
      else do
        let valid ← validateOrderItem w itemId
        if !valid then
          pure ()
        else do
          showStatus "Placing order..." "loading"
          sendAndConfirm w (Command.placeOrder (parseInt itemId) (parseInt quantity))
          showStatus "Order placed successfully!" "success"
          closeModal "newOrderModal"
          clearForm ["orderItemId", "orderQuantity"]
          loadOrdersData w)
      submitNewOrderCatch

/-- The `catch` block of `authorizeManager`. -/
def authorizeManagerCatch (error : Err) : M Unit := do
  emit (Effect.consoleError "Error authorizing manager:")
  showStatus ("Failed to authorize manager: " ++ error.message) "error"

/-- Method `authorizeManager()`. -/
def authorizeManager (w : World) : M Unit := do
  let c ← getCtl
  match c.contract with
  | none => pure ()
  | some _ =>
    tryCatch (do
      let address := w.form.newManagerAddress
      if isBlank address then
        showStatus "Please enter manager address" "error"
      else if !w.isAddress address then
        showStatus
          "❌ Invalid manager address format. Please enter a valid Ethereum address (0x...)"
          "error"
      else do
        showStatus "Authorizing manager..." "loading"
        sendAndConfirm w (Command.authorizeManager address)
        showStatus "Manager authorized successfully!" "success"
        emit (Effect.clearField "newManagerAddress"))
      authorizeManagerCatch

/-- Method `authorizeSupplier()`. -/
def authorizeSupplier (w : World) : M Unit := do
  let c ← getCtl
  match w.promptDialog with
  | none => pure ()
  | some address =>
    if isBlank address || c.contract.isNone then
      pure ()
    else if !w.isAddress address then
      showStatus
        "❌ Invalid supplier address format. Please enter a valid Ethereum address (0x...)"
        "error"
    else
      showStatus "Note: Suppliers are automatically authorized when adding items" "info"

/-- The `catch` block of `grantAccess`. -/
def grantAccessCatch (error : Err) : M Unit := do
  emit (Effect.consoleError "Error granting access:")
  showStatus ("Failed to grant access: " ++ error.message) "error"

/-- Method `grantAccess()`. -/
def grantAccess (w : World) : M Unit := do
  let c ← getCtl
  match c.contract with
  | none => pure ()
  | some _ =>
    tryCatch (do
      let itemId := w.form.accessItemId
      let userAddress := w.form.accessUserAddress
      if isBlank itemId || isBlank userAddress then
        showStatus "Please fill all fields" "error"
      else do
        showStatus "Granting access..." "loading"
        sendAndConfirm w (Command.grantInventoryAccess (parseInt itemId) userAddress)
        showStatus "Access granted successfully!" "success"
        clearForm ["accessItemId", "accessUserAddress"])
      grantAccessCatch

/-- The `catch` block of `emergencyPause`. -/
def emergencyPauseCatch (error : Err) : M Unit := do
  emit (Effect.consoleError "Error during emergency pause:")
  showStatus ("Emergency pause failed: " ++ error.message) "error"

/-- Method `emergencyPause()`. -/
def emergencyPause (w : World) : M Unit := do
  let c ← getCtl
  match c.contract with
  | none => pure ()
  | some _ =>
    if !w.confirmDialog then
      pure ()
    else
      tryCatch (do
        showStatus "Emergency pause in progress..." "loading"
        sendAndConfirm w Command.emergencyPause
        showStatus "Emergency pause completed!" "warning"
        loadInventoryData w)
        emergencyPauseCatch

/-- The `catch` block of `processOrder`. -/
def processOrderCatch (error : Err) : M Unit := do
  emit (Effect.consoleError "Error processing order:")
  showStatus ("Failed to process order: " ++ error.message) "error"

/-- Method `processOrder(orderId, status)`. -/
def processOrder (w : World) (orderId status : Nat) : M Unit := do
  let c ← getCtl
  match c.contract with
  | none => pure ()
  | some _ =>
    tryCatch (do
      showStatus ((statusNames.get? status).getD "undefined" ++ " order...") "loading"
      sendAndConfirm w (Command.processOrder orderId status)
      match statusNames.get? status with
      | none => raise undefinedError
      | some statusName =>
        showStatus ("Order " ++ statusName.toLower ++ " successfully!") "success"
        loadOrdersData w)
      processOrderCatch

/-- The `catch` block of `updateItemStock`. -/
def updateItemStockCatch (error : Err) : M Unit := do
  emit (Effect.consoleError "Error updating stock:")
  showStatus ("Failed to update stock: " ++ error.message) "error"

/-- Method `updateItemStock(itemId)`. -/
def updateItemStock (w : World) (itemId : Nat) : M Unit := do
  let c ← getCtl
  match w.promptDialog with
  | none => pure ()
  | some quantityChange =>
    if isBlank quantityChange || c.contract.isNone then
      pure ()
    else
      tryCatch (do
        showStatus "Updating stock..." "loading"
        let isAddition := jsGreater (parseInt quantityChange) (JSNum.num 0)
        let absoluteQuantity := mathAbs (parseInt quantityChange)
        sendAndConfirm w (Command.updateStock itemId absoluteQuantity isAddition)
        showStatus "Stock updated successfully!" "success"
        loadInventoryData w)
        updateItemStockCatch

/-! ## Modals, tabs, page events -/

/-- The loop of `populateAvailableItems`. -/
def availableLoop (w : World) : (remaining : Nat) → (i : Nat) → List AvailableItem →
    M (List AvailableItem)
  | 0, _, availableItems => pure availableItems
  | remaining + 1, i, availableItems => do
    let availableItems1 ← tryCatch (do
        let contract ← theContract
        emit (Effect.query contract (Query.getItemInfo (JSNum.num (i : Int))))
        let item ← await (w.getItemInfo (JSNum.num (i : Int)))
        if item.isActive then
          pure (availableItems ++ [{ id := i, name := item.itemName }])
        else
          pure availableItems)
      (fun _error => pure availableItems)
    availableLoop w remaining (i + 1) availableItems1

/-- Method `populateAvailableItems()`. -/
def populateAvailableItems (w : World) : M Unit :=
  tryCatch (do
    let contract ← theContract
    emit (Effect.query contract Query.getContractStats)
    let stats ← await w.getContractStats
    let totalItems := stats.totalItems
    let availableItems ← availableLoop w totalItems 1 []
    emit (Effect.availableItems availableItems))
    (fun _error => emit (Effect.consoleError "Error loading available items:"))

/-- Method `openModal(modalId)`. -/
def openModal (w : World) (modalId : String) : M Unit := do
  emit (Effect.openModal modalId)
  let c ← getCtl
  if modalId = "newOrderModal" && c.contract.isSome then
    populateAvailableItems w
  else
    pure ()

/-- The template literal `message` of `showAuthorizationGuidance`, with the signer address (or
`N/A`) filled in. -/
def authorizationMessage (address : String) : String :=
  "\n            🔐 Manager Authorization Required\n\n" ++
  "            To add inventory items, you need manager access.\n\n" ++
  "            Options:\n" ++
  "            1. If you\x27re the contract owner, use the Management tab to authorize your address\n" ++
  "            2. Contact the contract owner to authorize your address: " ++ address ++ "\n" ++
  "            3. Current contract address: " ++ contractAddress ++ "\n\n" ++
  "            Your current address will be copied to clipboard.\n        "

/-- Method `showAuthorizationGuidance()`. -/
def showAuthorizationGuidance : M Unit := do
  let c ← getCtl
  let message := authorizationMessage
    (match c.signer with
      | some signer => signer.address
      | none => "N/A")
  match c.signer with
  | some signer =>
    if isBlank signer.address then pure () else emit (Effect.clipboard signer.address)
  | none => pure ()
  showStatus message "info"

/-- Method `handleAddItemClick(e)`, for a click on the button `addItemBtn`. -/
def handleAddItemClick (w : World) : M Unit := do
  let c ← getCtl
  if c.gate.addItemBtn then
    showAuthorizationGuidance
  else
    openModal w "addItemModal"

/-- Method `switchTab(tabName)`. -/
def switchTab (w : World) (tabName : String) : M Unit := do
  emit (Effect.activateTab tabName)
  if tabName = "inventory" then loadInventoryData w else pure ()
  if tabName = "orders" then loadOrdersData w else pure ()
  if tabName = "suppliers" then loadSuppliersData else pure ()
  if tabName = "analytics" then loadAnalyticsData w else pure ()

/-- Method `init()`, run by the constructor: listeners, `updateUI()`, `checkConnection()`. -/
def init (w : World) : M Unit := do
  switchTab w "inventory"
  checkConnection w

/-- The call `location.reload()`: the page and a fresh `SecretInventoryManager` are built again. -/
def reload (w : World) : M Unit := do
  emit Effect.reload
  modifyCtl (fun _ => {})
  init w

/-- Listener of the provider event `accountsChanged`. -/
def accountsChanged (w : World) (accounts : List String) : M Unit :=
  if accounts.length = 0 then reload w else connectWallet w

/-- Listener of the provider event `chainChanged`. -/
def chainChanged (w : World) : M Unit := reload w

/-- Buttons wired in `setupEventListeners`. -/
inductive Button where
  | connectWallet
  | addItemBtn
  | newOrderBtn
  | authorizeSupplierBtn
  | submitItem
  | submitOrder
  | refreshInventory
  | authorizeManagerBtn
  | grantAccessBtn
  | emergencyPauseBtn
deriving DecidableEq, Repr

/-- The click listeners registered by `setupEventListeners()`. -/
def click (w : World) : Button → M Unit
  | Button.connectWallet => connectWallet w
  | Button.addItemBtn => handleAddItemClick w
  | Button.newOrderBtn => openModal w "newOrderModal"
  | Button.authorizeSupplierBtn => authorizeSupplier w
  | Button.submitItem => submitNewItem w
  | Button.submitOrder => submitNewOrder w
  | Button.refreshInventory => loadInventoryData w
  | Button.authorizeManagerBtn => authorizeManager w
  | Button.grantAccessBtn => grantAccess w
  | Button.emergencyPauseBtn => emergencyPause w

/-! ## User intents -/

/-- The intents of the render surface that end in a contract command, with the arguments the
page passes to the method. -/
inductive Intent where
  | addItem
  | placeOrder
  | processOrder (orderId : Nat) (status : Nat)
  | updateStock (itemId : Nat)
  | authorizeManager
  | grantAccess
  | emergencyPause
deriving DecidableEq, Repr

/-- The method run for an intent. -/
def perform (w : World) : Intent → M Unit
  | Intent.addItem => submitNewItem w
  | Intent.placeOrder => submitNewOrder w
  | Intent.processOrder orderId status => processOrder w orderId status
  | Intent.updateStock itemId => updateItemStock w itemId
  | Intent.authorizeManager => authorizeManager w
  | Intent.grantAccess => grantAccess w
  | Intent.emergencyPause => emergencyPause w

/-! ## Specification-side notions -/

/-- A computation leaves `this.contract` alone, only appends to the log, and every command it
appends goes through the handle held in `this.contract`. -/
def Sends {α : Type} (m : M α) : Prop :=
  ∀ s, (m s).2.ctl.contract = s.ctl.contract ∧
    ∃ l, (m s).2.log = s.log ++ l ∧
      ∀ via cmd, Effect.command via cmd ∈ l → s.ctl.contract = some via

/-- The item a bulk refresh keeps for id `i`: its projection when `getItemInfo(i)` succeeds. -/
def fetchItem (w : World) (i : Nat) : Option InventoryItem :=
  match w.getItemInfo (JSNum.num (i : Int)) with
  | Except.ok item => some (itemProjection i item)
  | Except.error _ => none

/-- The entry the order form lists for id `i`: present when `getItemInfo(i)` succeeds and the item
is active. -/
def availableAt (w : World) (i : Nat) : Option AvailableItem :=
  match w.getItemInfo (JSNum.num (i : Int)) with
  | Except.ok item => if item.isActive then some { id := i, name := item.itemName } else none
  | Except.error _ => none

/-- An effect is a contract query or a console message (what the refresh loops may log). -/
def Effect.isFetchNoise : Effect → Bool
  | Effect.query _ _ => true
  | Effect.consoleError _ => true
  | _ => false

/-- A submitted command fails with `e`: the contract method call raises it, or the call returns
a transaction and `tx.wait()` raises it. -/
def commandFails (w : World) (cmd : Command) (e : Err) : Prop :=
  w.send cmd = Except.error e ∨ (w.send cmd = Except.ok () ∧ w.confirmation cmd = Except.error e)

/-- Effects of a method whose command `cmd` is dispatched and fails: the loading status, the
command, the wait for confirmation when the call itself returned, the console line, and then the
`report` of the failure. -/
def failedCommandTrace (w : World) (via : Handle) (cmd : Command) (loading : String)
    (label : String) (report : List Effect) : List Effect :=
  [Effect.status loading "loading", Effect.command via cmd] ++
    (match w.send cmd with
      | Except.ok _ => [Effect.awaitConfirmation cmd]
      | Except.error _ => []) ++
    Effect.consoleError label :: report

/-- Outcome kinds of a failed add-item command. -/
inductive FailureKind where
  | authorizationDenied
  | contractUnreachable
  | transactionFailed
  | commandRejected (rawReason : String)
deriving DecidableEq, Repr

/-- Classification of an add-item failure by fixed priority, as the amended claim words it:
the authorization pattern first, then the missing-revert-data pattern, then the error code
`CALL_EXCEPTION`, and the generic outcome with the raw message last. -/
def classifyAddItemFailure (error : Err) : FailureKind :=
  if includes error.message "Not authorized manager" then FailureKind.authorizationDenied
  else if includes error.message "missing revert data" then FailureKind.contractUnreachable
  else if error.code = "CALL_EXCEPTION" then FailureKind.transactionFailed
  else FailureKind.commandRejected error.message

/-- What the user sees for each outcome kind of a failed add-item command. -/
def FailureKind.report : FailureKind → List Effect
  | FailureKind.authorizationDenied =>
    [Effect.status "❌ Access denied: Manager authorization required to add inventory items"
      "error"]
  | FailureKind.contractUnreachable =>
    [Effect.status "❌ Contract call failed: Contract may not be deployed or network mismatch"
      "error",
     Effect.contractHelp]
  | FailureKind.transactionFailed =>
    [Effect.status "❌ Transaction failed: Check contract address and network" "error"]
  | FailureKind.commandRejected rawReason =>
    [Effect.status ("Failed to add item: " ++ rawReason) "error"]

/-- The error status of a failed place-order command: two contract reasons have a fixed text,
any other failure shows the raw message. -/
def placeOrderReport (error : Err) : String :=
  if includes error.message "Item not active" then "❌ Cannot place order: Item is not active"
  else if includes error.message "Invalid quantity" then
    "❌ Invalid quantity: Please enter a positive number"
  else "Failed to place order: " ++ error.message

/-! ## A command while its promise is pending

An `async` method runs synchronously up to its first `await`. For `submitNewItem` and
`processOrder` that first `await` is the call of the contract method itself, so the statements
below are what a click has done by the time the command is pending. -/

/-- The part of `submitNewItem()` run before its first `await`: the checks, the loading status and
the call of `addInventoryItem` (a synchronous throw of `parseEther` runs the `catch` block at
once). Returns the command whose promise is pending, if one was dispatched. -/
def submitNewItemStart (w : World) : M (Option Command) := do
  let c ← getCtl
  match c.contract with
  | none => do
    showStatus "Please connect your wallet first" "error"
    pure none
  | some _ =>
    tryCatch (do
      let name := w.form.itemName
      let quantity := w.form.itemQuantity
      let price := w.form.itemPrice
      let minStock := w.form.minStockLevel
      let supplier := w.form.supplierAddress
      if isBlank name || isBlank quantity || isBlank price || isBlank minStock
          || isBlank supplier then do
        showStatus "Please fill all fields" "error"
        pure none
      else if !w.isAddress supplier then do
        showStatus
          "❌ Invalid supplier address format. Please enter a valid Ethereum address (0x...)"
          "error"
        pure none
      else do
        showStatus "Adding new inventory item..." "loading"
        let priceInWei ← await (w.parseEther price)
        let contract ← theContract
        emit (Effect.command contract
          (Command.addInventoryItem (parseInt quantity) priceInWei (parseInt minStock) name
            supplier))
        pure (some
          (Command.addInventoryItem (parseInt quantity) priceInWei (parseInt minStock) name
            supplier)))
      (fun error => do
        submitNewItemCatch error
        pure none)

/-- The part of `processOrder(orderId, status)` run before its first `await`: the loading status
and the call of the contract method `processOrder`. -/
def processOrderStart (orderId status : Nat) : M (Option Command) := do
  let c ← getCtl
  match c.contract with
  | none => pure none
  | some _ =>
    tryCatch (do
      showStatus ((statusNames.get? status).getD "undefined" ++ " order...") "loading"
      let contract ← theContract
      emit (Effect.command contract (Command.processOrder orderId status))
      pure (some (Command.processOrder orderId status)))
      (fun error => do
        processOrderCatch error
        pure none)

/-- The marks occur in the trace in the given order (as a subsequence). -/
def inOrder : List Effect → List Effect → Bool
  | [], _ => true
  | _ :: _, [] => false
  | mark :: marks, e :: rest =>
    if mark = e then inOrder marks rest else inOrder (mark :: marks) rest

/-- An effect is the dispatch of a command. -/
def Effect.isCommand : Effect → Bool
  | Effect.command _ _ => true
  | _ => false

/-- An effect only reports on a command already dispatched: the wait for its confirmation, a
console line, a status or the contract help. -/
def Effect.isReport : Effect → Bool
  | Effect.awaitConfirmation _ => true
  | Effect.consoleError _ => true
  | Effect.status _ _ => true
  | Effect.contractHelp => true
  | _ => false

/-- The effects logged after the first command of a trace (empty when there is no command). -/
def afterFirstCommand : List Effect → List Effect
  | [] => []
  | e :: rest => if e.isCommand then rest else afterFirstCommand rest

/-- A computation leaves the controller as it is and only appends effects satisfying `P`. -/
def Appends {α : Type} (P : Effect → Prop) (m : M α) : Prop :=
  ∀ s, (m s).2.ctl = s.ctl ∧ ∃ l, (m s).2.log = s.log ++ l ∧ ∀ e ∈ l, P e

/-- A computation that never raises: it returns a value, leaves the controller as it is and only
appends effects satisfying `P`. -/
def Returns {α : Type} (P : Effect → Prop) (m : M α) : Prop :=
  ∀ s, ∃ a l, m s = (Except.ok a, { ctl := s.ctl, log := s.log ++ l }) ∧ ∀ e ∈ l, P e

/-- The effects a computation adds to the log of the state it starts from. -/
def addedLog {α : Type} (m : M α) (s : St) : List Effect := (m s).2.log.drop s.log.length

/-- Running a computation from a state with log `l` appends to `l` what it logs from the empty
log, and gives the same result and controller: the log is write-only. -/
def Framed {α : Type} (m : M α) : Prop :=
  ∀ s, m s = ((m { ctl := s.ctl, log := [] }).1,
    { ctl := (m { ctl := s.ctl, log := [] }).2.ctl,
      log := s.log ++ (m { ctl := s.ctl, log := [] }).2.log })

/-! ## Concrete environments used to exercise the model -/

/-- A chain on which the contract is deployed and answers; the account is not a manager. -/
def sampleWorld : World :=
  { form :=
      { itemName := "bolt", itemQuantity := "5", itemPrice := "1", minStockLevel := "2",
        supplierAddress := "0x5", orderItemId := "7", orderQuantity := "3",
        newManagerAddress := "0xB0B", accessItemId := "1", accessUserAddress := "0xB0B" },
    hasEthereum := true,
    selectedAddress := true,
    requestAccounts := Except.ok (),
    getSigner := Except.ok { address := "0xA11CE" },
    getNetwork := Except.ok { chainId := 11155111, name := "sepolia" },
    getAddress := Except.ok "0xA11CE",
    getCode := Except.ok "0x6080",
    getContractStats :=
      Except.ok { totalItems := 4, totalOrders := 0, activeItemsCount := 2, pendingOrdersCount := 0 },
    authorizedManagers := fun _ => Except.ok false,
    getItemInfo := fun id =>
      if id = JSNum.num 3 then Except.error { message := "could not decode result data" }
      else if id = JSNum.num 7 then
        Except.ok { itemName := "nut", supplier := "0x5", isActive := false, createdAt := 10,
                    lastUpdated := 20 }
      else
        Except.ok { itemName := "bolt", supplier := "0x5", isActive := true, createdAt := 10,
                    lastUpdated := 20 },
    getOrderInfo := fun _ => Except.error { message := "no such order" },
    send := fun _ => Except.ok (),
    confirmation := fun _ => Except.ok (),
    isAddress := fun s => s = "0x5" || s = "0xB0B",
    parseEther := fun _ => Except.ok 1000000000000000000,
    confirmDialog := true,
    promptDialog := some "-4" }

/-- The same wallet on a chain where nothing is deployed at the configured address. -/
def undeployedWorld : World := { sampleWorld with getCode := Except.ok "0x" }

/-- The account has switched to `0xB0B`, and the network query of the reconnection fails. -/
def brokenReconnectWorld : World :=
  { sampleWorld with
    getSigner := Except.ok { address := "0xB0B" },
    getAddress := Except.ok "0xB0B",
    getNetwork := Except.error { message := "could not detect network", code := "NETWORK_ERROR" } }

/-- The manager-authorization query fails. -/
def permissionQueryFailsWorld : World :=
  { sampleWorld with
    authorizedManagers := fun _ => Except.error { message := "could not decode result data" } }

/-- Every command is rejected with a revert that carries no data. -/
def unreachableWorld : World :=
  { sampleWorld with
    send := fun _ => Except.error { message := "missing revert data", code := "CALL_EXCEPTION" } }

/-- Every command reverts with a reason that matches neither add-item pattern. -/
def revertingWorld : World :=
  { sampleWorld with
    form := { sampleWorld.form with orderItemId := "1" },
    send := fun _ => Except.error { message := "execution reverted", code := "CALL_EXCEPTION" } }

/-- Every command reverts with the manager-authorization reason, in a message that also matches
the missing-revert-data pattern. -/
def deniedWorld : World :=
  { sampleWorld with
    send := fun _ =>
      Except.error { message := "Not authorized manager (missing revert data)",
                     code := "CALL_EXCEPTION" } }

/-- No wallet provider is injected in the page. -/
def noWalletWorld : World := { sampleWorld with hasEthereum := false, selectedAddress := false }

/-- The statistics query fails. -/
def statsFailWorld : World :=
  { sampleWorld with
    getContractStats := Except.error { message := "could not decode result data" } }

/-- The contract holds one order, whose status code is 3 (Fulfilled). -/
def oneOrderWorld : World :=
  { sampleWorld with
    getContractStats :=
      Except.ok { totalItems := 4, totalOrders := 1, activeItemsCount := 2,
                  pendingOrdersCount := 0 },
    getOrderInfo := fun _ =>
      Except.ok { itemId := 1, status := 3, createdAt := 100, processedAt := 200 } }

/-- The address fields of the management forms hold a string that is not an address. -/
def invalidAddressWorld : World :=
  { sampleWorld with
    form := { sampleWorld.form with
      newManagerAddress := "not-an-address", accessUserAddress := "not-an-address" } }

/-- An add-item form that passes the client-side checks with a quantity of 2^32, a minimum stock
level of -1 and a price of 100 ETH, i.e. 10^20 wei. -/
def outOfRangeWorld : World :=
  { sampleWorld with
    form := { sampleWorld.form with
      itemQuantity := "4294967296", minStockLevel := "-1", itemPrice := "100" },
    parseEther := fun _ => Except.ok 100000000000000000000 }

/-- The sample chain with eight items: item 3 cannot be read and item 7 is inactive. -/
def eightItemsWorld : World :=
  { sampleWorld with
    getContractStats :=
      Except.ok { totalItems := 8, totalOrders := 0, activeItemsCount := 6, pendingOrdersCount := 0 } }

/-- The sample chain with the stock prompt answered by `answer`. -/
def promptWorld (answer : String) : World := { sampleWorld with promptDialog := some answer }

/-- The sample wallet on a chain that is not in the `networkConfigs` table. -/
def customNetworkWorld : World :=
  { sampleWorld with getNetwork := Except.ok { chainId := 31337, name := "unknown" } }

/-- A controller holding a handle bound to the account `0xA11CE`, with no button marked. -/
def connectedController : Controller :=
  { contract := some { boundSigner := some { address := "0xA11CE" } },
    provider := some Provider.browser,
    signer := some { address := "0xA11CE" } }

/-! ## Theorems -/

/-! ### Commands only go through the current handle -/

theorem Sends.pure {α : Type} (a : α) : Sends (pure a : M α) := by
  intro s; exact ⟨rfl, [], by simp [Pure.pure], by simp⟩

theorem Sends.raise {α : Type} (e : Err) : Sends (raise e : M α) := by
  intro s; exact ⟨rfl, [], by simp [SecretInventory.raise], by simp⟩

theorem Sends.await {α : Type} (r : Except Err α) : Sends (await r) := by
  intro s; exact ⟨rfl, [], by simp [SecretInventory.await], by simp⟩

theorem Sends.getCtl : Sends getCtl := by
  intro s; exact ⟨rfl, [], by simp [SecretInventory.getCtl], by simp⟩

theorem Sends.theContract : Sends theContract := by
  intro s
  unfold SecretInventory.theContract
  cases h : s.ctl.contract <;> exact ⟨by simp [h], [], by simp, by simp⟩

theorem Sends.theProvider : Sends theProvider := by
  intro s
  unfold SecretInventory.theProvider
  cases h : s.ctl.provider <;> exact ⟨by simp, [], by simp, by simp⟩

theorem Sends.emit (e : Effect) (he : ∀ via cmd, e ≠ Effect.command via cmd) : Sends (emit e) := by
  intro s
  refine ⟨rfl, [e], rfl, ?_⟩
  intro via cmd hmem
  simp at hmem
  exact absurd hmem.symm (he via cmd)

theorem Sends.bind {α β : Type} {m : M α} {f : α → M β} (hm : Sends m) (hf : ∀ a, Sends (f a)) :
    Sends (m >>= f) := by
  intro s
  obtain ⟨hc, l, hl, hq⟩ := hm s
  show ((M.bind m f) s).2.ctl.contract = _ ∧ ∃ l, ((M.bind m f) s).2.log = _ ∧ _
  unfold M.bind
  rcases hms : m s with ⟨r, s1⟩
  rw [hms] at hc hl
  cases r with
  | error e => exact ⟨hc, l, hl, hq⟩
  | ok a =>
    obtain ⟨hc2, l2, hl2, hq2⟩ := hf a s1
    refine ⟨hc2.trans hc, l ++ l2, ?_, ?_⟩
    · show (_ : St).log = _
      rw [hl2]
      show s1.log ++ l2 = _
      have hl1 : s1.log = s.log ++ l := hl
      rw [hl1, List.append_assoc]
    · intro via cmd hmem
      rcases List.mem_append.mp hmem with h | h
      · exact hq via cmd h
      · exact hc ▸ hq2 via cmd h

theorem Sends.tryCatch {α : Type} {m : M α} {f : Err → M α} (hm : Sends m)
    (hf : ∀ e, Sends (f e)) : Sends (tryCatch m f) := by
  intro s
  obtain ⟨hc, l, hl, hq⟩ := hm s
  unfold SecretInventory.tryCatch
  rcases hms : m s with ⟨r, s1⟩
  rw [hms] at hc hl
  cases r with
  | ok a => exact ⟨hc, l, hl, hq⟩
  | error e =>
    obtain ⟨hc2, l2, hl2, hq2⟩ := hf e s1
    refine ⟨hc2.trans hc, l ++ l2, ?_, ?_⟩
    · show (_ : St).log = _
      rw [hl2]
      show s1.log ++ l2 = _
      have hl1 : s1.log = s.log ++ l := hl
      rw [hl1, List.append_assoc]
    · intro via cmd hmem
      rcases List.mem_append.mp hmem with h | h
      · exact hq via cmd h
      · exact hc ▸ hq2 via cmd h

theorem Sends.sendAndConfirm (w : World) (cmd : Command) : Sends (sendAndConfirm w cmd) := by
  intro s
  unfold SecretInventory.sendAndConfirm
  cases h : s.ctl.contract <;> cases hs : w.send cmd <;> cases hw : w.confirmation cmd <;>
    simp [Bind.bind, M.bind, SecretInventory.theContract, SecretInventory.emit,
      SecretInventory.await, h, hs, hw]


theorem Sends.ite {α : Type} {p : Prop} [Decidable p] {a b : M α} (ha : Sends a) (hb : Sends b) :
    Sends (if p then a else b) := by
  split <;> assumption

theorem Sends.inventoryLoop (w : World) (n : Nat) :
    ∀ i items, Sends (inventoryLoop w n i items) := by
  induction n with
  | zero => intro i items; exact Sends.pure _
  | succ k ih =>
    intro i items
    unfold SecretInventory.inventoryLoop
    refine Sends.bind (Sends.tryCatch ?_ ?_) (fun a => ih _ a)
    · refine Sends.bind Sends.theContract (fun c => ?_)
      refine Sends.bind (Sends.emit _ (by simp)) (fun _ => ?_)
      exact Sends.bind (Sends.await _) (fun _ => Sends.pure _)
    · intro e
      exact Sends.bind (Sends.emit _ (by simp)) (fun _ => Sends.pure _)


theorem Sends.ordersLoop (w : World) (n : Nat) :
    ∀ i orders, Sends (ordersLoop w n i orders) := by
  induction n with
  | zero => intro i orders; exact Sends.pure _
  | succ k ih =>
    intro i orders
    unfold SecretInventory.ordersLoop
    refine Sends.bind (Sends.tryCatch ?_ ?_) (fun a => ih _ a)
    · refine Sends.bind Sends.theContract (fun c => ?_)
      refine Sends.bind (Sends.emit _ (by simp)) (fun _ => ?_)
      exact Sends.bind (Sends.await _) (fun _ => Sends.pure _)
    · intro e
      exact Sends.bind (Sends.emit _ (by simp)) (fun _ => Sends.pure _)


theorem Sends.loadInventoryData (w : World) : Sends (loadInventoryData w) := by
  simp only [SecretInventory.loadInventoryData, renderInventoryItems, updateInventoryStats,
    showStatus]
  repeat (first
    | with_reducible exact Sends.pure _
    | with_reducible exact Sends.getCtl
    | with_reducible exact Sends.theContract
    | with_reducible exact Sends.await _
    | with_reducible exact Sends.emit _ (by simp)
    | with_reducible exact Sends.inventoryLoop _ _ _ _
    | with_reducible refine Sends.tryCatch ?_ (fun _ => ?_)
    | with_reducible refine Sends.bind ?_ (fun _ => ?_)
    | split)

theorem Sends.loadOrdersData (w : World) : Sends (loadOrdersData w) := by
  simp only [SecretInventory.loadOrdersData, renderOrders, updateOrderStats]
  repeat (first
    | with_reducible exact Sends.pure _
    | with_reducible exact Sends.getCtl
    | with_reducible exact Sends.theContract
    | with_reducible exact Sends.await _
    | with_reducible exact Sends.emit _ (by simp)
    | with_reducible exact Sends.ordersLoop _ _ _ _
    | with_reducible refine Sends.tryCatch ?_ (fun _ => ?_)
    | with_reducible refine Sends.bind ?_ (fun _ => ?_)
    | split)

theorem Sends.perform (w : World) (intent : Intent) : Sends (perform w intent) := by
  cases intent <;>
  simp only [SecretInventory.perform, submitNewItem, submitNewOrder, processOrder, updateItemStock,
    authorizeManager, grantAccess, emergencyPause, validateOrderItem, submitNewItemCatch,
    submitNewOrderCatch, processOrderCatch, updateItemStockCatch, authorizeManagerCatch,
    grantAccessCatch, emergencyPauseCatch, showStatus, showContractHelp, closeModal,
    clearForm] <;>
  repeat (first
    | with_reducible exact Sends.pure _
    | with_reducible exact Sends.raise _
    | with_reducible exact Sends.getCtl
    | with_reducible exact Sends.theContract
    | with_reducible exact Sends.await _
    | with_reducible exact Sends.emit _ (by simp)
    | with_reducible exact Sends.sendAndConfirm _ _
    | with_reducible exact Sends.loadInventoryData _
    | with_reducible exact Sends.loadOrdersData _
    | with_reducible refine Sends.tryCatch ?_ (fun _ => ?_)
    | with_reducible refine Sends.bind ?_ (fun _ => ?_)
    | split
    | simp only [submitNewItemCatch, submitNewOrderCatch, processOrderCatch,
        updateItemStockCatch, authorizeManagerCatch, grantAccessCatch, emergencyPauseCatch,
        showStatus, showContractHelp])

/-- C1 (as amended): a business mutation is dispatched only through the handle currently held in
`this.contract`, hence only when that handle is non-null, and the seven command methods leave
`this.contract` as it is. -/
theorem command_needs_current_handle (c : Controller) (w : World) (intent : Intent)
    (via : Handle) (cmd : Command)
    (h : Effect.command via cmd ∈ trace (perform w intent) c) :
    c.contract = some via ∧ (after (perform w intent) c).contract = c.contract := by
  obtain ⟨hc, l, hl, hq⟩ := Sends.perform w intent { ctl := c, log := [] }
  refine ⟨hq via cmd ?_, hc⟩
  have : trace (perform w intent) c = l := by simpa [trace] using hl
  rw [← this]; exact h

/-- Witness for C1: after a successful connection the add-item intent sends its command through
the handle built by that connection. -/
theorem command_needs_current_handle_witness :
    Effect.command { boundSigner := some { address := "0xA11CE" } }
        (Command.addInventoryItem (JSNum.num 5) 1000000000000000000 (JSNum.num 2) "bolt" "0x5")
      ∈ trace (perform sampleWorld Intent.addItem) (after (connectWallet sampleWorld) {}) ∧
    ((after (connectWallet sampleWorld) {}).contract
        = some { boundSigner := some { address := "0xA11CE" } } ∧
      (after (perform sampleWorld Intent.addItem) (after (connectWallet sampleWorld) {})).contract
        = (after (connectWallet sampleWorld) {}).contract) :=
  ⟨by decide!,
   command_needs_current_handle (after (connectWallet sampleWorld) {}) sampleWorld Intent.addItem
     { boundSigner := some { address := "0xA11CE" } }
     (Command.addInventoryItem (JSNum.num 5) 1000000000000000000 (JSNum.num 2) "bolt" "0x5")
     (by decide!)⟩

/-- C1 fails as stated: on a chain with no code at the configured address `connectWallet` ends
with the verification error, and `submitNewItem` then still sends `addInventoryItem`. -/
theorem command_sent_after_failed_verification :
    result (verifyContract undeployedWorld) (after (connectWallet undeployedWorld) {})
      = Except.ok false ∧
    Effect.status "⚠️ Contract verification failed. Check address and network." "error"
      ∈ trace (connectWallet undeployedWorld) {} ∧
    Effect.command { boundSigner := some { address := "0xA11CE" } }
        (Command.addInventoryItem (JSNum.num 5) 1000000000000000000 (JSNum.num 2) "bolt" "0x5")
      ∈ trace (submitNewItem undeployedWorld) (after (connectWallet undeployedWorld) {}) :=
  ⟨rfl, by decide, by decide⟩

/-! ### Contract verification -/

/-- C2: when a connect attempt issues the bytecode query and it returns `'0x'`, `verifyContract`
returns `false` and `connectWallet` ends, without raising, right after reporting the verification
error and showing the contract help: no permission banner, no contract query, no data refresh and
no success status appear in its trace. -/
theorem undeployed_contract_halts_connection (c : Controller) (w : World)
    (hq : Effect.providerCall "getCode" ∈ trace (connectWallet w) c)
    (h0 : w.getCode = Except.ok "0x") :
    (∀ c1, result (verifyContract w) c1 = Except.ok false) ∧
    result (connectWallet w) c = Except.ok () ∧
    (∃ pre, trace (connectWallet w) c = pre ++
      [Effect.providerCall "getCode",
       Effect.consoleError "No contract deployed at address:",
       Effect.status "⚠️ Contract verification failed. Check address and network." "error",
       Effect.contractHelp]) ∧
    (∀ message kind, Effect.banner message kind ∉ trace (connectWallet w) c) ∧
    (∀ via q, Effect.query via q ∉ trace (connectWallet w) c) ∧
    Effect.renderSuppliers ∉ trace (connectWallet w) c ∧
    Effect.status "Wallet connected successfully!" "success" ∉ trace (connectWallet w) c := by
  refine ⟨?_, ?_⟩
  · intro c1
    obtain ⟨ct, pr, sg, gt⟩ := c1
    cases pr <;>
      simp [result, verifyContract, tryCatch, bind, M.bind, pure, theProvider, emit, await, h0]
  · obtain ⟨ct, pr, sg, gt⟩ := c
    revert hq
    cases he : w.hasEthereum <;> cases hr : w.requestAccounts <;> cases hs : w.getSigner <;>
      cases hn : w.getNetwork <;> cases ha : w.getAddress <;>
      simp [result, trace, connectWallet, verifyContract, checkAndSwitchNetwork, showStatus,
        showContractHelp, showNetworkHelp, tryCatch, bind, M.bind, pure, theProvider,
        theContract, emit, await, modifyCtl, he, hr, hs, hn, ha, h0]
    all_goals (try split_ifs)
    all_goals (try simp [result, trace, connectWallet, verifyContract, checkAndSwitchNetwork,
      showStatus, showContractHelp, showNetworkHelp, tryCatch, bind, M.bind, pure, theProvider,
      theContract, emit, await, modifyCtl, he, hr, hs, hn, ha, h0])
    all_goals (try split_ifs)
    all_goals (try simp [result, trace, connectWallet, verifyContract, checkAndSwitchNetwork,
      showStatus, showContractHelp, showNetworkHelp, tryCatch, bind, M.bind, pure, theProvider,
      theContract, emit, await, modifyCtl, he, hr, hs, hn, ha, h0])
    all_goals first
      | exact ⟨[_, _, _, _, _, _, _], rfl⟩
      | exact ⟨[_, _, _, _, _, _, _, _], rfl⟩

/-- Witness for C2: a first connection on a chain with no code at the configured address. -/
theorem undeployed_contract_halts_connection_witness :
    Effect.providerCall "getCode" ∈ trace (connectWallet undeployedWorld) {} ∧
    undeployedWorld.getCode = Except.ok "0x" ∧
    result (connectWallet undeployedWorld) {} = Except.ok () ∧
    Effect.status "Wallet connected successfully!" "success"
      ∉ trace (connectWallet undeployedWorld) {} :=
  have h := undeployed_contract_halts_connection {} undeployedWorld (by decide) rfl
  ⟨by decide, rfl, h.2.1, h.2.2.2.2.2.2⟩


/-- C3: the method `verifyContract` never raises, and it returns `true` exactly when the bytecode query
succeeds with a value other than `'0x'` and the `getContractStats` query succeeds (a query that
cannot be issued because `this.provider` or `this.contract` is `null` counts as failed). -/
theorem verifyContract_true_iff (c : Controller) (w : World) :
    (∃ b, result (verifyContract w) c = Except.ok b) ∧
    (result (verifyContract w) c = Except.ok true ↔
      (c.provider.isSome ∧ ∃ code, w.getCode = Except.ok code ∧ code ≠ "0x") ∧
      (c.contract.isSome ∧ ∃ stats, w.getContractStats = Except.ok stats)) := by
  obtain ⟨ct, pr, sg, gt⟩ := c
  cases pr <;> cases ct <;> cases hc : w.getCode <;> cases hs : w.getContractStats <;>
    first
    | (simp [result, verifyContract, tryCatch, bind, M.bind, pure, theProvider, theContract, emit,
        await, hc, hs]; done)
    | (rename_i code _
       by_cases h0 : code = "0x" <;>
       simp [result, verifyContract, tryCatch, bind, M.bind, pure, theProvider, theContract, emit,
        await, hc, hs, h0])

/-! ### Permission gating -/

/-- C4 (evaluation at the failing input): for an account that is not a manager all four manager
buttons carry `data-requires-auth`, and a click on `addItemBtn` only shows the guidance; a click
on `authorizeManagerBtn`, `grantAccessBtn` or `emergencyPauseBtn` nevertheless starts the action
and sends its command. -/
theorem limited_account_clicks_send_commands :
    (after (connectWallet sampleWorld) {}).gate =
      { addItemBtn := true, authorizeManagerBtn := true, grantAccessBtn := true,
        emergencyPauseBtn := true } ∧
    trace (click sampleWorld Button.addItemBtn) (after (connectWallet sampleWorld) {}) =
      [Effect.clipboard "0xA11CE", Effect.status (authorizationMessage "0xA11CE") "info"] ∧
    Effect.command { boundSigner := some { address := "0xA11CE" } }
        (Command.authorizeManager "0xB0B")
      ∈ trace (click sampleWorld Button.authorizeManagerBtn)
          (after (connectWallet sampleWorld) {}) ∧
    Effect.command { boundSigner := some { address := "0xA11CE" } }
        (Command.grantInventoryAccess (JSNum.num 1) "0xB0B")
      ∈ trace (click sampleWorld Button.grantAccessBtn) (after (connectWallet sampleWorld) {}) ∧
    Effect.command { boundSigner := some { address := "0xA11CE" } } Command.emergencyPause
      ∈ trace (click sampleWorld Button.emergencyPauseBtn)
          (after (connectWallet sampleWorld) {}) :=
  ⟨by decide!, by decide!, by decide!, by decide!, by decide!⟩

/-- C5 (as amended): `checkUserPermissions` never raises and changes nothing but the button marks;
a `true` answer of the `authorizedManagers` query clears the four marks, a `false` answer sets
them, and when the query fails (or cannot be issued) the marks stay as the earlier session left
them. -/
theorem checkUserPermissions_gate (c : Controller) (w : World) (address : String) :
    result (checkUserPermissions w address) c = Except.ok () ∧
    after (checkUserPermissions w address) c =
      { c with gate :=
          match c.contract, w.authorizedManagers address with
          | some _, Except.ok true =>
            { addItemBtn := false, authorizeManagerBtn := false, grantAccessBtn := false,
              emergencyPauseBtn := false }
          | some _, Except.ok false =>
            { addItemBtn := true, authorizeManagerBtn := true, grantAccessBtn := true,
              emergencyPauseBtn := true }
          | _, _ => c.gate } := by
  obtain ⟨ct, pr, sg, gt⟩ := c
  cases ct <;> cases hq : w.authorizedManagers address <;>
    first
    | (simp [result, after, checkUserPermissions, showPermissionBanner, enableManagerFunctions,
        disableManagerFunctions, tryCatch, bind, M.bind, pure, theContract, emit, await,
        modifyCtl, hq]; done)
    | (rename_i b
       cases b <;>
       simp [result, after, checkUserPermissions, showPermissionBanner, enableManagerFunctions,
        disableManagerFunctions, tryCatch, bind, M.bind, pure, theContract, emit, await,
        modifyCtl, hq])

/-- C5 fails as stated: when the `authorizedManagers` query fails, the marks are not set: buttons
left unmarked stay unmarked (manager functions stay enabled) and buttons left marked stay marked,
so the gating depends on what the earlier session left. -/
theorem failed_permission_query_keeps_gate :
    (after (checkUserPermissions permissionQueryFailsWorld "0xA11CE") connectedController).gate =
      { addItemBtn := false, authorizeManagerBtn := false, grantAccessBtn := false,
        emergencyPauseBtn := false } ∧
    (after (checkUserPermissions permissionQueryFailsWorld "0xA11CE")
        (after (connectWallet sampleWorld) {})).gate =
      { addItemBtn := true, authorizeManagerBtn := true, grantAccessBtn := true,
        emergencyPauseBtn := true } :=
  ⟨by decide!, by decide!⟩

/-! ### Account change -/

/-- C6 (evaluation at the failing input): the controller is connected as `0xA11CE`; the account
changes and the re-run of `connectWallet` fails at the network query, before a new handle is built.
The signer is then the new account while `this.contract` is still the handle bound to `0xA11CE`,
and the next `processOrder` sends its command through that handle. -/
theorem stale_handle_used_after_failed_reconnect :
    Effect.status "❌ Network connection failed. Please check your network settings." "error"
      ∈ trace (accountsChanged brokenReconnectWorld ["0xB0B"])
          (after (connectWallet sampleWorld) {}) ∧
    (after (accountsChanged brokenReconnectWorld ["0xB0B"])
        (after (connectWallet sampleWorld) {})).signer = some { address := "0xB0B" } ∧
    (after (accountsChanged brokenReconnectWorld ["0xB0B"])
        (after (connectWallet sampleWorld) {})).contract
      = some { boundSigner := some { address := "0xA11CE" } } ∧
    Effect.command { boundSigner := some { address := "0xA11CE" } } (Command.processOrder 1 1)
      ∈ trace (processOrder sampleWorld 1 1)
          (after (accountsChanged brokenReconnectWorld ["0xB0B"])
            (after (connectWallet sampleWorld) {})) :=
  ⟨by decide!, by decide!, by decide!, by decide!⟩

/-! ### Placing an order -/

/-- C7 (as amended): a place-order submission with both fields filled, for an item whose
`getItemInfo` answer has `isActive = false`, makes exactly one contract call, the read-only
`getItemInfo` query, then reports the validation error and stops: no command is dispatched, the
method does not raise and the controller is unchanged. -/
theorem inactive_item_order_rejected (c : Controller) (w : World) (via : Handle)
    (item : ItemInfo)
    (hc : c.contract = some via)
    (hid : isBlank w.form.orderItemId = false)
    (hqty : isBlank w.form.orderQuantity = false)
    (hitem : w.getItemInfo (parseInt w.form.orderItemId) = Except.ok item)
    (hinactive : item.isActive = false) :
    trace (submitNewOrder w) c =
      [Effect.query via (Query.getItemInfo (parseInt w.form.orderItemId)),
       Effect.status "❌ Cannot place order: Item is inactive or deactivated" "error"] ∧
    result (submitNewOrder w) c = Except.ok () ∧
    after (submitNewOrder w) c = c := by
  obtain ⟨ct, pr, sg, gt⟩ := c
  simp only at hc
  subst hc
  simp [trace, result, after, submitNewOrder, validateOrderItem, showStatus, tryCatch, bind,
    M.bind, pure, theContract, getCtl, emit, await, hid, hqty, hitem, hinactive]

/-- Witness for C7: item 7 of the sample chain is inactive. -/
theorem inactive_item_order_rejected_witness :
    connectedController.contract = some { boundSigner := some { address := "0xA11CE" } } ∧
    isBlank sampleWorld.form.orderItemId = false ∧
    isBlank sampleWorld.form.orderQuantity = false ∧
    sampleWorld.getItemInfo (parseInt sampleWorld.form.orderItemId) =
      Except.ok { itemName := "nut", supplier := "0x5", isActive := false, createdAt := 10,
                  lastUpdated := 20 } ∧
    (trace (submitNewOrder sampleWorld) connectedController =
      [Effect.query { boundSigner := some { address := "0xA11CE" } }
         (Query.getItemInfo (parseInt sampleWorld.form.orderItemId)),
       Effect.status "❌ Cannot place order: Item is inactive or deactivated" "error"] ∧
     result (submitNewOrder sampleWorld) connectedController = Except.ok () ∧
     after (submitNewOrder sampleWorld) connectedController = connectedController) :=
  ⟨rfl, by decide, by decide, rfl,
   inactive_item_order_rejected connectedController sampleWorld
     { boundSigner := some { address := "0xA11CE" } }
     { itemName := "nut", supplier := "0x5", isActive := false, createdAt := 10,
       lastUpdated := 20 }
     rfl (by decide) (by decide) rfl rfl⟩

/-- C7 fails as stated: the failure is reported only after a contract call, the `getItemInfo`
query that tells whether the item is active. -/
theorem inactive_item_check_queries_contract :
    trace (submitNewOrder sampleWorld) connectedController =
      [Effect.query { boundSigner := some { address := "0xA11CE" } }
         (Query.getItemInfo (JSNum.num 7)),
       Effect.status "❌ Cannot place order: Item is inactive or deactivated" "error"] := by
  decide!

/-! ### Bulk refresh -/

theorem inventoryLoop_eval (w : World) (via : Handle) (n : Nat) :
    ∀ (i : Nat) (items : List InventoryItem) (s : St), s.ctl.contract = some via →
      ∃ l, inventoryLoop w n i items s =
          (Except.ok (items ++ (List.range' i n).filterMap (fetchItem w)),
            { ctl := s.ctl, log := s.log ++ l }) ∧
        ∀ e ∈ l, e.isFetchNoise = true := by
  induction n with
  | zero =>
    intro i items s _
    exact ⟨[], by simp [inventoryLoop, pure], by simp⟩
  | succ k ih =>
    intro i items s hs
    cases hq : w.getItemInfo (JSNum.num (i : Int)) with
    | error e =>
      obtain ⟨l, hl, hn⟩ := ih (i + 1) items
        { ctl := s.ctl, log := s.log ++ [Effect.query via (Query.getItemInfo (JSNum.num (i : Int))),
            Effect.consoleError ("Error loading item " ++ toString i ++ ":")] } hs
      refine ⟨[Effect.query via (Query.getItemInfo (JSNum.num (i : Int))),
            Effect.consoleError ("Error loading item " ++ toString i ++ ":")] ++ l, ?_, ?_⟩
      · simp [inventoryLoop, tryCatch, bind, M.bind, pure, theContract, emit, await, hs, hq,
          List.range'_succ, fetchItem] at hl ⊢
        exact hl
      · intro e he
        rcases List.mem_append.mp he with h | h
        · simp at h
          rcases h with h | h <;> simp [h, Effect.isFetchNoise]
        · exact hn e h
    | ok item =>
      obtain ⟨l, hl, hn⟩ := ih (i + 1) (items ++ [itemProjection i item])
        { ctl := s.ctl, log := s.log ++ [Effect.query via (Query.getItemInfo (JSNum.num (i : Int)))] } hs
      refine ⟨[Effect.query via (Query.getItemInfo (JSNum.num (i : Int)))] ++ l, ?_, ?_⟩
      · simp [inventoryLoop, tryCatch, bind, M.bind, pure, theContract, emit, await, hs, hq,
          List.range'_succ, fetchItem] at hl ⊢
        exact hl
      · intro e he
        rcases List.mem_append.mp he with h | h
        · simp at h
          simp [h, Effect.isFetchNoise]
        · exact hn e h


theorem fetched_ids (w : World) (F : Finset ℕ) (N : Nat)
    (hF : ∀ i, i ∈ F ↔ (1 ≤ i ∧ i ≤ N) ∧ ∃ e, w.getItemInfo (JSNum.num (i : Int)) = Except.error e) :
    ∀ L : List Nat, (∀ i ∈ L, 1 ≤ i ∧ i ≤ N) →
      (L.filterMap (fetchItem w)).map (fun item => item.id) = L.filter (fun i => i ∉ F) := by
  intro L
  induction L with
  | nil => intro _; rfl
  | cons a L ih =>
    intro hL
    have ha := hL a (List.mem_cons_self _ _)
    have ih1 := ih (fun i hi => hL i (List.mem_cons_of_mem _ hi))
    cases hq : w.getItemInfo (JSNum.num (a : Int)) with
    | error e =>
      have haF : a ∈ F := (hF a).mpr ⟨ha, e, hq⟩
      simp [List.filterMap_cons, fetchItem, hq, haF, ih1]
    | ok item =>
      have haF : a ∉ F := by
        intro h
        obtain ⟨_, e, he⟩ := (hF a).mp h
        rw [hq] at he
        cases he
      simp [List.filterMap_cons, fetchItem, hq, haF, ih1, itemProjection]

theorem failed_count (F : Finset ℕ) (N : Nat) (hF : ∀ i ∈ F, 1 ≤ i ∧ i ≤ N) :
    ((List.range' 1 N).filter (fun i => i ∉ F)).length = N - F.card := by
  have hcard : ((List.range' 1 N).filter (fun i => i ∈ F)).length = F.card := by
    have hnd : ((List.range' 1 N).filter (fun i => i ∈ F)).Nodup :=
      (List.nodup_range' 1 N).filter _
    rw [← List.toFinset_card_of_nodup hnd]
    congr 1
    ext i
    simp only [List.mem_toFinset, List.mem_filter, List.mem_range'_1, decide_eq_true_eq]
    constructor
    · exact fun h => h.2
    · intro h
      have := hF i h
      exact ⟨⟨this.1, by omega⟩, h⟩
  have hsplit := List.length_eq_countP_add_countP (p := fun i => decide (i ∈ F)) (List.range' 1 N)
  rw [List.countP_eq_length_filter, List.countP_eq_length_filter, hcard, List.length_range'] at hsplit
  have : (List.filter (fun a => decide ¬(fun i => decide (i ∈ F)) a = true) (List.range' 1 N))
      = (List.range' 1 N).filter (fun i => i ∉ F) := by
    congr 1
    funext a
    simp
  rw [this] at hsplit
  omega

/-- C8: with the handle set and the statistics query returning `N` items, `loadInventoryData`
does not raise and hands to rendering exactly one list: the items of the ids in `1..N` whose
`getItemInfo` query succeeds (those outside the failing set `F`), in ascending id order, each with
the id it was fetched under and the name, supplier and `isActive` returned for that id; its length
is `N` minus the number of failing ids, so `N - 1` when one id fails. -/
theorem loadInventoryData_skips_failed_items (c : Controller) (w : World) (via : Handle) (stats : Stats) (F : Finset ℕ)
    (hc : c.contract = some via)
    (hs : w.getContractStats = Except.ok stats)
    (hF : ∀ i, i ∈ F ↔
      (1 ≤ i ∧ i ≤ stats.totalItems) ∧ ∃ e, w.getItemInfo (JSNum.num (i : Int)) = Except.error e) :
    result (loadInventoryData w) c = Except.ok () ∧
    ∃ items : List InventoryItem,
      (∀ l, Effect.renderInventory l ∈ trace (loadInventoryData w) c ↔ l = items) ∧
      items.map (fun item => item.id) =
        (List.range' 1 stats.totalItems).filter (fun i => i ∉ F) ∧
      (items.map (fun item => item.id)).Sorted (· < ·) ∧
      (∀ item ∈ items, ∃ info, w.getItemInfo (JSNum.num (item.id : Int)) = Except.ok info ∧
        item.name = info.itemName ∧ item.supplier = info.supplier ∧
        item.isActive = info.isActive) ∧
      items.length = stats.totalItems - F.card := by
  obtain ⟨l, hl, hn⟩ := inventoryLoop_eval w via stats.totalItems 1 []
    { ctl := c, log := [Effect.query via Query.getContractStats] } hc
  have hrun : loadInventoryData w { ctl := c, log := [] } =
      (Except.ok (), { ctl := c, log := [Effect.query via Query.getContractStats] ++ l ++
        [Effect.renderInventory ((List.range' 1 stats.totalItems).filterMap (fetchItem w)),
         Effect.inventoryStats ((List.range' 1 stats.totalItems).filterMap (fetchItem w)).length
           (((List.range' 1 stats.totalItems).filterMap (fetchItem w)).filter
             (fun item => item.isActive)).length 0] }) := by
    simp [loadInventoryData, renderInventoryItems, updateInventoryStats, tryCatch, bind, M.bind,
      pure, theContract, getCtl, emit, await, hc, hs, hl]
  have hids := fetched_ids w F stats.totalItems hF (List.range' 1 stats.totalItems)
    (by intro i hi; have := List.mem_range'_1.mp hi; omega)
  refine ⟨by simp [result, hrun], (List.range' 1 stats.totalItems).filterMap (fetchItem w),
    ?_, hids, ?_, ?_, ?_⟩
  · intro items
    have hnot : Effect.renderInventory items ∉ l := by
      intro h
      have := hn _ h
      simp [Effect.isFetchNoise] at this
    simp [trace, hrun, hnot]
  · rw [hids]
    exact List.Sorted.filter _ (List.pairwise_lt_range' 1 stats.totalItems)
  · intro item hitem
    obtain ⟨i, _, hi⟩ := List.mem_filterMap.mp hitem
    unfold fetchItem at hi
    cases hq : w.getItemInfo (JSNum.num (i : Int)) with
    | error e => simp [hq] at hi
    | ok info =>
      simp [hq] at hi
      subst hi
      exact ⟨info, by simpa [itemProjection] using hq, rfl, rfl, rfl⟩
  · have := congrArg List.length hids
    rw [List.length_map] at this
    rw [this]
    exact failed_count F stats.totalItems (fun i hi => ((hF i).mp hi).1)


/-- Witness for C8: four items on the sample chain, of which item 3 fails to decode. -/
theorem loadInventoryData_skips_failed_items_witness :
    connectedController.contract = some { boundSigner := some { address := "0xA11CE" } } ∧
    sampleWorld.getContractStats =
      Except.ok { totalItems := 4, totalOrders := 0, activeItemsCount := 2,
                  pendingOrdersCount := 0 } ∧
    result (loadInventoryData sampleWorld) connectedController = Except.ok () ∧
    ∃ items : List InventoryItem,
      (∀ l, Effect.renderInventory l ∈ trace (loadInventoryData sampleWorld) connectedController
        ↔ l = items) ∧
      items.map (fun item => item.id) = [1, 2, 4] ∧ items.length = 3 := by
  have hF : ∀ i, i ∈ ({3} : Finset ℕ) ↔
      (1 ≤ i ∧ i ≤ 4) ∧ ∃ e, sampleWorld.getItemInfo (JSNum.num (i : Int)) = Except.error e := by
    intro i
    by_cases h3 : i = 3
    · subst h3
      simp [sampleWorld]
    · have h3z : (i : Int) ≠ 3 := by exact_mod_cast h3
      by_cases h7 : (i : Int) = 7 <;> simp [sampleWorld, h3, h3z, h7]
  obtain ⟨hr, items, hrender, hids, _, _, hlen⟩ :=
    loadInventoryData_skips_failed_items connectedController sampleWorld
      { boundSigner := some { address := "0xA11CE" } }
      { totalItems := 4, totalOrders := 0, activeItemsCount := 2, pendingOrdersCount := 0 }
      {3} rfl rfl hF
  exact ⟨rfl, rfl, hr, items, hrender, by rw [hids]; decide, by rw [hlen]; decide⟩

/-! ### Failure reports -/

/-- C9 (as amended): when a submitted add-item command fails with error `e`, at the call or at the
confirmation, `submitNewItem` does not raise and reports exactly the outcome given by a fixed
priority: a message with `Not authorized manager` is authorization denied; otherwise a message
with `missing revert data` is contract unreachable, shown together with the contract help;
otherwise the error code `CALL_EXCEPTION` gives the fixed transaction-failed status; otherwise
the generic status carries the raw message. An error matching the first two patterns is
authorization denied. -/
theorem submitNewItem_failure_classification (c : Controller) (w : World) (via : Handle) (priceInWei : Int) (e : Err)
    (hc : c.contract = some via)
    (hname : isBlank w.form.itemName = false)
    (hquantity : isBlank w.form.itemQuantity = false)
    (hprice : isBlank w.form.itemPrice = false)
    (hmin : isBlank w.form.minStockLevel = false)
    (hsupplier : isBlank w.form.supplierAddress = false)
    (haddr : w.isAddress w.form.supplierAddress = true)
    (hwei : w.parseEther w.form.itemPrice = Except.ok priceInWei)
    (hfail : commandFails w
      (Command.addInventoryItem (parseInt w.form.itemQuantity) priceInWei
        (parseInt w.form.minStockLevel) w.form.itemName w.form.supplierAddress) e) :
    result (submitNewItem w) c = Except.ok () ∧
    trace (submitNewItem w) c =
      failedCommandTrace w via
        (Command.addInventoryItem (parseInt w.form.itemQuantity) priceInWei
          (parseInt w.form.minStockLevel) w.form.itemName w.form.supplierAddress)
        "Adding new inventory item..." "Error adding item:"
        (classifyAddItemFailure e).report ∧
    (includes e.message "Not authorized manager" = true →
      classifyAddItemFailure e = FailureKind.authorizationDenied) ∧
    (includes e.message "Not authorized manager" = false →
      includes e.message "missing revert data" = true →
      classifyAddItemFailure e = FailureKind.contractUnreachable) ∧
    (includes e.message "Not authorized manager" = false →
      includes e.message "missing revert data" = false → e.code = "CALL_EXCEPTION" →
      classifyAddItemFailure e = FailureKind.transactionFailed) ∧
    (includes e.message "Not authorized manager" = false →
      includes e.message "missing revert data" = false → e.code ≠ "CALL_EXCEPTION" →
      classifyAddItemFailure e = FailureKind.commandRejected e.message) := by
  obtain ⟨ct, pr, sg, gt⟩ := c
  simp only at hc
  subst hc
  refine ⟨?_, ?_, ?_, ?_, ?_, ?_⟩
  · rcases hfail with h | ⟨h1, h2⟩ <;>
      by_cases ha : includes e.message "Not authorized manager" = true <;>
      by_cases hm : includes e.message "missing revert data" = true <;>
      by_cases hx : e.code = "CALL_EXCEPTION" <;>
      simp [result, submitNewItem, submitNewItemCatch, sendAndConfirm, showStatus,
        showContractHelp, tryCatch, bind, M.bind, pure, theContract, getCtl, emit, await,
        *]
  · rcases hfail with h | ⟨h1, h2⟩ <;>
      by_cases ha : includes e.message "Not authorized manager" = true <;>
      by_cases hm : includes e.message "missing revert data" = true <;>
      by_cases hx : e.code = "CALL_EXCEPTION" <;>
      simp [trace, submitNewItem, submitNewItemCatch, sendAndConfirm, showStatus,
        showContractHelp, tryCatch, bind, M.bind, pure, theContract, getCtl, emit, await,
        failedCommandTrace, classifyAddItemFailure, FailureKind.report,
        *]
  · intro ha; simp [classifyAddItemFailure, ha]
  · intro ha hm; simp [classifyAddItemFailure, ha, hm]
  · intro ha hm hx; simp [classifyAddItemFailure, ha, hm, hx]
  · intro ha hm hx; simp [classifyAddItemFailure, ha, hm, hx]

/-- Witness for C9: a revert whose message matches both patterns is reported as authorization
denied. -/
theorem submitNewItem_failure_classification_witness :
    connectedController.contract = some { boundSigner := some { address := "0xA11CE" } } ∧
    commandFails deniedWorld
      (Command.addInventoryItem (JSNum.num 5) 1000000000000000000 (JSNum.num 2) "bolt" "0x5")
      { message := "Not authorized manager (missing revert data)", code := "CALL_EXCEPTION" } ∧
    trace (submitNewItem deniedWorld) connectedController =
      [Effect.status "Adding new inventory item..." "loading",
       Effect.command { boundSigner := some { address := "0xA11CE" } }
         (Command.addInventoryItem (JSNum.num 5) 1000000000000000000 (JSNum.num 2) "bolt" "0x5"),
       Effect.consoleError "Error adding item:",
       Effect.status "❌ Access denied: Manager authorization required to add inventory items"
         "error"] :=
  ⟨rfl, Or.inl rfl,
   (submitNewItem_failure_classification connectedController deniedWorld
      { boundSigner := some { address := "0xA11CE" } } 1000000000000000000
      { message := "Not authorized manager (missing revert data)", code := "CALL_EXCEPTION" }
      rfl (by decide) (by decide) (by decide) (by decide) (by decide) (by decide) rfl
      (Or.inl rfl)).2.1.trans (by decide!)⟩

/-- C9 fails as stated: an add-item failure with code `CALL_EXCEPTION` whose message matches
neither pattern is reported with a fixed text that does not carry the raw reason. -/
theorem call_exception_report_drops_reason :
    trace (submitNewItem revertingWorld) connectedController =
      [Effect.status "Adding new inventory item..." "loading",
       Effect.command { boundSigner := some { address := "0xA11CE" } }
         (Command.addInventoryItem (JSNum.num 5) 1000000000000000000 (JSNum.num 2) "bolt" "0x5"),
       Effect.consoleError "Error adding item:",
       Effect.status "❌ Transaction failed: Check contract address and network" "error"] ∧
    includes "❌ Transaction failed: Check contract address and network" "execution reverted"
      = false := by
  decide!

/-- C10 (as amended): the add-item classification is not applied to the other command kinds. With
the handle set, when the command of place-order, process-order, update-stock, authorize-manager,
grant-access or emergency-pause is dispatched and fails with error `e`, the method logs the error
and shows one error status made of its own prefix and the raw message `e.message` (place-order
first maps the reasons `Item not active` and `Invalid quantity` to fixed texts); no contract help
is shown. -/
theorem other_commands_report_raw_message (c : Controller) (w : World) (via : Handle) (e : Err)
    (orderId status itemId : Nat) (hc : c.contract = some via) :
    (∀ item,
      isBlank w.form.orderItemId = false → isBlank w.form.orderQuantity = false →
      w.getItemInfo (parseInt w.form.orderItemId) = Except.ok item → item.isActive = true →
      commandFails w
        (Command.placeOrder (parseInt w.form.orderItemId) (parseInt w.form.orderQuantity)) e →
      trace (perform w Intent.placeOrder) c =
        Effect.query via (Query.getItemInfo (parseInt w.form.orderItemId)) ::
          failedCommandTrace w via
            (Command.placeOrder (parseInt w.form.orderItemId) (parseInt w.form.orderQuantity))
            "Placing order..." "Error placing order:"
            [Effect.status (placeOrderReport e) "error"]) ∧
    (commandFails w (Command.processOrder orderId status) e →
      trace (perform w (Intent.processOrder orderId status)) c =
        failedCommandTrace w via (Command.processOrder orderId status)
          ((statusNames.get? status).getD "undefined" ++ " order...") "Error processing order:"
          [Effect.status ("Failed to process order: " ++ e.message) "error"]) ∧
    (∀ quantityChange, w.promptDialog = some quantityChange → isBlank quantityChange = false →
      commandFails w
        (Command.updateStock itemId (mathAbs (parseInt quantityChange))
          (jsGreater (parseInt quantityChange) (JSNum.num 0))) e →
      trace (perform w (Intent.updateStock itemId)) c =
        failedCommandTrace w via
          (Command.updateStock itemId (mathAbs (parseInt quantityChange))
            (jsGreater (parseInt quantityChange) (JSNum.num 0)))
          "Updating stock..." "Error updating stock:"
          [Effect.status ("Failed to update stock: " ++ e.message) "error"]) ∧
    (isBlank w.form.newManagerAddress = false → w.isAddress w.form.newManagerAddress = true →
      commandFails w (Command.authorizeManager w.form.newManagerAddress) e →
      trace (perform w Intent.authorizeManager) c =
        failedCommandTrace w via (Command.authorizeManager w.form.newManagerAddress)
          "Authorizing manager..." "Error authorizing manager:"
          [Effect.status ("Failed to authorize manager: " ++ e.message) "error"]) ∧
    (isBlank w.form.accessItemId = false → isBlank w.form.accessUserAddress = false →
      commandFails w
        (Command.grantInventoryAccess (parseInt w.form.accessItemId) w.form.accessUserAddress) e →
      trace (perform w Intent.grantAccess) c =
        failedCommandTrace w via
          (Command.grantInventoryAccess (parseInt w.form.accessItemId) w.form.accessUserAddress)
          "Granting access..." "Error granting access:"
          [Effect.status ("Failed to grant access: " ++ e.message) "error"]) ∧
    (w.confirmDialog = true → commandFails w Command.emergencyPause e →
      trace (perform w Intent.emergencyPause) c =
        failedCommandTrace w via Command.emergencyPause
          "Emergency pause in progress..." "Error during emergency pause:"
          [Effect.status ("Emergency pause failed: " ++ e.message) "error"]) := by
  obtain ⟨ct, pr, sg, gt⟩ := c
  simp only at hc
  subst hc
  refine ⟨?_, ?_, ?_, ?_, ?_, ?_⟩
  · intro item h1 h2 h3 h4 hfail
    rcases hfail with h | ⟨h, h'⟩ <;>
      by_cases ha : includes e.message "Item not active" = true <;>
      by_cases hm : includes e.message "Invalid quantity" = true <;>
      simp [trace, perform, submitNewOrder, submitNewOrderCatch, validateOrderItem,
        sendAndConfirm, showStatus, tryCatch, bind, M.bind, pure, theContract, getCtl, emit,
        await, failedCommandTrace, placeOrderReport, *]
  · intro hfail
    rcases hfail with h | ⟨h, h'⟩ <;>
      simp [trace, perform, processOrder, processOrderCatch,
        sendAndConfirm, showStatus, tryCatch, bind, M.bind, pure, theContract, getCtl, emit,
        await, failedCommandTrace, *]
  · intro q h1 h2 hfail
    rcases hfail with h | ⟨h, h'⟩ <;>
      simp [trace, perform, updateItemStock, updateItemStockCatch,
        sendAndConfirm, showStatus, tryCatch, bind, M.bind, pure, theContract, getCtl, emit,
        await, failedCommandTrace, *]
  · intro h1 h2 hfail
    rcases hfail with h | ⟨h, h'⟩ <;>
      simp [trace, perform, authorizeManager, authorizeManagerCatch,
        sendAndConfirm, showStatus, tryCatch, bind, M.bind, pure, theContract, getCtl, emit,
        await, failedCommandTrace, *]
  · intro h1 h2 hfail
    rcases hfail with h | ⟨h, h'⟩ <;>
      simp [trace, perform, grantAccess, grantAccessCatch,
        sendAndConfirm, showStatus, tryCatch, bind, M.bind, pure, theContract, getCtl, emit,
        await, failedCommandTrace, *]
  · intro h1 hfail
    rcases hfail with h | ⟨h, h'⟩ <;>
      simp [trace, perform, emergencyPause, emergencyPauseCatch,
        sendAndConfirm, showStatus, tryCatch, bind, M.bind, pure, theContract, getCtl, emit,
        await, failedCommandTrace, *]

/-- Witness for C10: on a chain where every command reverts, each of the six methods reports its
own prefix followed by the raw message. -/
theorem other_commands_report_raw_message_witness :
    connectedController.contract = some { boundSigner := some { address := "0xA11CE" } } ∧
    trace (perform revertingWorld Intent.placeOrder) connectedController =
      [Effect.query { boundSigner := some { address := "0xA11CE" } }
         (Query.getItemInfo (JSNum.num 1)),
       Effect.status "Placing order..." "loading",
       Effect.command { boundSigner := some { address := "0xA11CE" } }
         (Command.placeOrder (JSNum.num 1) (JSNum.num 3)),
       Effect.consoleError "Error placing order:",
       Effect.status "Failed to place order: execution reverted" "error"] ∧
    trace (perform revertingWorld (Intent.processOrder 1 2)) connectedController =
      [Effect.status "Rejected order..." "loading",
       Effect.command { boundSigner := some { address := "0xA11CE" } }
         (Command.processOrder 1 2),
       Effect.consoleError "Error processing order:",
       Effect.status "Failed to process order: execution reverted" "error"] ∧
    trace (perform revertingWorld (Intent.updateStock 2)) connectedController =
      [Effect.status "Updating stock..." "loading",
       Effect.command { boundSigner := some { address := "0xA11CE" } }
         (Command.updateStock 2 (JSNum.num 4) false),
       Effect.consoleError "Error updating stock:",
       Effect.status "Failed to update stock: execution reverted" "error"] ∧
    trace (perform revertingWorld Intent.authorizeManager) connectedController =
      [Effect.status "Authorizing manager..." "loading",
       Effect.command { boundSigner := some { address := "0xA11CE" } }
         (Command.authorizeManager "0xB0B"),
       Effect.consoleError "Error authorizing manager:",
       Effect.status "Failed to authorize manager: execution reverted" "error"] ∧
    trace (perform revertingWorld Intent.grantAccess) connectedController =
      [Effect.status "Granting access..." "loading",
       Effect.command { boundSigner := some { address := "0xA11CE" } }
         (Command.grantInventoryAccess (JSNum.num 1) "0xB0B"),
       Effect.consoleError "Error granting access:",
       Effect.status "Failed to grant access: execution reverted" "error"] ∧
    trace (perform revertingWorld Intent.emergencyPause) connectedController =
      [Effect.status "Emergency pause in progress..." "loading",
       Effect.command { boundSigner := some { address := "0xA11CE" } } Command.emergencyPause,
       Effect.consoleError "Error during emergency pause:",
       Effect.status "Emergency pause failed: execution reverted" "error"] :=
  have h := other_commands_report_raw_message connectedController revertingWorld
    { boundSigner := some { address := "0xA11CE" } }
    { message := "execution reverted", code := "CALL_EXCEPTION" } 1 2 2 rfl
  ⟨rfl,
   (h.1 { itemName := "bolt", supplier := "0x5", isActive := true, createdAt := 10,
          lastUpdated := 20 } (by decide) (by decide) rfl rfl (Or.inl rfl)).trans (by decide!),
   (h.2.1 (Or.inl rfl)).trans (by decide!),
   (h.2.2.1 "-4" rfl (by decide) (Or.inl rfl)).trans (by decide!),
   (h.2.2.2.1 (by decide) (by decide) (Or.inl rfl)).trans (by decide!),
   (h.2.2.2.2.1 (by decide) (by decide) (Or.inl rfl)).trans (by decide!),
   (h.2.2.2.2.2 rfl (Or.inl rfl)).trans (by decide!)⟩

/-- C10 fails as stated: the same `missing revert data` failure is reported as contract
unreachable, with the contract help, by add-item, but as a plain failure with the raw message and
without the help by authorize-manager; and an authorization revert of process-order is reported
with the raw message, not as access denied. -/
theorem other_commands_skip_classification :
    trace (perform unreachableWorld Intent.addItem) connectedController =
      [Effect.status "Adding new inventory item..." "loading",
       Effect.command { boundSigner := some { address := "0xA11CE" } }
         (Command.addInventoryItem (JSNum.num 5) 1000000000000000000 (JSNum.num 2) "bolt" "0x5"),
       Effect.consoleError "Error adding item:",
       Effect.status "❌ Contract call failed: Contract may not be deployed or network mismatch"
         "error",
       Effect.contractHelp] ∧
    trace (perform unreachableWorld Intent.authorizeManager) connectedController =
      [Effect.status "Authorizing manager..." "loading",
       Effect.command { boundSigner := some { address := "0xA11CE" } }
         (Command.authorizeManager "0xB0B"),
       Effect.consoleError "Error authorizing manager:",
       Effect.status "Failed to authorize manager: missing revert data" "error"] ∧
    trace (perform deniedWorld (Intent.processOrder 1 1)) connectedController =
      [Effect.status "Approved order..." "loading",
       Effect.command { boundSigner := some { address := "0xA11CE" } }
         (Command.processOrder 1 1),
       Effect.consoleError "Error processing order:",
       Effect.status
         "Failed to process order: Not authorized manager (missing revert data)" "error"] := by
  decide!

/-! ### Frames: what a computation may append to the log -/

theorem appends_pure {α : Type} {P : Effect → Prop} (a : α) : Appends P (pure a : M α) := by
  intro s; exact ⟨rfl, [], by simp [Pure.pure], by simp⟩

theorem appends_raise {α : Type} {P : Effect → Prop} (e : Err) : Appends P (raise e : M α) := by
  intro s; exact ⟨rfl, [], by simp [SecretInventory.raise], by simp⟩

theorem appends_await {α : Type} {P : Effect → Prop} (r : Except Err α) :
    Appends P (await r) := by
  intro s; exact ⟨rfl, [], by simp [SecretInventory.await], by simp⟩

theorem appends_getCtl {P : Effect → Prop} : Appends P getCtl := by
  intro s; exact ⟨rfl, [], by simp [SecretInventory.getCtl], by simp⟩

theorem appends_theContract {P : Effect → Prop} : Appends P theContract := by
  intro s
  unfold SecretInventory.theContract
  cases h : s.ctl.contract <;> exact ⟨by simp, [], by simp, by simp⟩

theorem appends_theProvider {P : Effect → Prop} : Appends P theProvider := by
  intro s
  unfold SecretInventory.theProvider
  cases h : s.ctl.provider <;> exact ⟨by simp, [], by simp, by simp⟩

theorem appends_emit {P : Effect → Prop} (e : Effect) (he : P e) : Appends P (emit e) := by
  intro s
  refine ⟨rfl, [e], rfl, ?_⟩
  intro x hx
  simp at hx
  exact hx ▸ he

theorem appends_bind {α β : Type} {P : Effect → Prop} {m : M α} {f : α → M β}
    (hm : Appends P m) (hf : ∀ a, Appends P (f a)) : Appends P (m >>= f) := by
  intro s
  obtain ⟨hc, l, hl, hq⟩ := hm s
  show ((M.bind m f) s).2.ctl = _ ∧ ∃ l, ((M.bind m f) s).2.log = _ ∧ _
  unfold M.bind
  rcases hms : m s with ⟨r, s1⟩
  rw [hms] at hc hl
  cases r with
  | error e => exact ⟨hc, l, hl, hq⟩
  | ok a =>
    obtain ⟨hc2, l2, hl2, hq2⟩ := hf a s1
    refine ⟨hc2.trans hc, l ++ l2, ?_, ?_⟩
    · show (_ : St).log = _
      rw [hl2]
      have hl1 : s1.log = s.log ++ l := hl
      rw [hl1, List.append_assoc]
    · intro x hx
      rcases List.mem_append.mp hx with h | h
      · exact hq x h
      · exact hq2 x h

theorem appends_tryCatch {α : Type} {P : Effect → Prop} {m : M α} {f : Err → M α}
    (hm : Appends P m) (hf : ∀ e, Appends P (f e)) : Appends P (tryCatch m f) := by
  intro s
  obtain ⟨hc, l, hl, hq⟩ := hm s
  unfold SecretInventory.tryCatch
  rcases hms : m s with ⟨r, s1⟩
  rw [hms] at hc hl
  cases r with
  | ok a => exact ⟨hc, l, hl, hq⟩
  | error e =>
    obtain ⟨hc2, l2, hl2, hq2⟩ := hf e s1
    refine ⟨hc2.trans hc, l ++ l2, ?_, ?_⟩
    · show (_ : St).log = _
      rw [hl2]
      have hl1 : s1.log = s.log ++ l := hl
      rw [hl1, List.append_assoc]
    · intro x hx
      rcases List.mem_append.mp hx with h | h
      · exact hq x h
      · exact hq2 x h

theorem appends_mono {α : Type} {P Q : Effect → Prop} {m : M α} (h : Appends P m)
    (hPQ : ∀ e, P e → Q e) : Appends Q m := by
  intro s
  obtain ⟨hc, l, hl, hq⟩ := h s
  exact ⟨hc, l, hl, fun e he => hPQ e (hq e he)⟩

theorem appends_inventoryLoop (w : World) (n : Nat) :
    ∀ i items, Appends (fun e => e.isCommand = false) (inventoryLoop w n i items) := by
  induction n with
  | zero => intro i items; exact appends_pure _
  | succ k ih =>
    intro i items
    unfold SecretInventory.inventoryLoop
    refine appends_bind (appends_tryCatch ?_ ?_) (fun a => ih _ a)
    · refine appends_bind appends_theContract (fun c => ?_)
      refine appends_bind (appends_emit _ rfl) (fun _ => ?_)
      exact appends_bind (appends_await _) (fun _ => appends_pure _)
    · intro e
      exact appends_bind (appends_emit _ rfl) (fun _ => appends_pure _)

theorem appends_ordersLoop (w : World) (n : Nat) :
    ∀ i orders, Appends (fun e => e.isCommand = false) (ordersLoop w n i orders) := by
  induction n with
  | zero => intro i orders; exact appends_pure _
  | succ k ih =>
    intro i orders
    unfold SecretInventory.ordersLoop
    refine appends_bind (appends_tryCatch ?_ ?_) (fun a => ih _ a)
    · refine appends_bind appends_theContract (fun c => ?_)
      refine appends_bind (appends_emit _ rfl) (fun _ => ?_)
      exact appends_bind (appends_await _) (fun _ => appends_pure _)
    · intro e
      exact appends_bind (appends_emit _ rfl) (fun _ => appends_pure _)

theorem appends_loadInventoryData (w : World) :
    Appends (fun e => e.isCommand = false) (loadInventoryData w) := by
  simp only [SecretInventory.loadInventoryData, renderInventoryItems, updateInventoryStats,
    showStatus]
  repeat (first
    | with_reducible exact appends_pure _
    | with_reducible exact appends_getCtl
    | with_reducible exact appends_theContract
    | with_reducible exact appends_await _
    | with_reducible exact appends_emit _ (by simp [Effect.isCommand])
    | with_reducible exact appends_inventoryLoop _ _ _ _
    | with_reducible refine appends_tryCatch ?_ (fun _ => ?_)
    | with_reducible refine appends_bind ?_ (fun _ => ?_)
    | split)

theorem appends_loadOrdersData (w : World) :
    Appends (fun e => e.isCommand = false) (loadOrdersData w) := by
  simp only [SecretInventory.loadOrdersData, renderOrders, updateOrderStats]
  repeat (first
    | with_reducible exact appends_pure _
    | with_reducible exact appends_getCtl
    | with_reducible exact appends_theContract
    | with_reducible exact appends_await _
    | with_reducible exact appends_emit _ (by simp [Effect.isCommand])
    | with_reducible exact appends_ordersLoop _ _ _ _
    | with_reducible refine appends_tryCatch ?_ (fun _ => ?_)
    | with_reducible refine appends_bind ?_ (fun _ => ?_)
    | split)

theorem appends_loadAllData (w : World) :
    Appends (fun e => e.isCommand = false) (loadAllData w) := by
  simp only [SecretInventory.loadAllData, loadSuppliersData, loadAnalyticsData]
  repeat (first
    | with_reducible exact appends_pure _
    | with_reducible exact appends_getCtl
    | with_reducible exact appends_theContract
    | with_reducible exact appends_await _
    | with_reducible exact appends_emit _ (by simp [Effect.isCommand])
    | with_reducible exact appends_loadInventoryData _
    | with_reducible exact appends_loadOrdersData _
    | with_reducible refine appends_tryCatch ?_ (fun _ => ?_)
    | with_reducible refine appends_bind ?_ (fun _ => ?_)
    | split)


theorem returns_pure {α : Type} {P : Effect → Prop} (a : α) : Returns P (pure a : M α) := by
  intro s; exact ⟨a, [], by simp [Pure.pure], by simp⟩

theorem returns_getCtl {P : Effect → Prop} : Returns P getCtl := by
  intro s; exact ⟨s.ctl, [], by simp [SecretInventory.getCtl], by simp⟩

theorem returns_emit {P : Effect → Prop} (e : Effect) (he : P e) : Returns P (emit e) := by
  intro s
  refine ⟨(), [e], rfl, ?_⟩
  intro x hx
  simp at hx
  exact hx ▸ he

theorem returns_bind {α β : Type} {P : Effect → Prop} {m : M α} {f : α → M β}
    (hm : Returns P m) (hf : ∀ a, Returns P (f a)) : Returns P (m >>= f) := by
  intro s
  obtain ⟨a, l, hl, hq⟩ := hm s
  obtain ⟨b, l2, hl2, hq2⟩ := hf a { ctl := s.ctl, log := s.log ++ l }
  refine ⟨b, l ++ l2, ?_, ?_⟩
  · show M.bind m f s = _
    unfold M.bind
    rw [hl]
    simp only [hl2, List.append_assoc]
  · intro x hx
    rcases List.mem_append.mp hx with h | h
    · exact hq x h
    · exact hq2 x h

theorem returns_tryCatch {α : Type} {P : Effect → Prop} {m : M α} {f : Err → M α}
    (hm : Appends P m) (hf : ∀ e, Returns P (f e)) : Returns P (tryCatch m f) := by
  intro s
  obtain ⟨hc, l, hl, hq⟩ := hm s
  unfold SecretInventory.tryCatch
  rcases hms : m s with ⟨r, s1⟩
  rw [hms] at hc hl
  have hs1 : s1 = { ctl := s.ctl, log := s.log ++ l } := by
    cases s1
    simp only at hc hl
    rw [hc, hl]
  cases r with
  | ok a => exact ⟨a, l, by simp [hs1], hq⟩
  | error e =>
    subst hs1
    obtain ⟨b, l2, hl2, hq2⟩ := hf e { ctl := s.ctl, log := s.log ++ l }
    refine ⟨b, l ++ l2, ?_, ?_⟩
    · simp only [hl2, List.append_assoc]
    · intro x hx
      rcases List.mem_append.mp hx with h | h
      · exact hq x h
      · exact hq2 x h

theorem returns_appends {α : Type} {P : Effect → Prop} {m : M α} (h : Returns P m) :
    Appends P m := by
  intro s
  obtain ⟨a, l, hl, hq⟩ := h s
  exact ⟨by rw [hl], l, by rw [hl], hq⟩

theorem returns_run {α : Type} {P : Effect → Prop} {m : M α} (h : Returns P m) (s : St) :
    (∃ a, m s = (Except.ok a, { ctl := s.ctl, log := s.log ++ addedLog m s })) ∧
    ∀ e ∈ addedLog m s, P e := by
  obtain ⟨a, l, hl, hq⟩ := h s
  have : addedLog m s = l := by simp [addedLog, hl]
  rw [this]
  exact ⟨⟨a, hl⟩, hq⟩

theorem returns_inventoryLoop (w : World) (n : Nat) :
    ∀ i items, Returns (fun e => e.isCommand = false) (inventoryLoop w n i items) := by
  induction n with
  | zero => intro i items; exact returns_pure _
  | succ k ih =>
    intro i items
    unfold SecretInventory.inventoryLoop
    refine returns_bind (returns_tryCatch ?_ ?_) (fun a => ih _ a)
    · refine appends_bind appends_theContract (fun c => ?_)
      refine appends_bind (appends_emit _ rfl) (fun _ => ?_)
      exact appends_bind (appends_await _) (fun _ => appends_pure _)
    · intro e
      exact returns_bind (returns_emit _ rfl) (fun _ => returns_pure _)

theorem returns_ordersLoop (w : World) (n : Nat) :
    ∀ i orders, Returns (fun e => e.isCommand = false) (ordersLoop w n i orders) := by
  induction n with
  | zero => intro i orders; exact returns_pure _
  | succ k ih =>
    intro i orders
    unfold SecretInventory.ordersLoop
    refine returns_bind (returns_tryCatch ?_ ?_) (fun a => ih _ a)
    · refine appends_bind appends_theContract (fun c => ?_)
      refine appends_bind (appends_emit _ rfl) (fun _ => ?_)
      exact appends_bind (appends_await _) (fun _ => appends_pure _)
    · intro e
      exact returns_bind (returns_emit _ rfl) (fun _ => returns_pure _)

theorem returns_loadInventoryData (w : World) :
    Returns (fun e => e.isCommand = false) (loadInventoryData w) := by
  simp only [SecretInventory.loadInventoryData, renderInventoryItems, updateInventoryStats,
    showStatus]
  refine returns_bind returns_getCtl (fun c => ?_)
  split
  · exact returns_pure _
  · refine returns_tryCatch ?_ (fun _ => ?_)
    · repeat (first
        | with_reducible exact appends_pure _
        | with_reducible exact appends_theContract
        | with_reducible exact appends_await _
        | with_reducible exact appends_emit _ (by simp [Effect.isCommand])
        | with_reducible exact appends_inventoryLoop _ _ _ _
        | with_reducible refine appends_bind ?_ (fun _ => ?_))
    · exact returns_bind (returns_emit _ rfl) (fun _ => returns_emit _ rfl)

theorem returns_loadOrdersData (w : World) :
    Returns (fun e => e.isCommand = false) (loadOrdersData w) := by
  simp only [SecretInventory.loadOrdersData, renderOrders, updateOrderStats]
  refine returns_bind returns_getCtl (fun c => ?_)
  split
  · exact returns_pure _
  · refine returns_tryCatch ?_ (fun _ => ?_)
    · repeat (first
        | with_reducible exact appends_pure _
        | with_reducible exact appends_theContract
        | with_reducible exact appends_await _
        | with_reducible exact appends_emit _ (by simp [Effect.isCommand])
        | with_reducible exact appends_ordersLoop _ _ _ _
        | with_reducible refine appends_bind ?_ (fun _ => ?_)
        | split)
    · exact returns_emit _ rfl

theorem returns_loadAnalyticsData (w : World) :
    Returns (fun e => e.isCommand = false) (loadAnalyticsData w) := by
  simp only [SecretInventory.loadAnalyticsData]
  refine returns_bind returns_getCtl (fun c => ?_)
  split
  · exact returns_emit _ rfl
  · refine returns_tryCatch ?_ (fun _ => returns_emit _ rfl)
    repeat (first
      | with_reducible exact appends_theContract
      | with_reducible exact appends_await _
      | with_reducible exact appends_emit _ (by simp [Effect.isCommand])
      | with_reducible refine appends_bind ?_ (fun _ => ?_))

theorem returns_loadAllData (w : World) :
    Returns (fun e => e.isCommand = false) (loadAllData w) := by
  unfold SecretInventory.loadAllData
  refine returns_bind (returns_loadInventoryData w) (fun _ => ?_)
  refine returns_bind (returns_loadOrdersData w) (fun _ => ?_)
  refine returns_bind (returns_emit _ rfl) (fun _ => ?_)
  exact returns_loadAnalyticsData w


theorem loadInventoryData_run (w : World) (s : St) :
    loadInventoryData w s =
      (Except.ok (), { ctl := s.ctl, log := s.log ++ addedLog (loadInventoryData w) s }) := by
  obtain ⟨⟨a, ha⟩, _⟩ := returns_run (returns_loadInventoryData w) s
  exact ha

theorem loadOrdersData_run (w : World) (s : St) :
    loadOrdersData w s =
      (Except.ok (), { ctl := s.ctl, log := s.log ++ addedLog (loadOrdersData w) s }) := by
  obtain ⟨⟨a, ha⟩, _⟩ := returns_run (returns_loadOrdersData w) s
  exact ha

theorem loadAllData_run (w : World) (s : St) :
    loadAllData w s =
      (Except.ok (), { ctl := s.ctl, log := s.log ++ addedLog (loadAllData w) s }) := by
  obtain ⟨⟨a, ha⟩, _⟩ := returns_run (returns_loadAllData w) s
  exact ha

theorem countP_isCommand_quiet (l : List Effect) (h : ∀ e ∈ l, e.isCommand = false) :
    l.countP Effect.isCommand = 0 := by
  rw [List.countP_eq_zero]
  intro e he
  simp [h e he]

theorem loadInventoryData_count (w : World) (s : St) :
    (addedLog (loadInventoryData w) s).countP Effect.isCommand = 0 :=
  countP_isCommand_quiet _ (returns_run (returns_loadInventoryData w) s).2

theorem loadOrdersData_count (w : World) (s : St) :
    (addedLog (loadOrdersData w) s).countP Effect.isCommand = 0 :=
  countP_isCommand_quiet _ (returns_run (returns_loadOrdersData w) s).2


theorem returns_run_unit {P : Effect → Prop} {m : M Unit} (h : Returns P m) (s : St) :
    m s = (Except.ok (), { ctl := s.ctl, log := s.log ++ addedLog m s }) := by
  obtain ⟨⟨a, ha⟩, _⟩ := returns_run h s
  exact ha

theorem isCommand_of_isReport (x : Effect) (h : x.isReport = true) : x.isCommand = false := by
  cases x <;> simp_all [Effect.isReport, Effect.isCommand]

theorem catch_blocks_report (e : Err) :
    Returns (fun x => x.isReport = true) (submitNewItemCatch e) ∧
    Returns (fun x => x.isReport = true) (submitNewOrderCatch e) ∧
    Returns (fun x => x.isReport = true) (processOrderCatch e) ∧
    Returns (fun x => x.isReport = true) (updateItemStockCatch e) ∧
    Returns (fun x => x.isReport = true) (authorizeManagerCatch e) ∧
    Returns (fun x => x.isReport = true) (grantAccessCatch e) ∧
    Returns (fun x => x.isReport = true) (emergencyPauseCatch e) := by
  refine ⟨?_, ?_, ?_, ?_, ?_, ?_, ?_⟩ <;>
  simp only [submitNewItemCatch, submitNewOrderCatch, processOrderCatch, updateItemStockCatch,
    authorizeManagerCatch, grantAccessCatch, emergencyPauseCatch, showStatus,
    showContractHelp] <;>
  repeat (first
    | with_reducible exact returns_emit _ (by simp [Effect.isReport])
    | with_reducible refine returns_bind ?_ (fun _ => ?_)
    | split)


theorem notMem_addedLog_loadInventoryData (w : World) (s : St) (via : Handle) (cmd : Command) :
    Effect.command via cmd ∉ addedLog (loadInventoryData w) s := by
  intro h
  have := (returns_run (returns_loadInventoryData w) s).2 _ h
  simp [Effect.isCommand] at this

theorem notMem_addedLog_loadOrdersData (w : World) (s : St) (via : Handle) (cmd : Command) :
    Effect.command via cmd ∉ addedLog (loadOrdersData w) s := by
  intro h
  have := (returns_run (returns_loadOrdersData w) s).2 _ h
  simp [Effect.isCommand] at this

theorem catch_report {m : M Unit} (h : Returns (fun x => x.isReport = true) m) (s : St) :
    ∀ x ∈ addedLog m s, x.isReport = true := (returns_run h s).2

theorem catch_count {m : M Unit} (h : Returns (fun x => x.isReport = true) m) (s : St) :
    (addedLog m s).countP Effect.isCommand = 0 :=
  countP_isCommand_quiet _ (fun x hx => isCommand_of_isReport x ((returns_run h s).2 x hx))

theorem catch_noCommand {m : M Unit} (h : Returns (fun x => x.isReport = true) m) (s : St)
    (via : Handle) (cmd : Command) : Effect.command via cmd ∉ addedLog m s := by
  intro hx
  simpa [Effect.isReport] using (returns_run h s).2 _ hx

theorem isReport_awaitConfirmation (cmd : Command) :
    (Effect.awaitConfirmation cmd).isReport = true := rfl

/-- For every intent the trace holds at most one command, and after a failing command only the
wait for confirmation, console lines, statuses and the contract help are logged. -/
theorem single_command_then_reports (c : Controller) (w : World) (intent : Intent) :
    (trace (perform w intent) c).countP Effect.isCommand ≤ 1 ∧
    ∀ via cmd e, Effect.command via cmd ∈ trace (perform w intent) c → commandFails w cmd e →
      ∀ x ∈ afterFirstCommand (trace (perform w intent) c), x.isReport = true := by
  obtain ⟨ct, pr, sg, gt⟩ := c
  have hA := fun e => (catch_blocks_report e).1
  have hB := fun e => (catch_blocks_report e).2.1
  have hC := fun e => (catch_blocks_report e).2.2.1
  have hD := fun e => (catch_blocks_report e).2.2.2.1
  have hE := fun e => (catch_blocks_report e).2.2.2.2.1
  have hF := fun e => (catch_blocks_report e).2.2.2.2.2.1
  have hG := fun e => (catch_blocks_report e).2.2.2.2.2.2
  cases intent with
  | addItem =>
    cases ct <;>
    cases hb : (isBlank w.form.itemName || isBlank w.form.itemQuantity ||
      isBlank w.form.itemPrice || isBlank w.form.minStockLevel ||
      isBlank w.form.supplierAddress) <;>
    cases ha : w.isAddress w.form.supplierAddress <;>
    cases hp : w.parseEther w.form.itemPrice <;>
    first
    | (simp [trace, perform, submitNewItem, validateOrderItem, sendAndConfirm, showStatus, closeModal,
        clearForm, tryCatch, bind, M.bind, pure, raise, theContract, getCtl, emit, await,
        returns_run_unit (hA _), catch_count (hA _), catch_noCommand (hA _),
        loadInventoryData_run, loadOrdersData_run, loadInventoryData_count,
        loadOrdersData_count, notMem_addedLog_loadInventoryData,
        notMem_addedLog_loadOrdersData, afterFirstCommand, Effect.isCommand,
        isReport_awaitConfirmation, List.forall_mem_cons, catch_report (hA _), hb, ha, hp]; done)
    | (rename_i via price
       cases hs : w.send (Command.addInventoryItem (parseInt w.form.itemQuantity) price
          (parseInt w.form.minStockLevel) w.form.itemName w.form.supplierAddress) <;>
       cases hc : w.confirmation (Command.addInventoryItem (parseInt w.form.itemQuantity) price
          (parseInt w.form.minStockLevel) w.form.itemName w.form.supplierAddress) <;>
       simp [trace, perform, submitNewItem, validateOrderItem, sendAndConfirm, showStatus, closeModal,
        clearForm, tryCatch, bind, M.bind, pure, raise, theContract, getCtl, emit, await,
        returns_run_unit (hA _), catch_count (hA _), catch_noCommand (hA _),
        loadInventoryData_run, loadOrdersData_run, loadInventoryData_count,
        loadOrdersData_count, notMem_addedLog_loadInventoryData,
        notMem_addedLog_loadOrdersData, afterFirstCommand, Effect.isCommand,
        isReport_awaitConfirmation, List.forall_mem_cons, catch_report (hA _), hb, ha, hp, hs, hc])
    all_goals (try intros)
    all_goals first
      | exact catch_report (hA _) _ _ (by assumption)
      | (rcases ‹commandFails _ _ _› with h | ⟨h1, h2⟩ <;> simp_all [catch_report (hA _)])
  | placeOrder =>
    cases ct <;>
    cases hb : (isBlank w.form.orderItemId || isBlank w.form.orderQuantity) <;>
    cases hi : w.getItemInfo (parseInt w.form.orderItemId) <;>
    first
    | (simp [trace, perform, submitNewOrder, validateOrderItem, sendAndConfirm, showStatus, closeModal,
        clearForm, tryCatch, bind, M.bind, pure, raise, theContract, getCtl, emit, await,
        returns_run_unit (hB _), catch_count (hB _), catch_noCommand (hB _),
        loadInventoryData_run, loadOrdersData_run, loadInventoryData_count,
        loadOrdersData_count, notMem_addedLog_loadInventoryData,
        notMem_addedLog_loadOrdersData, afterFirstCommand, Effect.isCommand,
        isReport_awaitConfirmation, List.forall_mem_cons, catch_report (hB _), hb, hi]; done)
    | (rename_i via item
       cases hact : item.isActive <;>
       cases hs : w.send (Command.placeOrder (parseInt w.form.orderItemId)
          (parseInt w.form.orderQuantity)) <;>
       cases hc : w.confirmation (Command.placeOrder (parseInt w.form.orderItemId)
          (parseInt w.form.orderQuantity)) <;>
       simp [trace, perform, submitNewOrder, validateOrderItem, sendAndConfirm, showStatus, closeModal,
        clearForm, tryCatch, bind, M.bind, pure, raise, theContract, getCtl, emit, await,
        returns_run_unit (hB _), catch_count (hB _), catch_noCommand (hB _),
        loadInventoryData_run, loadOrdersData_run, loadInventoryData_count,
        loadOrdersData_count, notMem_addedLog_loadInventoryData,
        notMem_addedLog_loadOrdersData, afterFirstCommand, Effect.isCommand,
        isReport_awaitConfirmation, List.forall_mem_cons, catch_report (hB _), hb, hi, hact, hs, hc])
    all_goals (try intros)
    all_goals first
      | exact catch_report (hB _) _ _ (by assumption)
      | (rcases ‹commandFails _ _ _› with h | ⟨h1, h2⟩ <;> simp_all [catch_report (hB _)])
  | processOrder orderId status =>
    cases ct <;>
    cases hst : statusNames[status]? <;>
    first
    | (simp [trace, perform, processOrder, validateOrderItem, sendAndConfirm, showStatus, closeModal,
        clearForm, tryCatch, bind, M.bind, pure, raise, theContract, getCtl, emit, await,
        returns_run_unit (hC _), catch_count (hC _), catch_noCommand (hC _),
        loadInventoryData_run, loadOrdersData_run, loadInventoryData_count,
        loadOrdersData_count, notMem_addedLog_loadInventoryData,
        notMem_addedLog_loadOrdersData, afterFirstCommand, Effect.isCommand,
        isReport_awaitConfirmation, List.forall_mem_cons, catch_report (hC _), hst]; done)
    | (
       cases hs : w.send (Command.processOrder orderId status) <;>
       cases hc : w.confirmation (Command.processOrder orderId status) <;>
       simp [trace, perform, processOrder, validateOrderItem, sendAndConfirm, showStatus, closeModal,
        clearForm, tryCatch, bind, M.bind, pure, raise, theContract, getCtl, emit, await,
        returns_run_unit (hC _), catch_count (hC _), catch_noCommand (hC _),
        loadInventoryData_run, loadOrdersData_run, loadInventoryData_count,
        loadOrdersData_count, notMem_addedLog_loadInventoryData,
        notMem_addedLog_loadOrdersData, afterFirstCommand, Effect.isCommand,
        isReport_awaitConfirmation, List.forall_mem_cons, catch_report (hC _), hst, hs, hc])
    all_goals (try intros)
    all_goals first
      | exact catch_report (hC _) _ _ (by assumption)
      | (rcases ‹commandFails _ _ _› with h | ⟨h1, h2⟩ <;> simp_all [catch_report (hC _)])
  | updateStock itemId =>
    cases ct <;>
    cases hpr : w.promptDialog <;>
    first
    | (simp [trace, perform, updateItemStock, validateOrderItem, sendAndConfirm, showStatus, closeModal,
        clearForm, tryCatch, bind, M.bind, pure, raise, theContract, getCtl, emit, await,
        returns_run_unit (hD _), catch_count (hD _), catch_noCommand (hD _),
        loadInventoryData_run, loadOrdersData_run, loadInventoryData_count,
        loadOrdersData_count, notMem_addedLog_loadInventoryData,
        notMem_addedLog_loadOrdersData, afterFirstCommand, Effect.isCommand,
        isReport_awaitConfirmation, List.forall_mem_cons, catch_report (hD _), hpr]; done)
    | (rename_i via quantityChange
       cases hb : isBlank quantityChange <;>
       cases hs : w.send (Command.updateStock itemId (mathAbs (parseInt quantityChange))
          (jsGreater (parseInt quantityChange) (JSNum.num 0))) <;>
       cases hc : w.confirmation (Command.updateStock itemId (mathAbs (parseInt quantityChange))
          (jsGreater (parseInt quantityChange) (JSNum.num 0))) <;>
       simp [trace, perform, updateItemStock, validateOrderItem, sendAndConfirm, showStatus, closeModal,
        clearForm, tryCatch, bind, M.bind, pure, raise, theContract, getCtl, emit, await,
        returns_run_unit (hD _), catch_count (hD _), catch_noCommand (hD _),
        loadInventoryData_run, loadOrdersData_run, loadInventoryData_count,
        loadOrdersData_count, notMem_addedLog_loadInventoryData,
        notMem_addedLog_loadOrdersData, afterFirstCommand, Effect.isCommand,
        isReport_awaitConfirmation, List.forall_mem_cons, catch_report (hD _), hpr, hb, hs, hc])
    all_goals (try intros)
    all_goals first
      | exact catch_report (hD _) _ _ (by assumption)
      | (rcases ‹commandFails _ _ _› with h | ⟨h1, h2⟩ <;> simp_all [catch_report (hD _)])
  | authorizeManager =>
    cases ct <;>
    cases hb : isBlank w.form.newManagerAddress <;>
    cases ha : w.isAddress w.form.newManagerAddress <;>
    first
    | (simp [trace, perform, authorizeManager, validateOrderItem, sendAndConfirm, showStatus, closeModal,
        clearForm, tryCatch, bind, M.bind, pure, raise, theContract, getCtl, emit, await,
        returns_run_unit (hE _), catch_count (hE _), catch_noCommand (hE _),
        loadInventoryData_run, loadOrdersData_run, loadInventoryData_count,
        loadOrdersData_count, notMem_addedLog_loadInventoryData,
        notMem_addedLog_loadOrdersData, afterFirstCommand, Effect.isCommand,
        isReport_awaitConfirmation, List.forall_mem_cons, catch_report (hE _), hb, ha]; done)
    | (
       cases hs : w.send (Command.authorizeManager w.form.newManagerAddress) <;>
       cases hc : w.confirmation (Command.authorizeManager w.form.newManagerAddress) <;>
       simp [trace, perform, authorizeManager, validateOrderItem, sendAndConfirm, showStatus, closeModal,
        clearForm, tryCatch, bind, M.bind, pure, raise, theContract, getCtl, emit, await,
        returns_run_unit (hE _), catch_count (hE _), catch_noCommand (hE _),
        loadInventoryData_run, loadOrdersData_run, loadInventoryData_count,
        loadOrdersData_count, notMem_addedLog_loadInventoryData,
        notMem_addedLog_loadOrdersData, afterFirstCommand, Effect.isCommand,
        isReport_awaitConfirmation, List.forall_mem_cons, catch_report (hE _), hb, ha, hs, hc])
    all_goals (try intros)
    all_goals first
      | exact catch_report (hE _) _ _ (by assumption)
      | (rcases ‹commandFails _ _ _› with h | ⟨h1, h2⟩ <;> simp_all [catch_report (hE _)])
  | grantAccess =>
    cases ct <;>
    cases hb : (isBlank w.form.accessItemId || isBlank w.form.accessUserAddress) <;>
    first
    | (simp [trace, perform, grantAccess, validateOrderItem, sendAndConfirm, showStatus, closeModal,
        clearForm, tryCatch, bind, M.bind, pure, raise, theContract, getCtl, emit, await,
        returns_run_unit (hF _), catch_count (hF _), catch_noCommand (hF _),
        loadInventoryData_run, loadOrdersData_run, loadInventoryData_count,
        loadOrdersData_count, notMem_addedLog_loadInventoryData,
        notMem_addedLog_loadOrdersData, afterFirstCommand, Effect.isCommand,
        isReport_awaitConfirmation, List.forall_mem_cons, catch_report (hF _), hb]; done)
    | (
       cases hs : w.send (Command.grantInventoryAccess (parseInt w.form.accessItemId)
          w.form.accessUserAddress) <;>
       cases hc : w.confirmation (Command.grantInventoryAccess (parseInt w.form.accessItemId)
          w.form.accessUserAddress) <;>
       simp [trace, perform, grantAccess, validateOrderItem, sendAndConfirm, showStatus, closeModal,
        clearForm, tryCatch, bind, M.bind, pure, raise, theContract, getCtl, emit, await,
        returns_run_unit (hF _), catch_count (hF _), catch_noCommand (hF _),
        loadInventoryData_run, loadOrdersData_run, loadInventoryData_count,
        loadOrdersData_count, notMem_addedLog_loadInventoryData,
        notMem_addedLog_loadOrdersData, afterFirstCommand, Effect.isCommand,
        isReport_awaitConfirmation, List.forall_mem_cons, catch_report (hF _), hb, hs, hc])
    all_goals (try intros)
    all_goals first
      | exact catch_report (hF _) _ _ (by assumption)
      | (rcases ‹commandFails _ _ _› with h | ⟨h1, h2⟩ <;> simp_all [catch_report (hF _)])
  | emergencyPause =>
    cases ct <;>
    cases hcd : w.confirmDialog <;>
    first
    | (simp [trace, perform, emergencyPause, validateOrderItem, sendAndConfirm, showStatus, closeModal,
        clearForm, tryCatch, bind, M.bind, pure, raise, theContract, getCtl, emit, await,
        returns_run_unit (hG _), catch_count (hG _), catch_noCommand (hG _),
        loadInventoryData_run, loadOrdersData_run, loadInventoryData_count,
        loadOrdersData_count, notMem_addedLog_loadInventoryData,
        notMem_addedLog_loadOrdersData, afterFirstCommand, Effect.isCommand,
        isReport_awaitConfirmation, List.forall_mem_cons, catch_report (hG _), hcd]; done)
    | (
       cases hs : w.send (Command.emergencyPause) <;>
       cases hc : w.confirmation (Command.emergencyPause) <;>
       simp [trace, perform, emergencyPause, validateOrderItem, sendAndConfirm, showStatus, closeModal,
        clearForm, tryCatch, bind, M.bind, pure, raise, theContract, getCtl, emit, await,
        returns_run_unit (hG _), catch_count (hG _), catch_noCommand (hG _),
        loadInventoryData_run, loadOrdersData_run, loadInventoryData_count,
        loadOrdersData_count, notMem_addedLog_loadInventoryData,
        notMem_addedLog_loadOrdersData, afterFirstCommand, Effect.isCommand,
        isReport_awaitConfirmation, List.forall_mem_cons, catch_report (hG _), hcd, hs, hc])
    all_goals (try intros)
    all_goals first
      | exact catch_report (hG _) _ _ (by assumption)
      | (rcases ‹commandFails _ _ _› with h | ⟨h1, h2⟩ <;> simp_all [catch_report (hG _)])

set_option maxHeartbeats 4000000 in
/-- C16: no automatic retry. For every intent, every controller and every outcome of the calls,
the trace of the method holds at most one command; and when that command fails (at the call or at
the confirmation) the handler reports the failure and does nothing else: what is logged after the
command is the wait for confirmation (when the call itself succeeded), then one console line and
one status of kind `error`, then at most the contract help, with no further query, command,
refresh or success status. -/
theorem no_automatic_retry (c : Controller) (w : World) (intent : Intent) :
    (trace (perform w intent) c).countP Effect.isCommand ≤ 1 ∧
    ∀ via cmd e, Effect.command via cmd ∈ trace (perform w intent) c → commandFails w cmd e →
      (∀ x ∈ afterFirstCommand (trace (perform w intent) c), x.isReport = true) ∧
      ∃ wait label msg help,
        afterFirstCommand (trace (perform w intent) c) =
          wait ++ [Effect.consoleError label, Effect.status msg "error"] ++ help ∧
        wait.Sublist [Effect.awaitConfirmation cmd] ∧ help.Sublist [Effect.contractHelp] := by
  refine ⟨(single_command_then_reports c w intent).1, fun via cmd e hmem hf =>
    ⟨(single_command_then_reports c w intent).2 via cmd e hmem hf, ?_⟩⟩
  revert via cmd e
  obtain ⟨ct, pr, sg, gt⟩ := c
  cases intent with
  | addItem =>
    cases ct <;>
    cases hb : (isBlank w.form.itemName || isBlank w.form.itemQuantity ||
      isBlank w.form.itemPrice || isBlank w.form.minStockLevel ||
      isBlank w.form.supplierAddress) <;>
    cases ha : w.isAddress w.form.supplierAddress <;>
    cases hp : w.parseEther w.form.itemPrice <;>
    first
    | (simp [trace, perform, submitNewItem, validateOrderItem, sendAndConfirm, showStatus, closeModal,
        clearForm, tryCatch, bind, M.bind, pure, raise, theContract, getCtl, emit, await,
        submitNewItemCatch, submitNewOrderCatch, processOrderCatch, updateItemStockCatch,
        authorizeManagerCatch, grantAccessCatch, emergencyPauseCatch, showContractHelp,
        loadInventoryData_run, loadOrdersData_run, notMem_addedLog_loadInventoryData,
        notMem_addedLog_loadOrdersData, afterFirstCommand, Effect.isCommand,
         hb, ha, hp]; done)
    | (simp [trace, perform, submitNewItem, validateOrderItem, sendAndConfirm, showStatus, closeModal,
        clearForm, tryCatch, bind, M.bind, pure, raise, theContract, getCtl, emit, await,
        submitNewItemCatch, submitNewOrderCatch, processOrderCatch, updateItemStockCatch,
        authorizeManagerCatch, grantAccessCatch, emergencyPauseCatch, showContractHelp,
        loadInventoryData_run, loadOrdersData_run, notMem_addedLog_loadInventoryData,
        notMem_addedLog_loadOrdersData, afterFirstCommand, Effect.isCommand,
         hb, ha, hp];
       split_ifs <;>
       simp [emit, bind, M.bind, afterFirstCommand, Effect.isCommand])
    | (rename_i via price
       cases hs : w.send (Command.addInventoryItem (parseInt w.form.itemQuantity) price
          (parseInt w.form.minStockLevel) w.form.itemName w.form.supplierAddress) <;>
       cases hc : w.confirmation (Command.addInventoryItem (parseInt w.form.itemQuantity) price
          (parseInt w.form.minStockLevel) w.form.itemName w.form.supplierAddress) <;>
       simp [trace, perform, submitNewItem, validateOrderItem, sendAndConfirm, showStatus, closeModal,
        clearForm, tryCatch, bind, M.bind, pure, raise, theContract, getCtl, emit, await,
        submitNewItemCatch, submitNewOrderCatch, processOrderCatch, updateItemStockCatch,
        authorizeManagerCatch, grantAccessCatch, emergencyPauseCatch, showContractHelp,
        loadInventoryData_run, loadOrdersData_run, notMem_addedLog_loadInventoryData,
        notMem_addedLog_loadOrdersData, afterFirstCommand, Effect.isCommand,
         hb, ha, hp, hs, hc])
    all_goals (
      try split_ifs
      all_goals (try simp only [emit, bind, M.bind, afterFirstCommand, Effect.isCommand])
      all_goals intros
      all_goals first
        | exact ⟨[], _, _, [], rfl, by simp_all, by simp_all⟩
        | exact ⟨[_], _, _, [], rfl, by simp_all, by simp_all⟩
        | exact ⟨[], _, _, [_], rfl, by simp_all, by simp_all⟩
        | exact ⟨[_], _, _, [_], rfl, by simp_all, by simp_all⟩
        | (rcases ‹commandFails _ _ _› with h | ⟨h1, h2⟩ <;> simp_all))
  | placeOrder =>
    cases ct <;>
    cases hb : (isBlank w.form.orderItemId || isBlank w.form.orderQuantity) <;>
    cases hi : w.getItemInfo (parseInt w.form.orderItemId) <;>
    first
    | (simp [trace, perform, submitNewOrder, validateOrderItem, sendAndConfirm, showStatus, closeModal,
        clearForm, tryCatch, bind, M.bind, pure, raise, theContract, getCtl, emit, await,
        submitNewItemCatch, submitNewOrderCatch, processOrderCatch, updateItemStockCatch,
        authorizeManagerCatch, grantAccessCatch, emergencyPauseCatch, showContractHelp,
        loadInventoryData_run, loadOrdersData_run, notMem_addedLog_loadInventoryData,
        notMem_addedLog_loadOrdersData, afterFirstCommand, Effect.isCommand,
         hb, hi] <;>
       (try split_ifs) <;>
       simp [emit, bind, M.bind, afterFirstCommand, Effect.isCommand]; done)
    | (rename_i via item
       cases hact : item.isActive <;>
       cases hs : w.send (Command.placeOrder (parseInt w.form.orderItemId)
          (parseInt w.form.orderQuantity)) <;>
       cases hc : w.confirmation (Command.placeOrder (parseInt w.form.orderItemId)
          (parseInt w.form.orderQuantity)) <;>
       simp [trace, perform, submitNewOrder, validateOrderItem, sendAndConfirm, showStatus, closeModal,
        clearForm, tryCatch, bind, M.bind, pure, raise, theContract, getCtl, emit, await,
        submitNewItemCatch, submitNewOrderCatch, processOrderCatch, updateItemStockCatch,
        authorizeManagerCatch, grantAccessCatch, emergencyPauseCatch, showContractHelp,
        loadInventoryData_run, loadOrdersData_run, notMem_addedLog_loadInventoryData,
        notMem_addedLog_loadOrdersData, afterFirstCommand, Effect.isCommand,
         hb, hi, hact, hs, hc])
    all_goals (
      try split_ifs
      all_goals (try simp only [emit, bind, M.bind, afterFirstCommand, Effect.isCommand])
      all_goals intros
      all_goals first
        | exact ⟨[], _, _, [], rfl, by simp_all, by simp_all⟩
        | exact ⟨[_], _, _, [], rfl, by simp_all, by simp_all⟩
        | (rcases ‹commandFails _ _ _› with h | ⟨h1, h2⟩ <;> simp_all))
  | processOrder orderId status =>
    cases ct <;>
    cases hst : statusNames[status]? <;>
    first
    | (simp [trace, perform, processOrder, validateOrderItem, sendAndConfirm, showStatus, closeModal,
        clearForm, tryCatch, bind, M.bind, pure, raise, theContract, getCtl, emit, await,
        submitNewItemCatch, submitNewOrderCatch, processOrderCatch, updateItemStockCatch,
        authorizeManagerCatch, grantAccessCatch, emergencyPauseCatch, showContractHelp,
        loadInventoryData_run, loadOrdersData_run, notMem_addedLog_loadInventoryData,
        notMem_addedLog_loadOrdersData, afterFirstCommand, Effect.isCommand,
         hst]; done)
    | (
       cases hs : w.send (Command.processOrder orderId status) <;>
       cases hc : w.confirmation (Command.processOrder orderId status) <;>
       simp [trace, perform, processOrder, validateOrderItem, sendAndConfirm, showStatus, closeModal,
        clearForm, tryCatch, bind, M.bind, pure, raise, theContract, getCtl, emit, await,
        submitNewItemCatch, submitNewOrderCatch, processOrderCatch, updateItemStockCatch,
        authorizeManagerCatch, grantAccessCatch, emergencyPauseCatch, showContractHelp,
        loadInventoryData_run, loadOrdersData_run, notMem_addedLog_loadInventoryData,
        notMem_addedLog_loadOrdersData, afterFirstCommand, Effect.isCommand,
         hst, hs, hc])
    all_goals (
      try split_ifs
      all_goals intros
      all_goals first
        | exact ⟨[], _, _, [], rfl, by simp_all, by simp_all⟩
        | exact ⟨[_], _, _, [], rfl, by simp_all, by simp_all⟩
        | (rcases ‹commandFails _ _ _› with h | ⟨h1, h2⟩ <;> simp_all))
  | updateStock itemId =>
    cases ct <;>
    cases hpr : w.promptDialog <;>
    first
    | (simp [trace, perform, updateItemStock, validateOrderItem, sendAndConfirm, showStatus, closeModal,
        clearForm, tryCatch, bind, M.bind, pure, raise, theContract, getCtl, emit, await,
        submitNewItemCatch, submitNewOrderCatch, processOrderCatch, updateItemStockCatch,
        authorizeManagerCatch, grantAccessCatch, emergencyPauseCatch, showContractHelp,
        loadInventoryData_run, loadOrdersData_run, notMem_addedLog_loadInventoryData,
        notMem_addedLog_loadOrdersData, afterFirstCommand, Effect.isCommand,
         hpr]; done)
    | (simp [trace, perform, updateItemStock, validateOrderItem, sendAndConfirm, showStatus, closeModal,
        clearForm, tryCatch, bind, M.bind, pure, raise, theContract, getCtl, emit, await,
        submitNewItemCatch, submitNewOrderCatch, processOrderCatch, updateItemStockCatch,
        authorizeManagerCatch, grantAccessCatch, emergencyPauseCatch, showContractHelp,
        loadInventoryData_run, loadOrdersData_run, notMem_addedLog_loadInventoryData,
        notMem_addedLog_loadOrdersData, afterFirstCommand, Effect.isCommand,
         hpr];
       split_ifs <;>
       simp [emit, bind, M.bind, afterFirstCommand, Effect.isCommand])
    | (rename_i via quantityChange
       cases hb : isBlank quantityChange <;>
       cases hs : w.send (Command.updateStock itemId (mathAbs (parseInt quantityChange))
          (jsGreater (parseInt quantityChange) (JSNum.num 0))) <;>
       cases hc : w.confirmation (Command.updateStock itemId (mathAbs (parseInt quantityChange))
          (jsGreater (parseInt quantityChange) (JSNum.num 0))) <;>
       simp [trace, perform, updateItemStock, validateOrderItem, sendAndConfirm, showStatus, closeModal,
        clearForm, tryCatch, bind, M.bind, pure, raise, theContract, getCtl, emit, await,
        submitNewItemCatch, submitNewOrderCatch, processOrderCatch, updateItemStockCatch,
        authorizeManagerCatch, grantAccessCatch, emergencyPauseCatch, showContractHelp,
        loadInventoryData_run, loadOrdersData_run, notMem_addedLog_loadInventoryData,
        notMem_addedLog_loadOrdersData, afterFirstCommand, Effect.isCommand,
         hpr, hb, hs, hc])
    all_goals (
      try split_ifs
      all_goals intros
      all_goals first
        | exact ⟨[], _, _, [], rfl, by simp_all, by simp_all⟩
        | exact ⟨[_], _, _, [], rfl, by simp_all, by simp_all⟩
        | (rcases ‹commandFails _ _ _› with h | ⟨h1, h2⟩ <;> simp_all))
  | authorizeManager =>
    cases ct <;>
    cases hb : isBlank w.form.newManagerAddress <;>
    cases ha : w.isAddress w.form.newManagerAddress <;>
    first
    | (simp [trace, perform, authorizeManager, validateOrderItem, sendAndConfirm, showStatus, closeModal,
        clearForm, tryCatch, bind, M.bind, pure, raise, theContract, getCtl, emit, await,
        submitNewItemCatch, submitNewOrderCatch, processOrderCatch, updateItemStockCatch,
        authorizeManagerCatch, grantAccessCatch, emergencyPauseCatch, showContractHelp,
        loadInventoryData_run, loadOrdersData_run, notMem_addedLog_loadInventoryData,
        notMem_addedLog_loadOrdersData, afterFirstCommand, Effect.isCommand,
         hb, ha]; done)
    | (
       cases hs : w.send (Command.authorizeManager w.form.newManagerAddress) <;>
       cases hc : w.confirmation (Command.authorizeManager w.form.newManagerAddress) <;>
       simp [trace, perform, authorizeManager, validateOrderItem, sendAndConfirm, showStatus, closeModal,
        clearForm, tryCatch, bind, M.bind, pure, raise, theContract, getCtl, emit, await,
        submitNewItemCatch, submitNewOrderCatch, processOrderCatch, updateItemStockCatch,
        authorizeManagerCatch, grantAccessCatch, emergencyPauseCatch, showContractHelp,
        loadInventoryData_run, loadOrdersData_run, notMem_addedLog_loadInventoryData,
        notMem_addedLog_loadOrdersData, afterFirstCommand, Effect.isCommand,
         hb, ha, hs, hc])
    all_goals (
      try split_ifs
      all_goals intros
      all_goals first
        | exact ⟨[], _, _, [], rfl, by simp_all, by simp_all⟩
        | exact ⟨[_], _, _, [], rfl, by simp_all, by simp_all⟩
        | (rcases ‹commandFails _ _ _› with h | ⟨h1, h2⟩ <;> simp_all))
  | grantAccess =>
    cases ct <;>
    cases hb : (isBlank w.form.accessItemId || isBlank w.form.accessUserAddress) <;>
    first
    | (simp [trace, perform, grantAccess, validateOrderItem, sendAndConfirm, showStatus, closeModal,
        clearForm, tryCatch, bind, M.bind, pure, raise, theContract, getCtl, emit, await,
        submitNewItemCatch, submitNewOrderCatch, processOrderCatch, updateItemStockCatch,
        authorizeManagerCatch, grantAccessCatch, emergencyPauseCatch, showContractHelp,
        loadInventoryData_run, loadOrdersData_run, notMem_addedLog_loadInventoryData,
        notMem_addedLog_loadOrdersData, afterFirstCommand, Effect.isCommand,
         hb]; done)
    | (
       cases hs : w.send (Command.grantInventoryAccess (parseInt w.form.accessItemId)
          w.form.accessUserAddress) <;>
       cases hc : w.confirmation (Command.grantInventoryAccess (parseInt w.form.accessItemId)
          w.form.accessUserAddress) <;>
       simp [trace, perform, grantAccess, validateOrderItem, sendAndConfirm, showStatus, closeModal,
        clearForm, tryCatch, bind, M.bind, pure, raise, theContract, getCtl, emit, await,
        submitNewItemCatch, submitNewOrderCatch, processOrderCatch, updateItemStockCatch,
        authorizeManagerCatch, grantAccessCatch, emergencyPauseCatch, showContractHelp,
        loadInventoryData_run, loadOrdersData_run, notMem_addedLog_loadInventoryData,
        notMem_addedLog_loadOrdersData, afterFirstCommand, Effect.isCommand,
         hb, hs, hc])
    all_goals (
      try split_ifs
      all_goals intros
      all_goals first
        | exact ⟨[], _, _, [], rfl, by simp_all, by simp_all⟩
        | exact ⟨[_], _, _, [], rfl, by simp_all, by simp_all⟩
        | (rcases ‹commandFails _ _ _› with h | ⟨h1, h2⟩ <;> simp_all))
  | emergencyPause =>
    cases ct <;>
    cases hcd : w.confirmDialog <;>
    first
    | (simp [trace, perform, emergencyPause, validateOrderItem, sendAndConfirm, showStatus, closeModal,
        clearForm, tryCatch, bind, M.bind, pure, raise, theContract, getCtl, emit, await,
        submitNewItemCatch, submitNewOrderCatch, processOrderCatch, updateItemStockCatch,
        authorizeManagerCatch, grantAccessCatch, emergencyPauseCatch, showContractHelp,
        loadInventoryData_run, loadOrdersData_run, notMem_addedLog_loadInventoryData,
        notMem_addedLog_loadOrdersData, afterFirstCommand, Effect.isCommand,
         hcd]; done)
    | (
       cases hs : w.send (Command.emergencyPause) <;>
       cases hc : w.confirmation (Command.emergencyPause) <;>
       simp [trace, perform, emergencyPause, validateOrderItem, sendAndConfirm, showStatus, closeModal,
        clearForm, tryCatch, bind, M.bind, pure, raise, theContract, getCtl, emit, await,
        submitNewItemCatch, submitNewOrderCatch, processOrderCatch, updateItemStockCatch,
        authorizeManagerCatch, grantAccessCatch, emergencyPauseCatch, showContractHelp,
        loadInventoryData_run, loadOrdersData_run, notMem_addedLog_loadInventoryData,
        notMem_addedLog_loadOrdersData, afterFirstCommand, Effect.isCommand,
         hcd, hs, hc])
    all_goals (
      try split_ifs
      all_goals intros
      all_goals first
        | exact ⟨[], _, _, [], rfl, by simp_all, by simp_all⟩
        | exact ⟨[_], _, _, [], rfl, by simp_all, by simp_all⟩
        | (rcases ‹commandFails _ _ _› with h | ⟨h1, h2⟩ <;> simp_all))



/-- Witness for C16: a reverting `placeOrder` is dispatched once; after it come the console line
and the error status, nothing else. -/
theorem no_automatic_retry_witness :
    commandFails revertingWorld (Command.placeOrder (JSNum.num 1) (JSNum.num 3))
      { message := "execution reverted", code := "CALL_EXCEPTION" } ∧
    ((∀ x ∈ afterFirstCommand (trace (perform revertingWorld Intent.placeOrder)
        connectedController), x.isReport = true) ∧
      ∃ wait label msg help,
        afterFirstCommand (trace (perform revertingWorld Intent.placeOrder) connectedController) =
          wait ++ [Effect.consoleError label, Effect.status msg "error"] ++ help ∧
        wait.Sublist
          [Effect.awaitConfirmation (Command.placeOrder (JSNum.num 1) (JSNum.num 3))] ∧
        help.Sublist [Effect.contractHelp]) ∧
    afterFirstCommand (trace (perform revertingWorld Intent.placeOrder) connectedController) =
      [Effect.consoleError "Error placing order:",
       Effect.status "Failed to place order: execution reverted" "error"] :=
  ⟨Or.inl rfl,
   (no_automatic_retry connectedController revertingWorld Intent.placeOrder).2
     { boundSigner := some { address := "0xA11CE" } }
     (Command.placeOrder (JSNum.num 1) (JSNum.num 3))
     { message := "execution reverted", code := "CALL_EXCEPTION" } (by decide!) (Or.inl rfl),
   by decide!⟩

/-! ### Input validation -/

/-- C11 (evaluation at the failing input): `grantAccess` never consults `isAddress`. With an
item id and the user address `not-an-address`, which `isAddress` rejects, it shows no validation
error and dispatches `grantInventoryAccess(1, "not-an-address")`; `authorizeManager`, given the
same string, stops with the invalid-address status and dispatches nothing. -/
theorem grantAccess_skips_address_validation :
    invalidAddressWorld.isAddress invalidAddressWorld.form.accessUserAddress = false ∧
    trace (grantAccess invalidAddressWorld) connectedController =
      [Effect.status "Granting access..." "loading",
       Effect.command { boundSigner := some { address := "0xA11CE" } }
         (Command.grantInventoryAccess (JSNum.num 1) "not-an-address"),
       Effect.awaitConfirmation (Command.grantInventoryAccess (JSNum.num 1) "not-an-address"),
       Effect.status "Access granted successfully!" "success",
       Effect.clearForm ["accessItemId", "accessUserAddress"]] ∧
    trace (authorizeManager invalidAddressWorld) connectedController =
      [Effect.status
        "❌ Invalid manager address format. Please enter a valid Ethereum address (0x...)"
        "error"] ∧
    (∀ (w : World) (c : Controller) (f : String → Bool),
      trace (grantAccess { w with isAddress := f }) c = trace (grantAccess w) c) :=
  ⟨by decide!, by decide!, by decide!, fun _ _ _ => rfl⟩

/-! ### Connecting -/

set_option maxHeartbeats 2000000 in
/-- C12: the method `checkAndSwitchNetwork` never raises and changes nothing; for the chain ids
11155111, 1 and 1337 it logs nothing, for every other id exactly one status of kind `warning`.
It never blocks the connection: `connectWallet` reaches the bytecode query of the contract
verification exactly when the wallet, accounts, signer, network and address steps succeed,
whatever the chain id. -/
theorem checkAndSwitchNetwork_never_blocks (c : Controller) (w : World) (network : Network) :
    result (checkAndSwitchNetwork network) c = Except.ok () ∧
    after (checkAndSwitchNetwork network) c = c ∧
    trace (checkAndSwitchNetwork network) c =
      (if network.chainId = 11155111 ∨ network.chainId = 1 ∨ network.chainId = 1337 then []
       else [Effect.status
          "⚠️ Custom network detected. Make sure contract is deployed on this network."
          "warning"]) ∧
    (Effect.providerCall "getCode" ∈ trace (connectWallet w) c ↔
      w.hasEthereum = true ∧ (∃ u, w.requestAccounts = Except.ok u) ∧
      (∃ signer, w.getSigner = Except.ok signer) ∧ (∃ net, w.getNetwork = Except.ok net) ∧
      (∃ address, w.getAddress = Except.ok address)) := by
  refine ⟨?_, ?_, ?_, ?_⟩
  · by_cases h : network.chainId = 11155111 ∨ network.chainId = 1 ∨ network.chainId = 1337 <;>
      simp [result, checkAndSwitchNetwork, networkConfigs, showStatus, emit, pure, h]
  · by_cases h : network.chainId = 11155111 ∨ network.chainId = 1 ∨ network.chainId = 1337 <;>
      simp [after, checkAndSwitchNetwork, networkConfigs, showStatus, emit, pure, h]
  · by_cases h : network.chainId = 11155111 ∨ network.chainId = 1 ∨ network.chainId = 1337 <;>
      simp [trace, checkAndSwitchNetwork, networkConfigs, showStatus, emit, pure, h]
  · obtain ⟨ct, pr, sg, gt⟩ := c
    rcases hperm : w.authorizedManagers
        (match w.getAddress with
          | Except.ok address => address
          | Except.error _ => "") with em | (_ | _) <;>
    · cases he : w.hasEthereum
      · simp [trace, connectWallet, verifyContract, checkUserPermissions,
        checkAndSwitchNetwork, showStatus, showContractHelp, showNetworkHelp,
        showPermissionBanner, enableManagerFunctions, disableManagerFunctions, tryCatch, bind,
        M.bind, pure, theProvider, theContract, emit, await, modifyCtl, loadAllData_run, *]
      cases hr : w.requestAccounts
      · simp [trace, connectWallet, verifyContract, checkUserPermissions,
        checkAndSwitchNetwork, showStatus, showContractHelp, showNetworkHelp,
        showPermissionBanner, enableManagerFunctions, disableManagerFunctions, tryCatch, bind,
        M.bind, pure, theProvider, theContract, emit, await, modifyCtl, loadAllData_run, *]
        all_goals (try split_ifs)
        all_goals (try simp [emit, M.bind])
      cases hs : w.getSigner
      · simp [trace, connectWallet, verifyContract, checkUserPermissions,
        checkAndSwitchNetwork, showStatus, showContractHelp, showNetworkHelp,
        showPermissionBanner, enableManagerFunctions, disableManagerFunctions, tryCatch, bind,
        M.bind, pure, theProvider, theContract, emit, await, modifyCtl, loadAllData_run, *]
        all_goals (try split_ifs)
        all_goals (try simp [emit, M.bind])
      cases hn : w.getNetwork
      · simp [trace, connectWallet, verifyContract, checkUserPermissions,
        checkAndSwitchNetwork, showStatus, showContractHelp, showNetworkHelp,
        showPermissionBanner, enableManagerFunctions, disableManagerFunctions, tryCatch, bind,
        M.bind, pure, theProvider, theContract, emit, await, modifyCtl, loadAllData_run, *]
        all_goals (try split_ifs)
        all_goals (try simp [emit, M.bind])
      cases ha : w.getAddress
      · simp [trace, connectWallet, verifyContract, checkUserPermissions,
        checkAndSwitchNetwork, showStatus, showContractHelp, showNetworkHelp,
        showPermissionBanner, enableManagerFunctions, disableManagerFunctions, tryCatch, bind,
        M.bind, pure, theProvider, theContract, emit, await, modifyCtl, loadAllData_run, *]
        all_goals (try split_ifs)
        all_goals (try simp [emit, M.bind])
        all_goals (try split_ifs)
        all_goals (try simp [emit, M.bind])
      simp only [ha] at hperm
      cases hcode : w.getCode <;> cases hst : w.getContractStats <;>
        simp [trace, connectWallet, verifyContract, checkUserPermissions,
        checkAndSwitchNetwork, showStatus, showContractHelp, showNetworkHelp,
        showPermissionBanner, enableManagerFunctions, disableManagerFunctions, tryCatch, bind,
        M.bind, pure, theProvider, theContract, emit, await, modifyCtl, loadAllData_run, *] <;>
        split_ifs <;> simp [trace, connectWallet, verifyContract, checkUserPermissions,
        checkAndSwitchNetwork, showStatus, showContractHelp, showNetworkHelp,
        showPermissionBanner, enableManagerFunctions, disableManagerFunctions, tryCatch, bind,
        M.bind, pure, theProvider, theContract, emit, await, modifyCtl, loadAllData_run, *]

/-- C13: when no wallet provider is injected, `connectWallet` shows the error status asking to
install MetaMask and does nothing else: no provider request, query or command is issued, the
method returns normally and the controller (provider, signer, contract, button marks) is
unchanged. -/
theorem no_provider_leaves_controller (c : Controller) (w : World) (h : w.hasEthereum = false) :
    trace (connectWallet w) c = [Effect.status "Please install MetaMask to continue" "error"] ∧
    after (connectWallet w) c = c ∧
    result (connectWallet w) c = Except.ok () := by
  simp [trace, after, result, connectWallet, showStatus, tryCatch, bind, M.bind, pure, emit, h]

/-- Witness for C13: a fresh controller on a page without wallet stays disconnected. -/
theorem no_provider_leaves_controller_witness :
    noWalletWorld.hasEthereum = false ∧
    (trace (connectWallet noWalletWorld) {} =
        [Effect.status "Please install MetaMask to continue" "error"] ∧
      after (connectWallet noWalletWorld) {} = {} ∧
      result (connectWallet noWalletWorld) {} = Except.ok ()) ∧
    (after (connectWallet noWalletWorld) {}).contract = none ∧
    (after (connectWallet noWalletWorld) {}).provider = none ∧
    (after (connectWallet noWalletWorld) {}).signer = none :=
  ⟨rfl, no_provider_leaves_controller {} noWalletWorld rfl, by decide!, by decide!, by decide!⟩

/-! ### The log is write-only -/

theorem framed_pure {α : Type} (a : α) : Framed (pure a : M α) := fun _ => by
  simp [pure]

theorem framed_raise {α : Type} (e : Err) : Framed (raise e : M α) := fun _ => by
  simp [raise]

theorem framed_await {α : Type} (r : Except Err α) : Framed (await r) := fun _ => by
  simp [await]

theorem framed_getCtl : Framed getCtl := fun _ => by
  simp [getCtl]

theorem framed_theContract : Framed theContract := fun s => by
  cases h : s.ctl.contract <;> simp [theContract, h]

theorem framed_emit (e : Effect) : Framed (emit e) := fun _ => by
  simp [emit]

theorem framed_bind {α β : Type} {m : M α} {f : α → M β} (hm : Framed m)
    (hf : ∀ a, Framed (f a)) : Framed (m >>= f) := by
  intro s
  have h1 := hm s
  show M.bind m f s = ((M.bind m f _).1, { ctl := (M.bind m f _).2.ctl, log := _ ++ (M.bind m f _).2.log })
  unfold M.bind
  rw [h1]
  rcases hr : m { ctl := s.ctl, log := [] } with ⟨r, s1⟩
  cases r with
  | error e => simp
  | ok a =>
    simp only []
    rw [hf a { ctl := s1.ctl, log := s.log ++ s1.log }, hf a s1]
    simp

theorem framed_tryCatch {α : Type} {body : M α} {handler : Err → M α} (hb : Framed body)
    (hh : ∀ e, Framed (handler e)) : Framed (tryCatch body handler) := by
  intro s
  have h1 := hb s
  unfold tryCatch
  rw [h1]
  rcases hr : body { ctl := s.ctl, log := [] } with ⟨r, s1⟩
  cases r with
  | ok a => simp
  | error e =>
    simp only []
    rw [hh e { ctl := s1.ctl, log := s.log ++ s1.log }, hh e s1]
    simp

theorem framed_addedLog {α : Type} {m : M α} (h : Framed m) (s : St) :
    addedLog m s = trace m s.ctl := by
  unfold addedLog trace
  rw [h s]
  simp

theorem framed_inventoryLoop (w : World) (n : Nat) :
    ∀ i items, Framed (inventoryLoop w n i items) := by
  induction n with
  | zero => intro i items; exact framed_pure _
  | succ k ih =>
    intro i items
    unfold SecretInventory.inventoryLoop
    refine framed_bind (framed_tryCatch ?_ ?_) (fun a => ih _ a)
    · refine framed_bind framed_theContract (fun c => ?_)
      refine framed_bind (framed_emit _) (fun _ => ?_)
      exact framed_bind (framed_await _) (fun _ => framed_pure _)
    · intro e
      exact framed_bind (framed_emit _) (fun _ => framed_pure _)

theorem framed_ordersLoop (w : World) (n : Nat) :
    ∀ i orders, Framed (ordersLoop w n i orders) := by
  induction n with
  | zero => intro i orders; exact framed_pure _
  | succ k ih =>
    intro i orders
    unfold SecretInventory.ordersLoop
    refine framed_bind (framed_tryCatch ?_ ?_) (fun a => ih _ a)
    · refine framed_bind framed_theContract (fun c => ?_)
      refine framed_bind (framed_emit _) (fun _ => ?_)
      exact framed_bind (framed_await _) (fun _ => framed_pure _)
    · intro e
      exact framed_bind (framed_emit _) (fun _ => framed_pure _)

theorem framed_loadInventoryData (w : World) : Framed (loadInventoryData w) := by
  simp only [SecretInventory.loadInventoryData, renderInventoryItems, updateInventoryStats,
    showStatus]
  refine framed_bind framed_getCtl (fun c => ?_)
  split
  · exact framed_pure _
  · refine framed_tryCatch ?_ (fun _ => ?_)
    · repeat (first
        | with_reducible exact framed_pure _
        | with_reducible exact framed_theContract
        | with_reducible exact framed_await _
        | with_reducible exact framed_emit _
        | with_reducible exact framed_inventoryLoop _ _ _ _
        | with_reducible refine framed_bind ?_ (fun _ => ?_))
    · exact framed_bind (framed_emit _) (fun _ => framed_emit _)

theorem framed_renderOrders (orders : List Order) : Framed (renderOrders orders) := by
  simp only [SecretInventory.renderOrders]
  split
  · exact framed_emit _
  repeat (first
    | with_reducible exact framed_pure _
    | with_reducible exact framed_await _
    | with_reducible exact framed_emit _
    | with_reducible refine framed_bind ?_ (fun _ => ?_))

theorem framed_loadOrdersData (w : World) : Framed (loadOrdersData w) := by
  simp only [SecretInventory.loadOrdersData, updateOrderStats]
  refine framed_bind framed_getCtl (fun c => ?_)
  split
  · exact framed_pure _
  · refine framed_tryCatch ?_ (fun _ => framed_emit _)
    repeat (first
      | with_reducible exact framed_pure _
      | with_reducible exact framed_theContract
      | with_reducible exact framed_await _
      | with_reducible exact framed_emit _
      | with_reducible exact framed_ordersLoop _ _ _ _
      | with_reducible exact framed_renderOrders _
      | with_reducible refine framed_bind ?_ (fun _ => ?_))

theorem framed_loadAnalyticsData (w : World) : Framed (loadAnalyticsData w) := by
  simp only [SecretInventory.loadAnalyticsData]
  refine framed_bind framed_getCtl (fun c => ?_)
  split
  · exact framed_emit _
  · refine framed_tryCatch ?_ (fun _ => framed_emit _)
    repeat (first
      | with_reducible exact framed_theContract
      | with_reducible exact framed_await _
      | with_reducible exact framed_emit _
      | with_reducible refine framed_bind ?_ (fun _ => ?_))

theorem loadAllData_addedLog (w : World) (s : St) :
    addedLog (loadAllData w) s =
      trace (loadInventoryData w) s.ctl ++ trace (loadOrdersData w) s.ctl ++
        trace loadSuppliersData s.ctl ++ trace (loadAnalyticsData w) s.ctl := by
  have h4 := returns_run_unit (returns_loadAnalyticsData w)
  have hsup : ∀ c, trace loadSuppliersData c = [Effect.renderSuppliers] := fun c => by
    simp [trace, loadSuppliersData, emit]
  have hrun : loadAllData w s = (Except.ok (), { ctl := s.ctl, log := s.log ++
      (trace (loadInventoryData w) s.ctl ++ trace (loadOrdersData w) s.ctl ++
        trace loadSuppliersData s.ctl ++ trace (loadAnalyticsData w) s.ctl) }) := by
    simp only [loadAllData, bind, M.bind, loadInventoryData_run, loadOrdersData_run,
      loadSuppliersData, emit, h4, framed_addedLog (framed_loadInventoryData w),
      framed_addedLog (framed_loadOrdersData w), framed_addedLog (framed_loadAnalyticsData w),
      hsup, List.append_assoc]
    rfl
  unfold addedLog
  rw [hrun]
  simp

/-! ### Order of the connection steps -/

set_option maxHeartbeats 4000000 in
/-- Success of `connectWallet` is reported exactly when every step before the permission check
succeeds; the marks of the steps occur in order; the suppliers refresh only follows a success. -/
theorem connect_success_steps (c : Controller) (w : World) :
    (Effect.status "Wallet connected successfully!" "success" ∈ trace (connectWallet w) c ↔
      w.hasEthereum = true ∧ (∃ u, w.requestAccounts = Except.ok u) ∧
      (∃ signer, w.getSigner = Except.ok signer) ∧ (∃ net, w.getNetwork = Except.ok net) ∧
      (∃ address, w.getAddress = Except.ok address) ∧
      (∃ code, w.getCode = Except.ok code ∧ code ≠ "0x") ∧
      (∃ stats, w.getContractStats = Except.ok stats)) ∧
    (∀ signer address, w.getSigner = Except.ok signer → w.getAddress = Except.ok address →
      Effect.status "Wallet connected successfully!" "success" ∈ trace (connectWallet w) c →
      inOrder
        [Effect.walletRequest "eth_requestAccounts", Effect.providerCall "getNetwork",
         Effect.providerCall "getCode",
         Effect.query { boundSigner := some signer } (Query.authorizedManagers address),
         Effect.status "Wallet connected successfully!" "success"]
        (trace (connectWallet w) c) = true) ∧
    (Effect.renderSuppliers ∈ trace (connectWallet w) c →
      Effect.status "Wallet connected successfully!" "success" ∈ trace (connectWallet w) c) := by
  obtain ⟨ct, pr, sg, gt⟩ := c
  rcases hperm : w.authorizedManagers
      (match w.getAddress with
        | Except.ok address => address
        | Except.error _ => "") with em | (_ | _) <;>
  · cases he : w.hasEthereum
    · simp [trace, connectWallet, verifyContract, checkUserPermissions,
        checkAndSwitchNetwork, showStatus, showContractHelp, showNetworkHelp,
        showPermissionBanner, enableManagerFunctions, disableManagerFunctions, tryCatch, bind,
        M.bind, pure, theProvider, theContract, emit, await, modifyCtl, loadAllData_run,
        inOrder, *]
    cases hr : w.requestAccounts
    · simp [trace, connectWallet, verifyContract, checkUserPermissions,
        checkAndSwitchNetwork, showStatus, showContractHelp, showNetworkHelp,
        showPermissionBanner, enableManagerFunctions, disableManagerFunctions, tryCatch, bind,
        M.bind, pure, theProvider, theContract, emit, await, modifyCtl, loadAllData_run,
        inOrder, *]
      all_goals (try split_ifs)
      all_goals (try simp [emit, M.bind])
    cases hs : w.getSigner
    · simp [trace, connectWallet, verifyContract, checkUserPermissions,
        checkAndSwitchNetwork, showStatus, showContractHelp, showNetworkHelp,
        showPermissionBanner, enableManagerFunctions, disableManagerFunctions, tryCatch, bind,
        M.bind, pure, theProvider, theContract, emit, await, modifyCtl, loadAllData_run,
        inOrder, *]
      all_goals (try split_ifs)
      all_goals (try simp [emit, M.bind])
    cases hn : w.getNetwork
    · simp [trace, connectWallet, verifyContract, checkUserPermissions,
        checkAndSwitchNetwork, showStatus, showContractHelp, showNetworkHelp,
        showPermissionBanner, enableManagerFunctions, disableManagerFunctions, tryCatch, bind,
        M.bind, pure, theProvider, theContract, emit, await, modifyCtl, loadAllData_run,
        inOrder, *]
      all_goals (try split_ifs)
      all_goals (try simp [emit, M.bind])
    cases ha : w.getAddress
    · simp [trace, connectWallet, verifyContract, checkUserPermissions,
        checkAndSwitchNetwork, showStatus, showContractHelp, showNetworkHelp,
        showPermissionBanner, enableManagerFunctions, disableManagerFunctions, tryCatch, bind,
        M.bind, pure, theProvider, theContract, emit, await, modifyCtl, loadAllData_run,
        inOrder, *]
      all_goals (try split_ifs)
      all_goals (try simp [emit, M.bind])
      all_goals (try split_ifs)
      all_goals (try simp [emit, M.bind])
    simp only [ha] at hperm
    cases hcode : w.getCode <;> cases hst : w.getContractStats <;>
      simp [trace, connectWallet, verifyContract, checkUserPermissions,
        checkAndSwitchNetwork, showStatus, showContractHelp, showNetworkHelp,
        showPermissionBanner, enableManagerFunctions, disableManagerFunctions, tryCatch, bind,
        M.bind, pure, theProvider, theContract, emit, await, modifyCtl, loadAllData_run,
        inOrder, *] <;>
      split_ifs <;> simp [trace, connectWallet, verifyContract, checkUserPermissions,
        checkAndSwitchNetwork, showStatus, showContractHelp, showNetworkHelp,
        showPermissionBanner, enableManagerFunctions, disableManagerFunctions, tryCatch, bind,
        M.bind, pure, theProvider, theContract, emit, await, modifyCtl, loadAllData_run,
        inOrder, *]

set_option maxHeartbeats 4000000 in
/-- C14 (as amended): `connectWallet` reports success exactly when the wallet is present, the
accounts, signer, network and address are obtained and the contract is verified (bytecode other
than `'0x'` and a successful statistics query); the outcome of the manager-authorization query
plays no part. When success is reported, the account request, the network query, the bytecode
query, the manager-authorization query and the success status occur in this order, and the data
load runs only if success was reported. In that case the whole trace is: the connecting status,
the account request, the signer and network queries, the effects of `checkAndSwitchNetwork`, the
address query with the two header updates, the two verification queries, the effects of
`checkUserPermissions`, the success status, and then the data load, whose effects are exactly
those of the four refreshes run on the connected controller, each refresh in its own order. -/
theorem connect_success_iff (c : Controller) (w : World) :
    (Effect.status "Wallet connected successfully!" "success" ∈ trace (connectWallet w) c ↔
      w.hasEthereum = true ∧ (∃ u, w.requestAccounts = Except.ok u) ∧
      (∃ signer, w.getSigner = Except.ok signer) ∧ (∃ net, w.getNetwork = Except.ok net) ∧
      (∃ address, w.getAddress = Except.ok address) ∧
      (∃ code, w.getCode = Except.ok code ∧ code ≠ "0x") ∧
      (∃ stats, w.getContractStats = Except.ok stats)) ∧
    (∀ signer address, w.getSigner = Except.ok signer → w.getAddress = Except.ok address →
      Effect.status "Wallet connected successfully!" "success" ∈ trace (connectWallet w) c →
      inOrder
        [Effect.walletRequest "eth_requestAccounts", Effect.providerCall "getNetwork",
         Effect.providerCall "getCode",
         Effect.query { boundSigner := some signer } (Query.authorizedManagers address),
         Effect.status "Wallet connected successfully!" "success"]
        (trace (connectWallet w) c) = true) ∧
    (Effect.renderSuppliers ∈ trace (connectWallet w) c →
      Effect.status "Wallet connected successfully!" "success" ∈ trace (connectWallet w) c) ∧
    (∀ (signer : Signer) (net : Network) (address code : String) (stats : Stats),
      w.hasEthereum = true → w.requestAccounts = Except.ok () →
      w.getSigner = Except.ok signer → w.getNetwork = Except.ok net →
      w.getAddress = Except.ok address → w.getCode = Except.ok code → code ≠ "0x" →
      w.getContractStats = Except.ok stats →
      ∃ load,
        trace (connectWallet w) c =
          [Effect.status "Connecting to wallet..." "loading",
           Effect.walletRequest "eth_requestAccounts", Effect.providerCall "getSigner",
           Effect.providerCall "getNetwork"] ++
          trace (checkAndSwitchNetwork net) c ++
          [Effect.providerCall "getAddress",
           Effect.networkStatus
             ("Connected to " ++ (if net.name = "" then "Custom Network" else net.name)),
           Effect.connectButton (shorten address), Effect.providerCall "getCode",
           Effect.query { boundSigner := some signer } Query.getContractStats] ++
          trace (checkUserPermissions w address) (after (connectWallet w) c) ++
          [Effect.status "Wallet connected successfully!" "success"] ++ load ∧
        load.Perm
          (trace (loadInventoryData w) (after (connectWallet w) c) ++
           trace (loadOrdersData w) (after (connectWallet w) c) ++
           trace loadSuppliersData (after (connectWallet w) c) ++
           trace (loadAnalyticsData w) (after (connectWallet w) c)) ∧
        (trace (loadInventoryData w) (after (connectWallet w) c)).Sublist load ∧
        (trace (loadOrdersData w) (after (connectWallet w) c)).Sublist load ∧
        (trace loadSuppliersData (after (connectWallet w) c)).Sublist load ∧
        (trace (loadAnalyticsData w) (after (connectWallet w) c)).Sublist load) := by
  refine ⟨(connect_success_steps c w).1, (connect_success_steps c w).2.1,
    (connect_success_steps c w).2.2, ?_⟩
  intro signer net address code stats he hr hs hn ha hcode hne hst
  obtain ⟨ct, pr, sg, gt⟩ := c
  refine ⟨trace (loadInventoryData w) (after (connectWallet w) ⟨ct, pr, sg, gt⟩) ++
         trace (loadOrdersData w) (after (connectWallet w) ⟨ct, pr, sg, gt⟩) ++
         trace loadSuppliersData (after (connectWallet w) ⟨ct, pr, sg, gt⟩) ++
         trace (loadAnalyticsData w) (after (connectWallet w) ⟨ct, pr, sg, gt⟩), ?_,
         List.Perm.refl _, ?_, ?_, ?_, ?_⟩
  · rcases hperm : w.authorizedManagers address with em | (_ | _) <;>
    by_cases hk : net.chainId ∈ networkConfigs <;>
    simp [trace, after, connectWallet, verifyContract, checkUserPermissions,
        checkAndSwitchNetwork, showStatus, showContractHelp, showNetworkHelp,
        showPermissionBanner, enableManagerFunctions, disableManagerFunctions, tryCatch, bind,
        M.bind, pure, theProvider, theContract, emit, await, modifyCtl, loadAllData_run,
        loadAllData_addedLog, *]
  · exact ((List.sublist_append_left _ _).trans (List.sublist_append_left _ _)).trans
      (List.sublist_append_left _ _)
  · exact ((List.sublist_append_right _ _).trans (List.sublist_append_left _ _)).trans
      (List.sublist_append_left _ _)
  · exact (List.sublist_append_right _ _).trans (List.sublist_append_left _ _)
  · exact List.sublist_append_right _ _

/-- Witness for C14: on a chain outside the network table every step succeeds; the trace runs
through the custom-network warning, the verification, the permission banner and the success
status, and the data load follows. -/
theorem connect_success_iff_witness :
    customNetworkWorld.hasEthereum = true ∧
    customNetworkWorld.getCode = Except.ok "0x6080" ∧
    (∃ load,
      trace (connectWallet customNetworkWorld) {} =
        [Effect.status "Connecting to wallet..." "loading",
         Effect.walletRequest "eth_requestAccounts", Effect.providerCall "getSigner",
         Effect.providerCall "getNetwork"] ++
        trace (checkAndSwitchNetwork { chainId := 31337, name := "unknown" }) {} ++
        [Effect.providerCall "getAddress",
         Effect.networkStatus
           ("Connected to " ++ (if "unknown" = "" then "Custom Network" else "unknown")),
         Effect.connectButton (shorten "0xA11CE"), Effect.providerCall "getCode",
         Effect.query { boundSigner := some { address := "0xA11CE" } } Query.getContractStats] ++
        trace (checkUserPermissions customNetworkWorld "0xA11CE")
          (after (connectWallet customNetworkWorld) {}) ++
        [Effect.status "Wallet connected successfully!" "success"] ++ load ∧
      load.Perm
        (trace (loadInventoryData customNetworkWorld) (after (connectWallet customNetworkWorld) {}) ++
         trace (loadOrdersData customNetworkWorld) (after (connectWallet customNetworkWorld) {}) ++
         trace loadSuppliersData (after (connectWallet customNetworkWorld) {}) ++
         trace (loadAnalyticsData customNetworkWorld)
           (after (connectWallet customNetworkWorld) {})) ∧
      (trace (loadInventoryData customNetworkWorld)
        (after (connectWallet customNetworkWorld) {})).Sublist load ∧
      (trace (loadOrdersData customNetworkWorld)
        (after (connectWallet customNetworkWorld) {})).Sublist load ∧
      (trace loadSuppliersData (after (connectWallet customNetworkWorld) {})).Sublist load ∧
      (trace (loadAnalyticsData customNetworkWorld)
        (after (connectWallet customNetworkWorld) {})).Sublist load) ∧
    (trace (connectWallet customNetworkWorld) {}).take 13 =
      [Effect.status "Connecting to wallet..." "loading",
       Effect.walletRequest "eth_requestAccounts", Effect.providerCall "getSigner",
       Effect.providerCall "getNetwork",
       Effect.status
         "⚠️ Custom network detected. Make sure contract is deployed on this network." "warning",
       Effect.providerCall "getAddress", Effect.networkStatus "Connected to unknown",
       Effect.connectButton "0xA11C...11CE", Effect.providerCall "getCode",
       Effect.query { boundSigner := some { address := "0xA11CE" } } Query.getContractStats,
       Effect.query { boundSigner := some { address := "0xA11CE" } }
         (Query.authorizedManagers "0xA11CE"),
       Effect.banner "⚠️ Limited Access - Contact owner for manager authorization" "warning",
       Effect.status "Wallet connected successfully!" "success"] :=
  ⟨rfl, rfl,
   (connect_success_iff {} customNetworkWorld).2.2.2 { address := "0xA11CE" }
     { chainId := 31337, name := "unknown" } "0xA11CE" "0x6080"
     { totalItems := 4, totalOrders := 0, activeItemsCount := 2, pendingOrdersCount := 0 }
     rfl rfl rfl rfl rfl rfl (by decide) rfl,
   by decide!⟩

/-- C14 fails as stated: with a failing manager-authorization query `connectWallet` shows the
`Permission Check Failed` banner and still reports success. -/
theorem failed_permission_query_still_connects :
    permissionQueryFailsWorld.authorizedManagers "0xA11CE" =
      Except.error { message := "could not decode result data" } ∧
    Effect.banner "❌ Permission Check Failed - Some functions may not work" "error"
      ∈ trace (connectWallet permissionQueryFailsWorld) {} ∧
    Effect.status "Wallet connected successfully!" "success"
      ∈ trace (connectWallet permissionQueryFailsWorld) {} :=
  ⟨rfl, by decide!, by decide!⟩

/-! ### Pending commands -/

theorem appends_sendAndConfirm (w : World) (cmd : Command) :
    Appends (fun _ => True) (sendAndConfirm w cmd) := by
  unfold SecretInventory.sendAndConfirm
  repeat (first
    | with_reducible exact appends_theContract
    | with_reducible exact appends_await _
    | with_reducible exact appends_emit _ trivial
    | with_reducible refine appends_bind ?_ (fun _ => ?_))

theorem appends_perform (w : World) (intent : Intent) :
    Appends (fun _ => True) (perform w intent) := by
  have hinv := appends_mono (appends_loadInventoryData w) (fun _ _ => trivial)
  have hord := appends_mono (appends_loadOrdersData w) (fun _ _ => trivial)
  cases intent <;>
  simp only [SecretInventory.perform, submitNewItem, submitNewOrder, processOrder, updateItemStock,
    authorizeManager, grantAccess, emergencyPause, validateOrderItem, showStatus,
    showContractHelp, closeModal, clearForm] <;>
  repeat (first
    | with_reducible exact appends_pure _
    | with_reducible exact appends_raise _
    | with_reducible exact appends_getCtl
    | with_reducible exact appends_theContract
    | with_reducible exact appends_await _
    | with_reducible exact appends_emit _ trivial
    | with_reducible exact appends_sendAndConfirm _ _
    | with_reducible exact hinv
    | with_reducible exact hord
    | with_reducible refine appends_tryCatch ?_ (fun _ => ?_)
    | with_reducible refine appends_bind ?_ (fun _ => ?_)
    | split
    | simp only [submitNewItemCatch, submitNewOrderCatch, processOrderCatch,
        updateItemStockCatch, authorizeManagerCatch, grantAccessCatch, emergencyPauseCatch,
        showStatus, showContractHelp])

/-- C15 (as amended): the controller keeps no record of a pending command. No command method
ever changes the controller. For `submitNewItem` and `processOrder`, the part run before the
first `await` is a prefix of the whole method, leaves the controller unchanged and dispatches the
command; a second submission started while the first is pending therefore repeats exactly what
the first did, the dispatch included: nothing is rejected or queued. -/
theorem pending_command_not_recorded (c : Controller) (w : World) (orderId status : Nat) :
    (∀ intent, after (perform w intent) c = c) ∧
    after (submitNewItemStart w) c = c ∧
    (trace (submitNewItem w) c).take (trace (submitNewItemStart w) c).length =
      trace (submitNewItemStart w) c ∧
    (∀ cmd, result (submitNewItemStart w) c = Except.ok (some cmd) ↔
      ∃ via, Effect.command via cmd ∈ trace (submitNewItemStart w) c) ∧
    trace (submitNewItemStart w >>= fun _ => submitNewItemStart w) c =
      trace (submitNewItemStart w) c ++ trace (submitNewItemStart w) c ∧
    after (processOrderStart orderId status) c = c ∧
    (trace (processOrder w orderId status) c).take
        (trace (processOrderStart orderId status) c).length =
      trace (processOrderStart orderId status) c ∧
    (∀ cmd, result (processOrderStart orderId status) c = Except.ok (some cmd) ↔
      ∃ via, Effect.command via cmd ∈ trace (processOrderStart orderId status) c) ∧
    trace (processOrderStart orderId status >>= fun _ => processOrderStart orderId status) c =
      trace (processOrderStart orderId status) c ++
        trace (processOrderStart orderId status) c := by
  refine ⟨fun intent => (appends_perform w intent { ctl := c, log := [] }).1, ?_⟩
  obtain ⟨ct, pr, sg, gt⟩ := c
  have hA := fun e => (catch_blocks_report e).1
  have hC := fun e => (catch_blocks_report e).2.2.1
  refine ⟨?_, ?_, ?_, ?_, ?_, ?_, ?_, ?_⟩
  · cases ct <;>
    cases hb : (isBlank w.form.itemName || isBlank w.form.itemQuantity ||
      isBlank w.form.itemPrice || isBlank w.form.minStockLevel ||
      isBlank w.form.supplierAddress) <;>
    cases ha : w.isAddress w.form.supplierAddress <;>
    cases hp : w.parseEther w.form.itemPrice <;>
    simp [after, submitNewItemStart, showStatus, tryCatch, bind, M.bind, pure, theContract,
      getCtl, emit, await, returns_run_unit (hA _), hb, ha, hp]
  · cases ct <;>
    cases hb : (isBlank w.form.itemName || isBlank w.form.itemQuantity ||
      isBlank w.form.itemPrice || isBlank w.form.minStockLevel ||
      isBlank w.form.supplierAddress) <;>
    cases ha : w.isAddress w.form.supplierAddress <;>
    cases hp : w.parseEther w.form.itemPrice <;>
    first
    | (simp [trace, submitNewItemStart, submitNewItem, sendAndConfirm, showStatus, tryCatch,
        bind, M.bind, pure, theContract, getCtl, emit, await, returns_run_unit (hA _),
        hb, ha, hp]; done)
    | (rename_i via price
       cases hs : w.send (Command.addInventoryItem (parseInt w.form.itemQuantity) price
          (parseInt w.form.minStockLevel) w.form.itemName w.form.supplierAddress) <;>
       cases hc : w.confirmation (Command.addInventoryItem (parseInt w.form.itemQuantity) price
          (parseInt w.form.minStockLevel) w.form.itemName w.form.supplierAddress) <;>
       simp [trace, submitNewItemStart, submitNewItem, sendAndConfirm, showStatus, closeModal,
        clearForm, tryCatch, bind, M.bind, pure, theContract, getCtl, emit, await,
        returns_run_unit (hA _), loadInventoryData_run, hb, ha, hp, hs, hc])
  · intro cmd
    cases ct <;>
    cases hb : (isBlank w.form.itemName || isBlank w.form.itemQuantity ||
      isBlank w.form.itemPrice || isBlank w.form.minStockLevel ||
      isBlank w.form.supplierAddress) <;>
    cases ha : w.isAddress w.form.supplierAddress <;>
    cases hp : w.parseEther w.form.itemPrice <;>
    simp [trace, result, submitNewItemStart, showStatus, tryCatch, bind, M.bind, pure,
      theContract, getCtl, emit, await, returns_run_unit (hA _), catch_noCommand (hA _),
      hb, ha, hp, eq_comm]
  · cases ct <;>
    cases hb : (isBlank w.form.itemName || isBlank w.form.itemQuantity ||
      isBlank w.form.itemPrice || isBlank w.form.minStockLevel ||
      isBlank w.form.supplierAddress) <;>
    cases ha : w.isAddress w.form.supplierAddress <;>
    cases hp : w.parseEther w.form.itemPrice <;>
    first
    | (simp [trace, submitNewItemStart, showStatus, tryCatch, bind, M.bind, pure, theContract,
        getCtl, emit, await, hb, ha, hp]; done)
    | (rename_i via e
       by_cases h1 : includes e.message "Not authorized manager" = true <;>
       by_cases h2 : includes e.message "missing revert data" = true <;>
       by_cases h3 : e.code = "CALL_EXCEPTION" <;>
       simp [trace, submitNewItemStart, submitNewItemCatch, showStatus, showContractHelp,
        tryCatch, bind, M.bind, pure, theContract, getCtl, emit, await, hb, ha, hp, h1, h2,
        h3])
  · cases ct <;>
    simp [after, processOrderStart, showStatus, tryCatch, bind, M.bind, pure, theContract,
      getCtl, emit]
  · cases ct
    · simp [trace, processOrderStart, processOrder, bind, M.bind, pure, getCtl]
    · cases hs : w.send (Command.processOrder orderId status) <;>
      cases hc : w.confirmation (Command.processOrder orderId status) <;>
      cases hst : statusNames[status]? <;>
      simp [trace, processOrderStart, processOrder, sendAndConfirm, showStatus, tryCatch,
        bind, M.bind, pure, raise, theContract, getCtl, emit, await, returns_run_unit (hC _),
        loadOrdersData_run, hs, hc, hst]
  · intro cmd
    cases ct <;>
    simp [trace, result, processOrderStart, showStatus, tryCatch, bind, M.bind, pure,
      theContract, getCtl, emit, eq_comm]
  · cases ct <;>
    simp [trace, processOrderStart, showStatus, tryCatch, bind, M.bind, pure, theContract,
      getCtl, emit]

/-- C15 fails as stated: two clicks on `submitItem`, or two calls of `processOrder(1, 1)`, the
second made while the command of the first is still pending, both dispatch the command. -/
theorem pending_submission_dispatched_twice :
    trace (submitNewItemStart sampleWorld >>= fun _ => submitNewItemStart sampleWorld)
        connectedController =
      [Effect.status "Adding new inventory item..." "loading",
       Effect.command { boundSigner := some { address := "0xA11CE" } }
         (Command.addInventoryItem (JSNum.num 5) 1000000000000000000 (JSNum.num 2) "bolt" "0x5"),
       Effect.status "Adding new inventory item..." "loading",
       Effect.command { boundSigner := some { address := "0xA11CE" } }
         (Command.addInventoryItem (JSNum.num 5) 1000000000000000000 (JSNum.num 2) "bolt" "0x5")] ∧
    trace (processOrderStart 1 1 >>= fun _ => processOrderStart 1 1) connectedController =
      [Effect.status "Approved order..." "loading",
       Effect.command { boundSigner := some { address := "0xA11CE" } }
         (Command.processOrder 1 1),
       Effect.status "Approved order..." "loading",
       Effect.command { boundSigner := some { address := "0xA11CE" } }
         (Command.processOrder 1 1)] :=
  ⟨by decide!, by decide!⟩

/-! ### Argument ranges -/

/-- C17 (as amended): an add-item submission that passes the client-side checks (five non-empty
fields, a supplier accepted by `isAddress`, a price accepted by `parseEther`) dispatches exactly
one command, right after the loading status: `addInventoryItem` with `parseInt(quantity)`, the
wei value of the price and `parseInt(minStockLevel)` as they are, with no range check. -/
theorem addItem_arguments_unchecked (c : Controller) (w : World) (via : Handle) (priceInWei : Int)
    (hc : c.contract = some via)
    (hname : isBlank w.form.itemName = false)
    (hquantity : isBlank w.form.itemQuantity = false)
    (hprice : isBlank w.form.itemPrice = false)
    (hmin : isBlank w.form.minStockLevel = false)
    (hsupplier : isBlank w.form.supplierAddress = false)
    (haddr : w.isAddress w.form.supplierAddress = true)
    (hwei : w.parseEther w.form.itemPrice = Except.ok priceInWei) :
    (trace (submitNewItem w) c).take 2 =
      [Effect.status "Adding new inventory item..." "loading",
       Effect.command via
        (Command.addInventoryItem (parseInt w.form.itemQuantity) priceInWei
          (parseInt w.form.minStockLevel) w.form.itemName w.form.supplierAddress)] ∧
    ∀ via1 cmd, Effect.command via1 cmd ∈ trace (submitNewItem w) c →
      cmd = Command.addInventoryItem (parseInt w.form.itemQuantity) priceInWei
          (parseInt w.form.minStockLevel) w.form.itemName w.form.supplierAddress := by
  obtain ⟨ct, pr, sg, gt⟩ := c
  simp only at hc
  subst hc
  have hA := fun e => (catch_blocks_report e).1
  cases hs : w.send (Command.addInventoryItem (parseInt w.form.itemQuantity) priceInWei
      (parseInt w.form.minStockLevel) w.form.itemName w.form.supplierAddress) <;>
  cases hcf : w.confirmation (Command.addInventoryItem (parseInt w.form.itemQuantity)
      priceInWei (parseInt w.form.minStockLevel) w.form.itemName w.form.supplierAddress) <;>
  simp [trace, submitNewItem, sendAndConfirm, showStatus, closeModal, clearForm, tryCatch,
    bind, M.bind, pure, theContract, getCtl, emit, await, returns_run_unit (hA _),
    catch_noCommand (hA _), loadInventoryData_run, notMem_addedLog_loadInventoryData, *]

/-- Witness for C17: the sample add-item form on a connected controller. -/
theorem addItem_arguments_unchecked_witness :
    connectedController.contract = some { boundSigner := some { address := "0xA11CE" } } ∧
    sampleWorld.isAddress sampleWorld.form.supplierAddress = true ∧
    sampleWorld.parseEther sampleWorld.form.itemPrice = Except.ok 1000000000000000000 ∧
    (trace (submitNewItem sampleWorld) connectedController).take 2 =
      [Effect.status "Adding new inventory item..." "loading",
       Effect.command { boundSigner := some { address := "0xA11CE" } }
         (Command.addInventoryItem (JSNum.num 5) 1000000000000000000 (JSNum.num 2) "bolt" "0x5")] :=
  ⟨rfl, by decide, rfl,
   (addItem_arguments_unchecked connectedController sampleWorld
      { boundSigner := some { address := "0xA11CE" } } 1000000000000000000 rfl
      (by decide) (by decide) (by decide) (by decide) (by decide) (by decide) rfl).1.trans
     (by decide!)⟩

/-- C17 fails as stated: a form with quantity `4294967296`, minimum stock level `-1` and a price
of 100 ETH passes the client-side checks, and the command is dispatched with a quantity of 2^32,
a minimum stock level below zero and a price of 10^20 wei, which is not below 2^64. -/
theorem out_of_range_arguments_dispatched :
    Effect.command { boundSigner := some { address := "0xA11CE" } }
        (Command.addInventoryItem (JSNum.num 4294967296) 100000000000000000000 (JSNum.num (-1)) "bolt"
          "0x5")
      ∈ trace (submitNewItem outOfRangeWorld) connectedController ∧
    ¬ ((4294967296 : Int) < 2 ^ 32) ∧ ¬ ((100000000000000000000 : Int) < 2 ^ 64) ∧
    ¬ ((0 : Int) ≤ -1) := by
  refine ⟨by decide!, by norm_num, by norm_num, by norm_num⟩

/-! ### Refresh failures and the order list -/

theorem ordersLoop_silent (w : World) (n : Nat) :
    ∀ i orders, Appends (fun e => ∀ m k, e ≠ Effect.status m k) (ordersLoop w n i orders) := by
  induction n with
  | zero => intro i orders; exact appends_pure _
  | succ k ih =>
    intro i orders
    unfold SecretInventory.ordersLoop
    refine appends_bind (appends_tryCatch ?_ ?_) (fun a => ih _ a)
    · refine appends_bind appends_theContract (fun c => ?_)
      refine appends_bind (appends_emit _ (by simp)) (fun _ => ?_)
      exact appends_bind (appends_await _) (fun _ => appends_pure _)
    · intro e
      exact appends_bind (appends_emit _ (by simp)) (fun _ => appends_pure _)

theorem availableLoop_silent (w : World) (n : Nat) :
    ∀ i items, Appends (fun e => ∀ m k, e ≠ Effect.status m k) (availableLoop w n i items) := by
  induction n with
  | zero => intro i items; exact appends_pure _
  | succ k ih =>
    intro i items
    unfold SecretInventory.availableLoop
    refine appends_bind (appends_tryCatch ?_ ?_) (fun a => ih _ a)
    · refine appends_bind appends_theContract (fun c => ?_)
      refine appends_bind (appends_emit _ (by simp)) (fun _ => ?_)
      refine appends_bind (appends_await _) (fun _ => ?_)
      split <;> exact appends_pure _
    · intro e
      exact appends_pure _

theorem loadOrdersData_silent (w : World) :
    Appends (fun e => ∀ m k, e ≠ Effect.status m k) (loadOrdersData w) := by
  simp only [SecretInventory.loadOrdersData, renderOrders, updateOrderStats]
  repeat (first
    | with_reducible exact appends_pure _
    | with_reducible exact appends_getCtl
    | with_reducible exact appends_theContract
    | with_reducible exact appends_await _
    | with_reducible exact appends_emit _ (by simp)
    | with_reducible exact ordersLoop_silent _ _ _ _
    | with_reducible refine appends_tryCatch ?_ (fun _ => ?_)
    | with_reducible refine appends_bind ?_ (fun _ => ?_)
    | split)

theorem populateAvailableItems_silent (w : World) :
    Appends (fun e => ∀ m k, e ≠ Effect.status m k) (populateAvailableItems w) := by
  simp only [SecretInventory.populateAvailableItems]
  repeat (first
    | with_reducible exact appends_pure _
    | with_reducible exact appends_theContract
    | with_reducible exact appends_await _
    | with_reducible exact appends_emit _ (by simp)
    | with_reducible exact availableLoop_silent _ _ _ _
    | with_reducible refine appends_tryCatch ?_ (fun _ => ?_)
    | with_reducible refine appends_bind ?_ (fun _ => ?_)
    | split)

/-- C18 (evaluation at the failing input): `loadOrdersData` and `populateAvailableItems` never
show a status, whatever fails. With a failing statistics query `loadInventoryData` shows
`Failed to load inventory data`, while the other two only write a console line; a rendering
failure in `loadOrdersData` is swallowed the same way, and `populateAvailableItems` skips a
failing item without even a console line. -/
theorem silent_refresh_failures :
    (∀ (w : World) (c : Controller) (message kind : String),
      Effect.status message kind ∉ trace (loadOrdersData w) c ∧
      Effect.status message kind ∉ trace (populateAvailableItems w) c) ∧
    trace (loadInventoryData statsFailWorld) connectedController =
      [Effect.query { boundSigner := some { address := "0xA11CE" } } Query.getContractStats,
       Effect.consoleError "Error loading inventory:",
       Effect.status "Failed to load inventory data" "error"] ∧
    trace (loadOrdersData statsFailWorld) connectedController =
      [Effect.query { boundSigner := some { address := "0xA11CE" } } Query.getContractStats,
       Effect.consoleError "Error loading orders:"] ∧
    trace (populateAvailableItems statsFailWorld) connectedController =
      [Effect.query { boundSigner := some { address := "0xA11CE" } } Query.getContractStats,
       Effect.consoleError "Error loading available items:"] ∧
    trace (loadOrdersData oneOrderWorld) connectedController =
      [Effect.query { boundSigner := some { address := "0xA11CE" } } Query.getContractStats,
       Effect.query { boundSigner := some { address := "0xA11CE" } }
         (Query.getOrderInfo (JSNum.num 1)),
       Effect.consoleError "Error loading orders:"] ∧
    trace (populateAvailableItems sampleWorld) connectedController =
      [Effect.query { boundSigner := some { address := "0xA11CE" } } Query.getContractStats,
       Effect.query { boundSigner := some { address := "0xA11CE" } }
         (Query.getItemInfo (JSNum.num 1)),
       Effect.query { boundSigner := some { address := "0xA11CE" } }
         (Query.getItemInfo (JSNum.num 2)),
       Effect.query { boundSigner := some { address := "0xA11CE" } }
         (Query.getItemInfo (JSNum.num 3)),
       Effect.query { boundSigner := some { address := "0xA11CE" } }
         (Query.getItemInfo (JSNum.num 4)),
       Effect.availableItems
         [{ id := 1, name := "bolt" }, { id := 2, name := "bolt" },
          { id := 4, name := "bolt" }]] := by
  refine ⟨?_, by decide!, by decide!, by decide!, by decide!, by decide!⟩
  intro w c message kind
  constructor
  · intro h
    obtain ⟨_, l, hl, hq⟩ := loadOrdersData_silent w { ctl := c, log := [] }
    have hmem : Effect.status message kind ∈ l := by
      have : trace (loadOrdersData w) c = l := by simpa [trace] using hl
      rw [← this]; exact h
    exact hq _ hmem message kind rfl
  · intro h
    obtain ⟨_, l, hl, hq⟩ := populateAvailableItems_silent w { ctl := c, log := [] }
    have hmem : Effect.status message kind ∈ l := by
      have : trace (populateAvailableItems w) c = l := by simpa [trace] using hl
      rw [← this]; exact h
    exact hq _ hmem message kind rfl

/-- C19 (evaluation at the failing input): the status name of an order projection is the entry of
`statusNames` at the status code (`Unknown` outside 0..4), but its `fulfilled` flag is `false` for
every order, because the bigint status is compared with the number 3 by `===`; an order with
status code 3 is named `Fulfilled` and flagged not fulfilled. -/
theorem fulfilled_flag_never_set :
    (∀ (i : Nat) (order : OrderInfo),
      (orderProjection i order).status = (statusNames.get? order.status).getD "Unknown" ∧
      (orderProjection i order).fulfilled = false) ∧
    orderProjection 1 { itemId := 1, status := 3, createdAt := 100, processedAt := 200 } =
      { id := 1, itemId := "1", status := "Fulfilled", fulfilled := false, createdAt := 100,
        processedAt := some 200 } :=
  ⟨fun _ _ => ⟨rfl, rfl⟩, by decide!⟩

/-- C20 (evaluation at the failing input): `renderOrders` raises a `TypeError` on every non-empty
list, before writing anything, because the projection has no `requester`; with one order on the
chain `loadOrdersData` ends in its `catch` block and `updateOrderStats` never runs. Only the empty
list is rendered and counted. -/
theorem renderOrders_raises_on_orders :
    (∀ (order : Order) (rest : List Order) (c : Controller),
      result (renderOrders (order :: rest)) c = Except.error undefinedError ∧
      trace (renderOrders (order :: rest)) c = []) ∧
    trace (loadOrdersData oneOrderWorld) connectedController =
      [Effect.query { boundSigner := some { address := "0xA11CE" } } Query.getContractStats,
       Effect.query { boundSigner := some { address := "0xA11CE" } }
         (Query.getOrderInfo (JSNum.num 1)),
       Effect.consoleError "Error loading orders:"] ∧
    trace (loadOrdersData sampleWorld) connectedController =
      [Effect.query { boundSigner := some { address := "0xA11CE" } } Query.getContractStats,
       Effect.renderOrders [], Effect.orderStats 0 0] := by
  refine ⟨?_, by decide!, by decide!⟩
  intro order rest c
  simp [result, trace, renderOrders, orderCard, Order.requester, await, bind, M.bind,
    List.mapM_cons]
  constructor <;> rfl

/-! ### Stock updates -/

theorem bitLengthAux_le (fuel : Nat) : ∀ (m k : Nat), m < 2 ^ k → bitLengthAux fuel m ≤ k := by
  induction fuel with
  | zero => intro m k _; simp [bitLengthAux]
  | succ n ih =>
    intro m k h
    unfold bitLengthAux
    split_ifs with h0
    · exact Nat.zero_le _
    · cases k with
      | zero => simp at h; exact absurd h h0
      | succ j =>
        have : m / 2 < 2 ^ j := by
          rw [Nat.div_lt_iff_lt_mul (by norm_num)]
          rw [pow_succ] at h
          exact h
        exact Nat.succ_le_succ (ih _ _ this)

/-- Below 2^53 every integer is a double: `parseInt` is exact there. -/
theorem nearestDouble_safe (m : Nat) (h : m < 2 ^ 53) : nearestDouble m = some m := by
  have hb : bitLength m ≤ 53 := bitLengthAux_le m m 53 h
  have hb2 : bitLength m ≤ 1024 := le_trans hb (by norm_num)
  have he : bitLength m - 53 = 0 := Nat.sub_eq_zero_of_le hb
  simp [nearestDouble, he, Nat.mod_one, hb2]

/-- Rounding of `nearestDouble` at the first integers that are not doubles, and at the largest
finite double. -/
theorem nearestDouble_samples :
    nearestDouble (2 ^ 53 + 1) = some (2 ^ 53) ∧
    nearestDouble (2 ^ 53 + 2) = some (2 ^ 53 + 2) ∧
    nearestDouble (2 ^ 53 + 3) = some (2 ^ 53 + 4) ∧
    nearestDouble (2 ^ 64 - 1) = some (2 ^ 64) ∧
    nearestDouble (2 ^ 1024 - 2 ^ 970 - 1) = some (2 ^ 1024 - 2 ^ 971) ∧
    nearestDouble (2 ^ 1024 - 2 ^ 970) = none ∧
    parseInt "-9007199254740993" = JSNum.num (-9007199254740992) ∧
    parseInt "0x20000000000001" = JSNum.num 9007199254740992 ∧
    jsGreater (JSNum.infinity false) (JSNum.num 0) = true ∧
    mathAbs (JSNum.infinity true) = JSNum.infinity false := by
  refine ⟨by decide!, by decide!, by decide!, by decide!, by decide!, by decide!, by decide!,
    by decide!, rfl, rfl⟩

theorem parseInt_blank (q : String) (h : isBlank q = true) : parseInt q = JSNum.nan := by
  have : q = "" := by simpa [isBlank] using h
  subst this
  decide

/-- C21: sign-magnitude decomposition in `updateItemStock`. On a controller holding a handle, for
every prompt answer for which `parseInt` returns a non-zero integer `n` (the nearest double when
the digits exceed 2^53) the trace starts with the loading status followed by the command
`updateStock(itemId, |n|, n > 0)`, no other command is sent, the delta is recovered as
`n = (isAddition ? quantity : -quantity)` and the quantity is not negative; the answer `0` sends
`updateStock(itemId, 0, false)`; the empty answer leaves the trace empty. -/
theorem updateItemStock_sign_magnitude (c : Controller) (w : World) (via : Handle) (itemId : Nat)
    (hc : c.contract = some via) :
    (∀ q n, w.promptDialog = some q → parseInt q = JSNum.num n → n ≠ 0 →
      (trace (updateItemStock w itemId) c).take 2 =
        [Effect.status "Updating stock..." "loading",
         Effect.command via
          (Command.updateStock itemId (JSNum.num (n.natAbs : Int)) (decide (n > 0)))] ∧
      (∀ via1 cmd, Effect.command via1 cmd ∈ trace (updateItemStock w itemId) c →
        cmd = Command.updateStock itemId (JSNum.num (n.natAbs : Int)) (decide (n > 0))) ∧
      n = (if decide (n > 0) = true then (n.natAbs : Int) else - (n.natAbs : Int)) ∧
      (0 : Int) ≤ (n.natAbs : Int)) ∧
    (w.promptDialog = some "0" →
      (trace (updateItemStock w itemId) c).take 2 =
        [Effect.status "Updating stock..." "loading",
         Effect.command via (Command.updateStock itemId (JSNum.num 0) false)]) ∧
    (w.promptDialog = some "" → trace (updateItemStock w itemId) c = []) := by
  obtain ⟨ct, pr, sg, gt⟩ := c
  simp only at hc
  subst hc
  have hA := fun e => (catch_blocks_report e).2.2.2.1
  have key0 : ∀ q, w.promptDialog = some q → isBlank q = false →
      (trace (updateItemStock w itemId) ⟨some via, pr, sg, gt⟩).take 2 =
        [Effect.status "Updating stock..." "loading",
         Effect.command via
          (Command.updateStock itemId (mathAbs (parseInt q))
            (jsGreater (parseInt q) (JSNum.num 0)))] ∧
      (∀ via1 cmd, Effect.command via1 cmd ∈
          trace (updateItemStock w itemId) ⟨some via, pr, sg, gt⟩ →
        cmd = Command.updateStock itemId (mathAbs (parseInt q))
            (jsGreater (parseInt q) (JSNum.num 0))) := by
    intro q hq hb
    cases hs : w.send (Command.updateStock itemId (mathAbs (parseInt q))
        (jsGreater (parseInt q) (JSNum.num 0))) <;>
    cases hcf : w.confirmation (Command.updateStock itemId (mathAbs (parseInt q))
        (jsGreater (parseInt q) (JSNum.num 0))) <;>
    simp [trace, updateItemStock, sendAndConfirm, showStatus, tryCatch,
      bind, M.bind, pure, theContract, getCtl, emit, await, returns_run_unit (hA _),
      catch_noCommand (hA _), loadInventoryData_run, notMem_addedLog_loadInventoryData, *]
  have key : ∀ q n, w.promptDialog = some q → parseInt q = JSNum.num n →
      (trace (updateItemStock w itemId) ⟨some via, pr, sg, gt⟩).take 2 =
        [Effect.status "Updating stock..." "loading",
         Effect.command via
          (Command.updateStock itemId (JSNum.num (n.natAbs : Int)) (decide (n > 0)))] ∧
      (∀ via1 cmd, Effect.command via1 cmd ∈
          trace (updateItemStock w itemId) ⟨some via, pr, sg, gt⟩ →
        cmd = Command.updateStock itemId (JSNum.num (n.natAbs : Int)) (decide (n > 0))) := by
    intro q n hq hn
    have hb : isBlank q = false := by
      cases hb : isBlank q
      · rfl
      · rw [parseInt_blank q hb] at hn
        cases hn
    have h := key0 q hq hb
    rw [hn] at h
    exact h
  refine ⟨?_, ?_, ?_⟩
  · intro q n hq hn _
    refine ⟨(key q n hq hn).1, (key q n hq hn).2, ?_, Int.natCast_nonneg _⟩
    by_cases h : n > 0
    · rw [if_pos (by simpa using h)]
      exact (Int.natAbs_of_nonneg (le_of_lt h)).symm
    · rw [if_neg (by simpa using h), Int.ofNat_natAbs_of_nonpos (not_lt.mp h), neg_neg]
  · intro hq
    exact (key "0" 0 hq (by decide)).1
  · intro hq
    simp [trace, updateItemStock, isBlank, bind, M.bind, pure, getCtl, hq]

/-- Witness for C21: on a connected controller the answers `-4`, `15` and `0` to the stock prompt
send `updateStock(2, 4, false)`, `updateStock(2, 15, true)` and `updateStock(2, 0, false)`, the
answer `9007199254740993` (2^53 + 1) sends the double `parseInt` returns for it,
`updateStock(2, 9007199254740992, true)`, and the empty answer sends nothing. -/
theorem updateItemStock_sign_magnitude_witness :
    connectedController.contract = some { boundSigner := some { address := "0xA11CE" } } ∧
    (trace (updateItemStock (promptWorld "-4") 2) connectedController).take 2 =
      [Effect.status "Updating stock..." "loading",
       Effect.command { boundSigner := some { address := "0xA11CE" } }
         (Command.updateStock 2 (JSNum.num 4) false)] ∧
    (trace (updateItemStock (promptWorld "15") 2) connectedController).take 2 =
      [Effect.status "Updating stock..." "loading",
       Effect.command { boundSigner := some { address := "0xA11CE" } }
         (Command.updateStock 2 (JSNum.num 15) true)] ∧
    (trace (updateItemStock (promptWorld "9007199254740993") 2) connectedController).take 2 =
      [Effect.status "Updating stock..." "loading",
       Effect.command { boundSigner := some { address := "0xA11CE" } }
         (Command.updateStock 2 (JSNum.num 9007199254740992) true)] ∧
    (trace (updateItemStock (promptWorld "0") 2) connectedController).take 2 =
      [Effect.status "Updating stock..." "loading",
       Effect.command { boundSigner := some { address := "0xA11CE" } }
         (Command.updateStock 2 (JSNum.num 0) false)] ∧
    trace (updateItemStock (promptWorld "") 2) connectedController = [] :=
  ⟨rfl,
   ((updateItemStock_sign_magnitude connectedController (promptWorld "-4")
      { boundSigner := some { address := "0xA11CE" } } 2 rfl).1 "-4" (-4) rfl (by decide)
      (by decide)).1.trans (by decide),
   ((updateItemStock_sign_magnitude connectedController (promptWorld "15")
      { boundSigner := some { address := "0xA11CE" } } 2 rfl).1 "15" 15 rfl (by decide)
      (by decide)).1.trans (by decide),
   ((updateItemStock_sign_magnitude connectedController (promptWorld "9007199254740993")
      { boundSigner := some { address := "0xA11CE" } } 2 rfl).1 "9007199254740993"
      9007199254740992 rfl (by decide) (by decide)).1.trans (by decide),
   (updateItemStock_sign_magnitude connectedController (promptWorld "0")
      { boundSigner := some { address := "0xA11CE" } } 2 rfl).2.1 rfl,
   (updateItemStock_sign_magnitude connectedController (promptWorld "")
      { boundSigner := some { address := "0xA11CE" } } 2 rfl).2.2 rfl⟩

/-! ### The order form and its list of available items -/

theorem availableLoop_eval (w : World) (via : Handle) (n : Nat) :
    ∀ (i : Nat) (items : List AvailableItem) (s : St), s.ctl.contract = some via →
      ∃ l, availableLoop w n i items s =
          (Except.ok (items ++ (List.range' i n).filterMap (availableAt w)),
            { ctl := s.ctl, log := s.log ++ l }) ∧
        ∀ e ∈ l, e.isFetchNoise = true := by
  induction n with
  | zero =>
    intro i items s _
    exact ⟨[], by simp [availableLoop, pure], by simp⟩
  | succ k ih =>
    intro i items s hs
    have hnoise : ∀ (l : List Effect), (∀ e ∈ l, e.isFetchNoise = true) →
        ∀ e ∈ [Effect.query via (Query.getItemInfo (JSNum.num (i : Int)))] ++ l,
          e.isFetchNoise = true := by
      intro l hn e he
      rcases List.mem_append.mp he with h | h
      · simp at h
        simp [h, Effect.isFetchNoise]
      · exact hn e h
    cases hq : w.getItemInfo (JSNum.num (i : Int)) with
    | error e =>
      obtain ⟨l, hl, hn⟩ := ih (i + 1) items
        { ctl := s.ctl, log := s.log ++ [Effect.query via (Query.getItemInfo (JSNum.num (i : Int)))] } hs
      refine ⟨[Effect.query via (Query.getItemInfo (JSNum.num (i : Int)))] ++ l, ?_, hnoise l hn⟩
      simp [availableLoop, tryCatch, bind, M.bind, pure, theContract, emit, await, hs, hq,
        List.range'_succ, availableAt] at hl ⊢
      exact hl
    | ok item =>
      cases ha : item.isActive with
      | false =>
        obtain ⟨l, hl, hn⟩ := ih (i + 1) items
          { ctl := s.ctl,
            log := s.log ++ [Effect.query via (Query.getItemInfo (JSNum.num (i : Int)))] } hs
        refine ⟨[Effect.query via (Query.getItemInfo (JSNum.num (i : Int)))] ++ l, ?_, hnoise l hn⟩
        simp [availableLoop, tryCatch, bind, M.bind, pure, theContract, emit, await, hs, hq, ha,
          List.range'_succ, availableAt] at hl ⊢
        exact hl
      | true =>
        obtain ⟨l, hl, hn⟩ := ih (i + 1) (items ++ [{ id := i, name := item.itemName }])
          { ctl := s.ctl,
            log := s.log ++ [Effect.query via (Query.getItemInfo (JSNum.num (i : Int)))] } hs
        refine ⟨[Effect.query via (Query.getItemInfo (JSNum.num (i : Int)))] ++ l, ?_, hnoise l hn⟩
        simp [availableLoop, tryCatch, bind, M.bind, pure, theContract, emit, await, hs, hq, ha,
          List.range'_succ, availableAt] at hl ⊢
        exact hl

theorem availableAt_id (w : World) (i : Nat) (a : AvailableItem) (h : availableAt w i = some a) :
    a.id = i := by
  unfold availableAt at h
  split at h
  · split at h
    · cases h
      rfl
    · cases h
  · cases h

theorem available_ids (w : World) (i n : Nat) :
    ((List.range' i n).filterMap (availableAt w)).map AvailableItem.id =
      (List.range' i n).filter (fun j => (availableAt w j).isSome) := by
  induction n generalizing i with
  | zero => simp
  | succ k ih =>
    cases h : availableAt w i with
    | none => simp [List.range'_succ, h, ih]
    | some a => simp [List.range'_succ, h, ih, availableAt_id w i a h]

theorem populateAvailableItems_eval (c : Controller) (w : World) (via : Handle) (stats : Stats)
    (hc : c.contract = some via) (hs : w.getContractStats = Except.ok stats) :
    ∃ l, trace (populateAvailableItems w) c =
        Effect.query via Query.getContractStats :: l ++
          [Effect.availableItems ((List.range' 1 stats.totalItems).filterMap (availableAt w))] ∧
      ∀ e ∈ l, e.isFetchNoise = true := by
  obtain ⟨l, hl, hn⟩ := availableLoop_eval w via stats.totalItems 1 []
    { ctl := c, log := [Effect.query via Query.getContractStats] } hc
  refine ⟨l, ?_, hn⟩
  simp [trace, populateAvailableItems, tryCatch, bind, M.bind, pure, theContract, emit, await,
    hs, hc, hl]

theorem order_check_passes_iff (c : Controller) (w : World) (via : Handle) (f : Form) (i : Nat)
    (hc : c.contract = some via) (hid : parseInt f.orderItemId = JSNum.num (i : Int))
    (hquantity : isBlank f.orderQuantity = false) :
    Effect.command via (Command.placeOrder (JSNum.num (i : Int)) (parseInt f.orderQuantity)) ∈
        trace (submitNewOrder { w with form := f }) c ↔
      (availableAt w i).isSome = true := by
  obtain ⟨ct, pr, sg, gt⟩ := c
  simp only at hc
  subst hc
  have hA := fun e => (catch_blocks_report e).2.1
  have hb : isBlank f.orderItemId = false := by
    cases hb : isBlank f.orderItemId
    · rfl
    · rw [parseInt_blank _ hb] at hid
      cases hid
  cases hq : w.getItemInfo (JSNum.num (i : Int)) with
  | error e =>
    simp [trace, submitNewOrder, validateOrderItem, showStatus, tryCatch, bind, M.bind, pure,
      theContract, getCtl, emit, await, availableAt, *]
  | ok item =>
    cases ha : item.isActive with
    | false =>
      simp [trace, submitNewOrder, validateOrderItem, showStatus, tryCatch, bind, M.bind, pure,
        theContract, getCtl, emit, await, availableAt, *]
    | true =>
      cases hs : w.send (Command.placeOrder (JSNum.num (i : Int)) (parseInt f.orderQuantity)) <;>
      cases hcf : w.confirmation
        (Command.placeOrder (JSNum.num (i : Int)) (parseInt f.orderQuantity)) <;>
      simp [trace, submitNewOrder, validateOrderItem, sendAndConfirm, showStatus, closeModal,
        clearForm, tryCatch, bind, M.bind, pure, theContract, getCtl, emit, await, availableAt,
        returns_run_unit (hA _), loadOrdersData_run, *]

/-- C22: the available-items list agrees with the pre-check of `submitNewOrder`. On a controller
holding a handle, with `getContractStats` returning `N` items, `populateAvailableItems` shows
exactly one list; its ids are strictly ascending, hence without duplicates; and for every id `i`
in `1..N` and every order form whose item field parses to `i` and whose quantity is not empty, `i`
is in the list if and only if `submitNewOrder`, run against the same contract state, sends
`placeOrder(i, quantity)`. -/
theorem available_list_agrees_with_order_check (c : Controller) (w : World) (via : Handle)
    (stats : Stats) (hc : c.contract = some via) (hs : w.getContractStats = Except.ok stats) :
    ∃ items : List AvailableItem,
      (∀ l, Effect.availableItems l ∈ trace (populateAvailableItems w) c ↔ l = items) ∧
      (items.map AvailableItem.id).Sorted (· < ·) ∧
      (items.map AvailableItem.id).Nodup ∧
      ∀ (f : Form) (i : Nat), 1 ≤ i → i ≤ stats.totalItems →
        parseInt f.orderItemId = JSNum.num (i : Int) → isBlank f.orderQuantity = false →
        (i ∈ items.map AvailableItem.id ↔
          Effect.command via (Command.placeOrder (JSNum.num (i : Int)) (parseInt f.orderQuantity)) ∈
            trace (submitNewOrder { w with form := f }) c) := by
  obtain ⟨l, hl, hn⟩ := populateAvailableItems_eval c w via stats hc hs
  have hsorted : (((List.range' 1 stats.totalItems).filterMap (availableAt w)).map
      AvailableItem.id).Sorted (· < ·) := by
    rw [available_ids]
    exact List.Sorted.filter _ (List.pairwise_lt_range' 1 stats.totalItems)
  refine ⟨(List.range' 1 stats.totalItems).filterMap (availableAt w), ?_, hsorted,
    hsorted.nodup, ?_⟩
  · intro l1
    rw [hl]
    constructor
    · intro h
      simp at h
      rcases h with h | h
      · have := hn _ h
        simp [Effect.isFetchNoise] at this
      · exact h
    · intro h
      simp [h]
  · intro f i h1 hN hid hquantity
    rw [order_check_passes_iff c w via f i hc hid hquantity, available_ids]
    simp [List.mem_range'_1]
    omega

/-- Witness for C22: with eight items, item 3 unreadable and item 7 inactive, the list holds the
ids 1, 2, 4, 5, 6, 8; an order for item 2 reaches `placeOrder`, orders for items 3 and 7 send
nothing. -/
theorem available_list_agrees_with_order_check_witness :
    connectedController.contract = some { boundSigner := some { address := "0xA11CE" } } ∧
    eightItemsWorld.getContractStats =
      Except.ok { totalItems := 8, totalOrders := 0, activeItemsCount := 6,
                  pendingOrdersCount := 0 } ∧
    (∃ items : List AvailableItem,
      (∀ l, Effect.availableItems l ∈ trace (populateAvailableItems eightItemsWorld)
          connectedController ↔ l = items) ∧
      (items.map AvailableItem.id).Sorted (· < ·) ∧
      (items.map AvailableItem.id).Nodup ∧
      ∀ (f : Form) (i : Nat), 1 ≤ i → i ≤ 8 →
        parseInt f.orderItemId = JSNum.num (i : Int) → isBlank f.orderQuantity = false →
        (i ∈ items.map AvailableItem.id ↔
          Effect.command { boundSigner := some { address := "0xA11CE" } }
              (Command.placeOrder (JSNum.num (i : Int)) (parseInt f.orderQuantity)) ∈
            trace (submitNewOrder { eightItemsWorld with form := f }) connectedController)) ∧
    Effect.availableItems
        [{ id := 1, name := "bolt" }, { id := 2, name := "bolt" }, { id := 4, name := "bolt" },
         { id := 5, name := "bolt" }, { id := 6, name := "bolt" }, { id := 8, name := "bolt" }] ∈
      trace (populateAvailableItems eightItemsWorld) connectedController ∧
    Effect.command { boundSigner := some { address := "0xA11CE" } }
        (Command.placeOrder (JSNum.num 2) (JSNum.num 3)) ∈
      trace (submitNewOrder
        { eightItemsWorld with form := { sampleWorld.form with orderItemId := "2" } })
        connectedController ∧
    trace (submitNewOrder
        { eightItemsWorld with form := { sampleWorld.form with orderItemId := "3" } })
        connectedController =
      [Effect.query { boundSigner := some { address := "0xA11CE" } }
         (Query.getItemInfo (JSNum.num 3)),
       Effect.status "❌ Cannot place order: Item ID does not exist" "error"] ∧
    trace (submitNewOrder eightItemsWorld) connectedController =
      [Effect.query { boundSigner := some { address := "0xA11CE" } }
         (Query.getItemInfo (JSNum.num 7)),
       Effect.status "❌ Cannot place order: Item is inactive or deactivated" "error"] :=
  ⟨rfl, rfl,
   available_list_agrees_with_order_check connectedController eightItemsWorld
     { boundSigner := some { address := "0xA11CE" } }
     { totalItems := 8, totalOrders := 0, activeItemsCount := 6, pendingOrdersCount := 0 }
     rfl rfl,
   by decide!, by decide!, by decide!, by decide!⟩

end SecretInventory
